import Mathlib

/-!
Shallow embedding of `src/biom/commands/table_validator.py` (the BIOM table
validator, Python 2 code: it references the `unicode` builtin, so Python 2
runtime semantics apply — in particular `bool` is a subclass of `int`, and
`json.load` produces `unicode` strings, so `isinstance(s, str)` is false for
every parsed JSON string).

Python runtime values reachable from a parsed JSON document or from the
modelled HDF5 attribute store are embedded as `PyVal`.  Exceptions are
embedded as `Option`: a function returning `Option.none` models a raised
exception, `some r` models a normal return of `r`.  A validation rule thus
has type `… → Option String`, where `some ""` is the rule's success value
(the source returns the empty string on success).

Modelling notes on deliberate abstractions, none of which is on the
evaluation path of any theorem below:
* Python floats are IEEE doubles; they are embedded as exact rationals
  (`Rat`).  No theorem below evaluates float arithmetic or float `repr`.
* `repr` of a Python 2 `dict` lists entries in hash order; the embedding
  uses insertion order.  The only theorem touching a dict `repr` relies
  solely on which characters can occur in it, which is order-independent.
* `repr` of a `unicode` string is embedded as `u'…'` without escaping;
  the strings appearing in theorems contain no characters Python escapes.
* Python 2 `long` (produced by `json.load` for integers beyond machine
  size, and *not* accepted by `isinstance(x, int)`) is not modelled; no
  claim involves such integers.
-/

mutual

inductive PyVal where
  | none : PyVal
  | bool (b : Bool) : PyVal
  | int (n : Int) : PyVal
  | float (q : Rat) : PyVal
  | str (s : String) : PyVal
  | list (l : PyList) : PyVal
  | obj (o : PyObj) : PyVal

inductive PyList where
  | nil : PyList
  | cons (hd : PyVal) (tl : PyList) : PyList

inductive PyObj where
  | nil : PyObj
  | cons (k : String) (v : PyVal) (tl : PyObj) : PyObj

end

def PyList.ofList : List PyVal → PyList
  | [] => .nil
  | x :: xs => .cons x (PyList.ofList xs)

def PyList.toList : PyList → List PyVal
  | .nil => []
  | .cons x xs => x :: xs.toList

def PyObj.ofList : List (String × PyVal) → PyObj
  | [] => .nil
  | (k, v) :: xs => .cons k v (PyObj.ofList xs)

def PyObj.toList : PyObj → List (String × PyVal)
  | .nil => []
  | .cons k v xs => (k, v) :: xs.toList

/-- Helper for writing list values concisely. -/
def pl (l : List PyVal) : PyVal := .list (PyList.ofList l)

/-- Helper for writing dict values concisely. -/
def po (o : List (String × PyVal)) : PyVal := .obj (PyObj.ofList o)

/-! Python 2 `repr` (mutual over the value tree).  Lists render as
`[a, b]`, dicts render their entries in braces (insertion order, see the
module note), unicode strings render as `u'…'`. -/

mutual

def pyRepr : PyVal → String
  | .none => "None"
  | .bool b => if b then "True" else "False"
  | .int n => toString n
  | .float q => toString q
  | .str s => "u'" ++ s ++ "'"
  | .list l => "[" ++ pyReprL l ++ "]"
  | .obj o => "\x7b" ++ pyReprO o ++ "\x7d"

def pyReprL : PyList → String
  | .nil => ""
  | .cons x .nil => pyRepr x
  | .cons x (.cons y tl) => pyRepr x ++ ", " ++ pyReprL (.cons y tl)

def pyReprO : PyObj → String
  | .nil => ""
  | .cons k v .nil => "u'" ++ k ++ "': " ++ pyRepr v
  | .cons k v (.cons k2 v2 tl) =>
      "u'" ++ k ++ "': " ++ pyRepr v ++ ", " ++ pyReprO (.cons k2 v2 tl)

end

/-- Python 2 `str(x)`: the string itself for strings, `repr` otherwise
(the only uses are in `%s` formatting of defect messages). -/
def pyStrOf : PyVal → String
  | .str s => s
  | v => pyRepr v

/-- Exact numeric values as raw fractions: numerator and positive
denominator (not necessarily reduced — only comparisons are performed, by
cross-multiplication, so reduction is unnecessary). -/
abbrev PyNum := Int × Nat

/-- Numeric view of a Python value: `bool`, `int` and `float` support
arithmetic and numeric comparison (Python 2 `True == 1`); everything else
is non-numeric. -/
def pyNum? : PyVal → Option PyNum
  | .bool b => some (if b then 1 else 0, 1)
  | .int n => some (n, 1)
  | .float q => some (q.num, q.den)
  | _ => Option.none

/-- Numeric view with junk default (used only where a preceding check
already guarantees the value is numeric). -/
def pyNumD (v : PyVal) : PyNum := (pyNum? v).getD (0, 1)

/-- Numeric `<` by cross-multiplication. -/
def numLt (a b : PyNum) : Bool := a.1 * (b.2 : Int) < b.1 * (a.2 : Int)

/-- Numeric `x - 1` (`n_rows -= 1` on an unpacked shape component). -/
def numSub1 (a : PyNum) : PyNum := (a.1 - (a.2 : Int), a.2)

/-- `TableValidator._is_int`: `isinstance(x, int)`.  In Python 2 `bool`
is a subclass of `int`, so booleans pass. -/
def is_int : PyVal → Bool
  | .int _ => true
  | .bool _ => true
  | _ => false

/-- Python truthiness (`if not value`). -/
def pyTruthy : PyVal → Bool
  | .none => false
  | .bool b => b
  | .int n => n ≠ 0
  | .float q => q ≠ 0
  | .str s => s ≠ ""
  | .list .nil => false
  | .list _ => true
  | .obj .nil => false
  | .obj _ => true

/-- Python `==` between a runtime value and a text constant: only equal
strings compare equal; comparison with a different type is `False` and
never raises. -/
def pyEqStr (v : PyVal) (s : String) : Bool :=
  match v with
  | .str s' => s' = s
  | _ => false

/-- Python `==` between a runtime value and an integer constant: numeric
equality for `bool`/`int`/`float`, `False` for anything else (Python 2
cross-type `==` never raises). -/
def pyEqInt (v : PyVal) (n : Int) : Bool :=
  match pyNum? v with
  | some q => q.1 = n * (q.2 : Int)
  | Option.none => false

/-- Python `len(x) != v` where `len(x)` is a machine integer and `v` a
runtime value: numeric inequality when `v` is numeric, otherwise `True`
(unequal types are never `==` here, and `!=` never raises in Python 2). -/
def pyNeLen (n : Nat) (v : PyVal) : Bool :=
  match pyNum? v with
  | some q => ¬ ((n : Int) * (q.2 : Int) = q.1)
  | Option.none => true

/-- Python iteration (`for x in v`, tuple unpacking, `tuple(v)`): lists
yield elements, strings yield 1-character strings, dicts yield their keys;
other values raise `TypeError`. -/
def pyIter : PyVal → Option (List PyVal)
  | .list l => some l.toList
  | .str s => some (s.toList.map (fun c => .str (String.mk [c])))
  | .obj o => some (o.toList.map (fun kv => .str kv.1))
  | _ => Option.none

/-- Python `len(v)` for the sized types (consistent with `pyIter`);
other values raise `TypeError`. -/
def pyLen (v : PyVal) : Option Nat := (pyIter v).map List.length

/-- Python `a, b = v`: unpack an iterable of exactly two elements,
raising otherwise. -/
def unpack2 (v : PyVal) : Option (PyVal × PyVal) :=
  match pyIter v with
  | some [a, b] => some (a, b)
  | _ => Option.none

/-- Python `x, y, z = v`: unpack an iterable of exactly three elements,
raising otherwise. -/
def unpack3 (v : PyVal) : Option (PyVal × PyVal × PyVal) :=
  match pyIter v with
  | some [a, b, c] => some (a, b, c)
  | _ => Option.none

/-- Python `v[i]` for a non-negative machine-integer subscript: list and
string index (raising `IndexError` when out of range); a dict lookup with
an integer key raises `KeyError` for JSON documents (keys are strings);
other values raise `TypeError`. -/
def pyIndex (v : PyVal) (i : Nat) : Option PyVal :=
  match v with
  | .list l => l.toList.get? i
  | .str s => (s.toList.get? i).map (fun c => .str (String.mk [c]))
  | _ => Option.none

/-- Python `k in v` for a string `k`: key membership for dicts, element
membership for lists (string `==` per element), substring test for
strings; other values raise `TypeError`. -/
def pyContains (v : PyVal) (k : String) : Option Bool :=
  match v with
  | .obj o => some (o.toList.any (fun kv => kv.1 = k))
  | .list l => some (l.toList.any (fun e => pyEqStr e k))
  | .str s => some ((s.toList.tails.any (fun t => k.toList.isPrefixOf t)))
  | _ => Option.none

/-- Python `v[k]` for a string key `k`: dict lookup (raising `KeyError`
when absent); lists and strings raise `TypeError` on string subscripts,
as does everything else. -/
def pySubscrS (v : PyVal) (k : String) : Option PyVal :=
  match v with
  | .obj o => (o.toList.find? (fun kv => kv.1 = k)).map Prod.snd
  | _ => Option.none

/-- Python `v - 1` as used on the unpacked shape components in
`_valid_sparse_data` (`n_rows -= 1`): defined on numeric values (the
result is only ever used in numeric comparisons, so the numeric view
suffices); raises `TypeError` otherwise. -/
def pySub1 (v : PyVal) : Option PyNum :=
  match pyNum? v with
  | some q => some (numSub1 q)
  | Option.none => Option.none

/-- ASCII lower-casing of one character. -/
def charLower (c : Char) : Char :=
  if 'A' ≤ c && c ≤ 'Z' then Char.ofNat (c.toNat + 32) else c

/-- Python 2 `str.lower()` (document values are ASCII in every claim;
full-Unicode lowering is not modelled). -/
def pyLower (s : String) : String := String.mk (s.toList.map charLower)

/-- `str.replace('_', '-')` as used by `_json_or_hdf5_key`. -/
def underscoreToHyphen (s : String) : String :=
  String.mk (s.toList.map (fun c => if c = '_' then '-' else c))

/-- String prefix test over character lists (kernel-reducible). -/
def strStartsWith (p s : String) : Bool := p.toList.isPrefixOf s.toList

/-- The flat (JSON) document: the dict produced by `json.load`, as an
association list (keys unique in any real document). -/
abbrev JDoc := List (String × PyVal)

/-- `table_json[k]` / `table_json.get(k)` lookup core. -/
def jget? : JDoc → String → Option PyVal
  | [], _ => Option.none
  | (k', v) :: tl, k => if k' = k then some v else jget? tl k

/-- `table_json.get(k, None)`: absent keys give `None`. -/
def jgetD (t : JDoc) (k : String) : PyVal := (jget? t k).getD .none

/-- `k in table_json`. -/
def hasKey (t : JDoc) (k : String) : Bool := (jget? t k).isSome

/-- Removing one key from a document (used to state the missing-field
claims). -/
def eraseKey : JDoc → String → JDoc
  | [], _ => []
  | (k', v) :: tl, k => if k' = k then eraseKey tl k else (k', v) :: eraseKey tl k

/-- The hierarchical (HDF5) document as the validator reads it: a root
attribute mapping, plus the set of present paths (groups and datasets),
each dataset carrying the length `len(...)` reports for it. -/
structure H5Table where
  attrs : JDoc
  items : List (String × Nat)

/-- `table.attrs[k]` raising lookup. -/
def attrGet? (T : H5Table) (k : String) : Option PyVal := jget? T.attrs k

/-- `table.attrs.get(k, None)`. -/
def attrGetD (T : H5Table) (k : String) : PyVal := jgetD T.attrs k

/-- `k in table.attrs`. -/
def hasAttr (T : H5Table) (k : String) : Bool := hasKey T.attrs k

/-- `path in table`. -/
def hasItem (T : H5Table) (p : String) : Bool := T.items.any (fun q => q.1 = p)

/-- `table.get(path, None)` followed by `len(...)`: the dataset's length
when present, Python `None` (modelled `Option.none`) when absent. -/
def itemLen? (T : H5Table) (p : String) : Option Nat :=
  (T.items.find? (fun q => q.1 = p)).map Prod.snd

/-- Removing one attribute (missing-attribute claims). -/
def eraseAttr (T : H5Table) (a : String) : H5Table :=
  { T with attrs := eraseKey T.attrs a }

/-- Removing every item whose name satisfies `bad`. -/
def eraseItems (bad : String → Bool) : List (String × Nat) → List (String × Nat)
  | [] => []
  | q :: tl => if bad q.1 then eraseItems bad tl else q :: eraseItems bad tl

/-- Removing one dataset path. -/
def eraseItem (T : H5Table) (p : String) : H5Table :=
  { T with items := eraseItems (fun n => n = p) T.items }

/-- Removing a group: in HDF5 a group's children go with it, so the path
and everything below it disappear. -/
def eraseGroup (T : H5Table) (g : String) : H5Table :=
  { T with items := eraseItems (fun n => n = g || strStartsWith (g ++ "/") n) T.items }

/-- The duck-typed document handed to the shared rules
(`_json_or_hdf5_get` branches on the presence of `.attrs`). -/
inductive Table where
  | json (t : JDoc)
  | hdf5 (T : H5Table)

/-- `TableValidator._json_or_hdf5_get`. -/
def json_or_hdf5_get (table : Table) (key : String) : PyVal :=
  match table with
  | .hdf5 T => attrGetD T key
  | .json t => jgetD t key

/-- `TableValidator._json_or_hdf5_key`. -/
def json_or_hdf5_key (table : Table) (key : String) : String :=
  match table with
  | .hdf5 _ => underscoreToHyphen key
  | .json _ => key

/-- `TableValidator.FormatURL`. -/
def FormatURL : String := "http://biom-format.org"

/-- `TableValidator.TableTypes`. -/
def TableTypes : List String :=
  ["otu table", "pathway table", "function table", "ortholog table",
   "gene table", "metabolite table", "taxon table"]

/-- `TableValidator.MatrixTypes`. -/
def MatrixTypes : List String := ["sparse", "dense"]

/-- The keys of `TableValidator.ElementTypes`. -/
def ElementTypeKeys : List String := ["int", "str", "float", "unicode"]

/-- `isinstance(v, dtype)` for `dtype = ElementTypes[name]`.  Python 2:
`bool` passes the `int` check; `json.load` strings are `unicode`, so no
JSON value is a byte `str` and the `str` predicate never holds. -/
def isinstanceDtype (name : String) (v : PyVal) : Bool :=
  match name with
  | "int" => is_int v
  | "float" => (match v with | .float _ => true | _ => false)
  | "str" => false
  | "unicode" => (match v with | .str _ => true | _ => false)
  | _ => false

/-- Unhashable Python values (lists, dicts): using one as a set or dict
key raises `TypeError`. -/
def pyUnhashable : PyVal → Bool
  | .list _ => true
  | .obj _ => true
  | _ => false

/-- Membership `v in S` for a set of strings `S`: unhashable values
(lists, dicts) raise `TypeError`; any other non-string is just absent. -/
def pyMemStrSet (v : PyVal) (s : List String) : Option Bool :=
  match v with
  | .list _ => Option.none
  | .obj _ => Option.none
  | .str x => some (x ∈ s)
  | _ => some false

/-! Model of `datetime.strptime` restricted to the four formats of
`_check_date`.  CPython's `_strptime` compiles each directive to a regex
(with `re.IGNORECASE`): `%Y` is four digits, `%m` is `1[0-2]|0[1-9]|[1-9]`,
`%d` is `3[01]|[12][0-9]|0[1-9]|[1-9]`, `%H` is `2[0-3]|[0-1][0-9]|[0-9]`,
`%M` is `[0-5][0-9]|[0-9]`, `%S` is `6[0-1]|[0-5][0-9]|[0-9]`, `%f` is one
to six digits (greedy); the whole input must be consumed ("unconverted
data remains" otherwise), and `datetime(...)` then validates the calendar
date (year at least 1, day within the month, second at most 59 — the
regex-admitted leap seconds 60/61 are rejected by the constructor), any
failure being caught by the rule's bare `except`.  In these formats every
multi-width field is followed by a non-digit or the end of the input, so
the greedy first-alternative parse below agrees with the backtracking
regex. -/

def isDigitCh (c : Char) : Bool := '0' ≤ c && c ≤ '9'

def digitVal (c : Char) : Nat := c.toNat - 48

/-- `%Y`: exactly four digits. -/
def parseY : List Char → Option (Nat × List Char)
  | a :: b :: c :: d :: rest =>
    if isDigitCh a && isDigitCh b && isDigitCh c && isDigitCh d then
      some (digitVal a * 1000 + digitVal b * 100 + digitVal c * 10 + digitVal d, rest)
    else Option.none
  | _ => Option.none

/-- `%m`: `1[0-2]|0[1-9]|[1-9]`. -/
def parseMonth : List Char → Option (Nat × List Char)
  | c1 :: c2 :: rest =>
    if c1 = '1' && '0' ≤ c2 && c2 ≤ '2' then some (10 + digitVal c2, rest)
    else if c1 = '0' && '1' ≤ c2 && c2 ≤ '9' then some (digitVal c2, rest)
    else if '1' ≤ c1 && c1 ≤ '9' then some (digitVal c1, c2 :: rest)
    else Option.none
  | [c1] => if '1' ≤ c1 && c1 ≤ '9' then some (digitVal c1, []) else Option.none
  | [] => Option.none

/-- `%d`: `3[01]|[12][0-9]|0[1-9]|[1-9]`. -/
def parseDay : List Char → Option (Nat × List Char)
  | c1 :: c2 :: rest =>
    if c1 = '3' && '0' ≤ c2 && c2 ≤ '1' then some (30 + digitVal c2, rest)
    else if ('1' ≤ c1 && c1 ≤ '2') && isDigitCh c2 then some (digitVal c1 * 10 + digitVal c2, rest)
    else if c1 = '0' && '1' ≤ c2 && c2 ≤ '9' then some (digitVal c2, rest)
    else if '1' ≤ c1 && c1 ≤ '9' then some (digitVal c1, c2 :: rest)
    else Option.none
  | [c1] => if '1' ≤ c1 && c1 ≤ '9' then some (digitVal c1, []) else Option.none
  | [] => Option.none

/-- `%H`: `2[0-3]|[0-1][0-9]|[0-9]`. -/
def parseHour : List Char → Option (Nat × List Char)
  | c1 :: c2 :: rest =>
    if c1 = '2' && '0' ≤ c2 && c2 ≤ '3' then some (20 + digitVal c2, rest)
    else if ('0' ≤ c1 && c1 ≤ '1') && isDigitCh c2 then some (digitVal c1 * 10 + digitVal c2, rest)
    else if isDigitCh c1 then some (digitVal c1, c2 :: rest)
    else Option.none
  | [c1] => if isDigitCh c1 then some (digitVal c1, []) else Option.none
  | [] => Option.none

/-- `%M`: `[0-5][0-9]|[0-9]`. -/
def parseMinute : List Char → Option (Nat × List Char)
  | c1 :: c2 :: rest =>
    if ('0' ≤ c1 && c1 ≤ '5') && isDigitCh c2 then some (digitVal c1 * 10 + digitVal c2, rest)
    else if isDigitCh c1 then some (digitVal c1, c2 :: rest)
    else Option.none
  | [c1] => if isDigitCh c1 then some (digitVal c1, []) else Option.none
  | [] => Option.none

/-- `%S`: `6[0-1]|[0-5][0-9]|[0-9]`. -/
def parseSecond : List Char → Option (Nat × List Char)
  | c1 :: c2 :: rest =>
    if c1 = '6' && '0' ≤ c2 && c2 ≤ '1' then some (60 + digitVal c2, rest)
    else if ('0' ≤ c1 && c1 ≤ '5') && isDigitCh c2 then some (digitVal c1 * 10 + digitVal c2, rest)
    else if isDigitCh c1 then some (digitVal c1, c2 :: rest)
    else Option.none
  | [c1] => if isDigitCh c1 then some (digitVal c1, []) else Option.none
  | [] => Option.none

/-- `%f`: one to six digits, greedy; the value is unused. -/
def parseFrac (l : List Char) : Option (List Char) :=
  let ds := l.takeWhile isDigitCh
  if ds.isEmpty then Option.none else some (l.drop (min ds.length 6))

/-- A literal character of the format (matched case-insensitively, as
`_strptime` compiles with `re.IGNORECASE` — only `T` has cases here). -/
def parseLit (c : Char) : List Char → Option (List Char)
  | x :: rest => if x = c || (c = 'T' && x = 't') then some rest else Option.none
  | [] => Option.none

def isLeapYear (y : Nat) : Bool := y % 4 = 0 && (y % 100 ≠ 0 || y % 400 = 0)

def daysInMonth (y m : Nat) : Nat :=
  if m = 2 then (if isLeapYear y then 29 else 28)
  else if m = 4 || m = 6 || m = 9 || m = 11 then 30 else 31

/-- The `datetime(...)` constructor's validation of the parsed fields
(the regex already bounds month, day, hour and minute). -/
def datetimeOk (y m d s : Nat) : Bool := 1 ≤ y && d ≤ daysInMonth y m && s ≤ 59

/-- `datetime.strptime(val, "%Y-%m-%d")` succeeds. -/
def strptimeD (val : String) : Bool :=
  match parseY val.toList with
  | Option.none => false
  | some (y, r1) =>
    match parseLit '-' r1 with
    | Option.none => false
    | some r2 =>
      match parseMonth r2 with
      | Option.none => false
      | some (m, r3) =>
        match parseLit '-' r3 with
        | Option.none => false
        | some r4 =>
          match parseDay r4 with
          | Option.none => false
          | some (d, r5) => r5.isEmpty && datetimeOk y m d 0

/-- The `THH:MM` tail shared by the last three formats; returns the rest
together with the seconds value implied so far (0). -/
def parseTHM (l : List Char) : Option (Nat × Nat × List Char) :=
  match parseLit 'T' l with
  | Option.none => Option.none
  | some r1 =>
    match parseHour r1 with
    | Option.none => Option.none
    | some (h, r2) =>
      match parseLit ':' r2 with
      | Option.none => Option.none
      | some r3 =>
        match parseMinute r3 with
        | Option.none => Option.none
        | some (mi, r4) => some (h, mi, r4)

/-- The `%Y-%m-%d` head shared by all four formats. -/
def parseYMD (l : List Char) : Option (Nat × Nat × Nat × List Char) :=
  match parseY l with
  | Option.none => Option.none
  | some (y, r1) =>
    match parseLit '-' r1 with
    | Option.none => Option.none
    | some r2 =>
      match parseMonth r2 with
      | Option.none => Option.none
      | some (m, r3) =>
        match parseLit '-' r3 with
        | Option.none => Option.none
        | some r4 =>
          match parseDay r4 with
          | Option.none => Option.none
          | some (d, r5) => some (y, m, d, r5)

/-- `datetime.strptime(val, "%Y-%m-%dT%H:%M")` succeeds. -/
def strptimeDHM (val : String) : Bool :=
  match parseYMD val.toList with
  | Option.none => false
  | some (y, m, d, r) =>
    match parseTHM r with
    | Option.none => false
    | some (_, _, rest) => rest.isEmpty && datetimeOk y m d 0

/-- `datetime.strptime(val, "%Y-%m-%dT%H:%M:%S")` succeeds. -/
def strptimeDHMS (val : String) : Bool :=
  match parseYMD val.toList with
  | Option.none => false
  | some (y, m, d, r) =>
    match parseTHM r with
    | Option.none => false
    | some (_, _, r4) =>
      match parseLit ':' r4 with
      | Option.none => false
      | some r5 =>
        match parseSecond r5 with
        | Option.none => false
        | some (s, rest) => rest.isEmpty && datetimeOk y m d s

/-- `datetime.strptime(val, "%Y-%m-%dT%H:%M:%S.%f")` succeeds. -/
def strptimeDHMSf (val : String) : Bool :=
  match parseYMD val.toList with
  | Option.none => false
  | some (y, m, d, r) =>
    match parseTHM r with
    | Option.none => false
    | some (_, _, r4) =>
      match parseLit ':' r4 with
      | Option.none => false
      | some r5 =>
        match parseSecond r5 with
        | Option.none => false
        | some (s, r6) =>
          match parseLit '.' r6 with
          | Option.none => false
          | some r7 =>
            match parseFrac r7 with
            | Option.none => false
            | some rest => rest.isEmpty && datetimeOk y m d s

/-- The `valid_times` format list of `_check_date`, as match functions in
source order. -/
def valid_times : List (String → Bool) :=
  [strptimeD, strptimeDHM, strptimeDHMS, strptimeDHMSf]

/-- `TableValidator._check_date`: try each format in order, break on the
first success (a bare `except` swallows every failure, including the
`TypeError` a non-string argument raises, so this rule core never
raises). -/
def check_date (val : PyVal) : String :=
  match val with
  | .str s => if valid_times.any (fun f => f s) then "" else "Timestamp does not appear to be ISO 8601"
  | _ => "Timestamp does not appear to be ISO 8601"

/-! The field rules.  Each mirrors one `TableValidator._valid_*` method;
`Option.none` models a raised exception, `some msg` the returned status
message (empty on success). -/

/-- `TableValidator._valid_nnz` (hierarchical only): `table.attrs['nnz']`
raises on a missing attribute; `isinstance(_, int)`; `< 0`. -/
def valid_nnz (T : H5Table) : Option String :=
  match attrGet? T "nnz" with
  | Option.none => Option.none
  | some v =>
    if ¬ is_int v then some "nnz is not an integer!"
    else if numLt (pyNumD v) (0, 1) then some "nnz is negative!"
    else some ""

/-- `TableValidator._valid_format_url` (both encodings): exact string
equality against `FormatURL` (`!=` never raises). -/
def valid_format_url (table : Table) : Option String :=
  let key := json_or_hdf5_key table "format_url"
  let value := json_or_hdf5_get table key
  if ¬ pyEqStr value FormatURL then some ("Invalid '" ++ key ++ "'") else some ""

/-- `TableValidator._valid_shape` (both encodings): `a, b = get(table,
'shape')` raises unless the value unpacks as a pair; then both components
must satisfy `_is_int`.  No sign check is performed. -/
def valid_shape (table : Table) : Option String :=
  match unpack2 (json_or_hdf5_get table "shape") with
  | Option.none => Option.none
  | some (a, b) =>
    if ¬ (is_int a && is_int b) then some "'shape' values do not appear to be integers"
    else some ""

/-- `TableValidator._valid_matrix_type` (flat only): raising key access,
then case-sensitive membership in `MatrixTypes` (`in` raises on
unhashable values). -/
def valid_matrix_type (t : JDoc) : Option String :=
  match jget? t "matrix_type" with
  | Option.none => Option.none
  | some v =>
    match pyMemStrSet v MatrixTypes with
    | Option.none => Option.none
    | some mem => if ¬ mem then some "Unknown 'matrix_type'" else some ""

/-- `TableValidator._valid_matrix_element_type` (flat only). -/
def valid_matrix_element_type (t : JDoc) : Option String :=
  match jget? t "matrix_element_type" with
  | Option.none => Option.none
  | some v =>
    match pyMemStrSet v ElementTypeKeys with
    | Option.none => Option.none
    | some mem => if ¬ mem then some "Unknown 'matrix_element_type'" else some ""

/-- `TableValidator._valid_creation_date` (hierarchical): raising
attribute access, then `_check_date` (which never raises). -/
def valid_creation_date (T : H5Table) : Option String :=
  match attrGet? T "creation-date" with
  | Option.none => Option.none
  | some v => some (check_date v)

/-- `TableValidator._valid_datetime` (flat): raising key access, then
`_check_date`. -/
def valid_datetime (t : JDoc) : Option String :=
  match jget? t "date" with
  | Option.none => Option.none
  | some v => some (check_date v)

/-- `ElementTypes[table_json['matrix_element_type']]`: raising key
access, then a raising dict lookup (`KeyError` for a non-key, `TypeError`
for an unhashable value).  Returns the element-type name. -/
def dtypeOf (t : JDoc) : Option String :=
  match jget? t "matrix_element_type" with
  | Option.none => Option.none
  | some (.str s) => if s ∈ ElementTypeKeys then some s else Option.none
  | some _ => Option.none

/-- Whether one sparse data entry passes every per-entry check of
`_valid_sparse_data` (`nr`/`nc` are the shape components minus one). -/
def sparse_entry_ok (dtype : String) (nr nc : PyNum) (e : PyVal) : Bool :=
  match unpack3 e with
  | Option.none => false
  | some (x, y, v) =>
    is_int x && is_int y && isinstanceDtype dtype v &&
      ¬ (numLt (pyNumD x) (0, 1) || numLt nr (pyNumD x)) &&
      ¬ (numLt (pyNumD y) (0, 1) || numLt nc (pyNumD y))

/-- The entry loop of `_valid_sparse_data`: checks in source order
(unpack inside `try`, index types, value type, x bounds, y bounds),
returning at the first failure. -/
def sparse_loop (dtype : String) (nr nc : PyNum) : List PyVal → Nat → Option String
  | [], _ => some ""
  | coord :: rest, idx =>
    match unpack3 coord with
    | Option.none => some ("Bad matrix entry idx " ++ toString idx ++ ": " ++ pyRepr coord)
    | some (x, y, v) =>
      if ¬ is_int x || ¬ is_int y then
        some ("Bad x or y type at idx " ++ toString idx ++ ": " ++ pyRepr coord)
      else if ¬ isinstanceDtype dtype v then
        some ("Bad value at idx " ++ toString idx ++ ": " ++ pyRepr coord)
      else if numLt (pyNumD x) (0, 1) || numLt nr (pyNumD x) then
        some ("x out of bounds at idx " ++ toString idx ++ ": " ++ pyRepr coord)
      else if numLt (pyNumD y) (0, 1) || numLt nc (pyNumD y) then
        some ("y out of bounds at idx " ++ toString idx ++ ": " ++ pyRepr coord)
      else sparse_loop dtype nr nc rest (idx + 1)

/-- `TableValidator._valid_sparse_data`: dtype lookup, shape unpacking
and the 0-based bound adjustment (`n_rows -= 1`, a `TypeError` on
non-numeric components), then the entry loop. -/
def valid_sparse_data (t : JDoc) : Option String :=
  match dtypeOf t with
  | Option.none => Option.none
  | some dtype =>
    match jget? t "shape" with
    | Option.none => Option.none
    | some shp =>
      match unpack2 shp with
      | Option.none => Option.none
      | some (nr0, nc0) =>
        match pySub1 nr0, pySub1 nc0 with
        | some nr, some nc =>
          (match jget? t "data" with
           | Option.none => Option.none
           | some dv =>
             match pyIter dv with
             | Option.none => Option.none
             | some ds => sparse_loop dtype nr nc ds 0)
        | _, _ => Option.none

/-- Whether one dense row passes the per-row checks of
`_valid_dense_data` (`nc` is the raw second shape component; an empty
row with the right length would make `reduce` raise, so it is not ok). -/
def dense_row_ok (dtype : String) (nc : PyVal) (row : PyVal) : Bool :=
  match pyIter row with
  | Option.none => false
  | some elems =>
    ¬ pyNeLen elems.length nc && ¬ elems.isEmpty && elems.all (isinstanceDtype dtype)

/-- The row loop of `_valid_dense_data`: `some (some m)` models an early
`return m`, `some Option.none` a completed loop, `Option.none` a raised
exception (`len` of an unsized row, or `reduce(and_, [])` on an empty
row). -/
def dense_loop (dtype : String) (nc : PyVal) : List PyVal → Option (Option String)
  | [] => some Option.none
  | row :: rest =>
    match pyIter row with
    | Option.none => Option.none
    | some elems =>
      if pyNeLen elems.length nc then some (some ("Incorrect number of cols: " ++ pyRepr row))
      else if elems.isEmpty then Option.none
      else if ¬ elems.all (isinstanceDtype dtype) then
        some (some ("Bad datatype in row: " ++ pyRepr row))
      else dense_loop dtype nc rest

/-- `TableValidator._valid_dense_data`: dtype lookup, shape unpacking,
the row loop, and — only if no row returned early — the final row-count
comparison. -/
def valid_dense_data (t : JDoc) : Option String :=
  match dtypeOf t with
  | Option.none => Option.none
  | some dtype =>
    match jget? t "shape" with
    | Option.none => Option.none
    | some shp =>
      match unpack2 shp with
      | Option.none => Option.none
      | some (nr, nc) =>
        match jget? t "data" with
        | Option.none => Option.none
        | some dv =>
          match pyIter dv with
          | Option.none => Option.none
          | some rows =>
            match dense_loop dtype nc rows with
            | Option.none => Option.none
            | some (some m) => some m
            | some Option.none =>
              if pyNeLen rows.length nr then some "Incorrect number of rows in matrix"
              else some ""

/-- `TableValidator._valid_hdf5_format_version`: raising attribute
access, `tuple(ver)` (raises on non-iterables), membership in
`{(2, 0)}` by element-wise numeric equality. -/
def valid_hdf5_format_version (T : H5Table) : Option String :=
  match attrGet? T "format-version" with
  | Option.none => Option.none
  | some ver =>
    match pyIter ver with
    | Option.none => Option.none
    | some l =>
      if l.any pyUnhashable then Option.none
      else
        let mem : Bool := match l with
          | [a, b] => pyEqInt a 2 && pyEqInt b 0
          | _ => false
        if ¬ mem then some ("Invalid format version '" ++ pyStrOf ver ++ "'") else some ""

/-- `TableValidator._valid_format` (flat only): raising key access, then
`!=` against the configured version string. -/
def valid_format (format_version : String) (t : JDoc) : Option String :=
  match jget? t "format" with
  | Option.none => Option.none
  | some v =>
    if ¬ pyEqStr v format_version then
      some ("Invalid format '" ++ pyStrOf v ++ "', must be '" ++ format_version ++ "'")
    else some ""

/-- `TableValidator._valid_type` (both encodings): `value.lower()`
raises `AttributeError` on non-strings; case-insensitive membership in
`TableTypes`. -/
def valid_type (table : Table) : Option String :=
  let key := json_or_hdf5_key table "type"
  let value := json_or_hdf5_get table key
  match value with
  | .str s =>
    if ¬ (pyLower s ∈ TableTypes) then some ("Unknown BIOM type: " ++ pyStrOf value)
    else some ""
  | _ => Option.none

/-- `TableValidator._valid_generated_by` (both encodings): truthiness. -/
def valid_generated_by (table : Table) : Option String :=
  let value := json_or_hdf5_get table (json_or_hdf5_key table "generated_by")
  if ¬ pyTruthy value then some "'generated_by' is not populated" else some ""

/-- `TableValidator._valid_nullable_id`: always passes. -/
def valid_nullable_id (_table : Table) : Option String := some ""

/-- `TableValidator._valid_id` (per row/column record): raising `['id']`
access (the caller checked `'id' in record`, which only guarantees the
access for dicts), then truthiness; the failure message interpolates the
whole record, not its index. -/
def valid_id (record : PyVal) : Option String :=
  match pySubscrS record "id" with
  | Option.none => Option.none
  | some v =>
    if ¬ pyTruthy v then some ("'id' in " ++ pyStrOf record ++ " appears empty")
    else some ""

/-- `TableValidator._valid_metadata` (per row/column record): `None` or
a dict passes. -/
def valid_metadata (record : PyVal) : Option String :=
  match pySubscrS record "metadata" with
  | Option.none => Option.none
  | some PyVal.none => some ""
  | some (PyVal.obj _) => some ""
  | some _ => some "metadata is neither null or an object"

/-- Whether one row/column record passes every check of the
`_valid_rows` loop body. -/
def record_ok (row : PyVal) : Bool :=
  pyContains row "id" = some true && valid_id row = some "" &&
    pyContains row "metadata" = some true && valid_metadata row = some ""

/-- The record loop shared by `_valid_rows` and `_valid_columns` (the
source duplicates the function body verbatim; `required_by_type` is the
empty dict, so the checked keys are always exactly `id` then
`metadata`).  `kind` is `"ROW"` or `"COL"`. -/
def records_loop (kind : String) : List PyVal → Nat → Option String
  | [], _ => some ""
  | row :: rest, idx =>
    match pyContains row "id" with
    | Option.none => Option.none
    | some false => some (kind ++ " IDX " ++ toString idx ++ " MISSING 'id' FIELD")
    | some true =>
      match valid_id row with
      | Option.none => Option.none
      | some m =>
        if m.length > 0 then some m
        else
          match pyContains row "metadata" with
          | Option.none => Option.none
          | some false => some (kind ++ " IDX " ++ toString idx ++ " MISSING 'metadata' FIELD")
          | some true =>
            match valid_metadata row with
            | Option.none => Option.none
            | some m2 => if m2.length > 0 then some m2 else records_loop kind rest (idx + 1)

/-- `TableValidator._valid_rows`: `table_json['type'].lower()` raises on
a missing or non-string `type` (it indexes `required_by_type`, an empty
dict, so its value is otherwise unused); then the record loop over a
raising `table_json['rows']` access. -/
def valid_rows (t : JDoc) : Option String :=
  match jget? t "type" with
  | Option.none => Option.none
  | some (.str _) =>
    (match jget? t "rows" with
     | Option.none => Option.none
     | some rv =>
       match pyIter rv with
       | Option.none => Option.none
       | some rs => records_loop "ROW" rs 0)
  | some _ => Option.none

/-- `TableValidator._valid_columns`: identical to `_valid_rows` with the
`columns` key and `COL` messages. -/
def valid_columns (t : JDoc) : Option String :=
  match jget? t "type" with
  | Option.none => Option.none
  | some (.str _) =>
    (match jget? t "columns" with
     | Option.none => Option.none
     | some cv =>
       match pyIter cv with
       | Option.none => Option.none
       | some cs => records_loop "COL" cs 0)
  | some _ => Option.none

/-- `TableValidator._valid_data` (flat only): dispatch on
`table_json['matrix_type'].lower()` (raising access, `AttributeError` on
non-strings). -/
def valid_data (t : JDoc) : Option String :=
  match jget? t "matrix_type" with
  | Option.none => Option.none
  | some (.str s) =>
    if pyLower s = "sparse" then valid_sparse_data t
    else if pyLower s = "dense" then valid_dense_data t
    else some "Unknown matrix type"
  | some _ => Option.none

/-! The validation drivers.  Both `_validate_json` and `_validate_hdf5`
run the same required-field loop: missing key → one report line and a
failed verdict (continue); present key → optional narrative line, run the
rule, non-empty message → failed verdict plus the message as a line.  An
exception anywhere propagates out of the driver (`Option.none`). -/

/-- The shared required-field loop (`for key, method in required_…`). -/
def run_rules {α : Type} (d : α) (present : String → Bool) (missMsg : String → String)
    (detailed : Bool) :
    List (String × (α → Option String)) → Bool → List String → Option (Bool × List String)
  | [], valid, lines => some (valid, lines)
  | (key, method) :: rest, valid, lines =>
    if ¬ present key then
      run_rules d present missMsg detailed rest false (lines ++ [missMsg key])
    else
      let lines' := if detailed then lines ++ ["Validating '" ++ key ++ "'..."] else lines
      match method d with
      | Option.none => Option.none
      | some msg =>
        if msg.length > 0 then run_rules d present missMsg detailed rest false (lines' ++ [msg])
        else run_rules d present missMsg detailed rest valid lines'

/-- `self._valid_format_url` bound to a flat document. -/
def valid_format_urlJ (t : JDoc) : Option String := valid_format_url (.json t)

/-- `self._valid_type` bound to a flat document. -/
def valid_typeJ (t : JDoc) : Option String := valid_type (.json t)

/-- `self._valid_shape` bound to a flat document. -/
def valid_shapeJ (t : JDoc) : Option String := valid_shape (.json t)

/-- `self._valid_generated_by` bound to a flat document. -/
def valid_generated_byJ (t : JDoc) : Option String := valid_generated_by (.json t)

/-- `self._valid_nullable_id` bound to a flat document. -/
def valid_nullable_idJ (t : JDoc) : Option String := valid_nullable_id (.json t)

/-- `required_keys` of `_validate_json`, in source order. -/
def required_keys_json (format_version : String) : List (String × (JDoc → Option String)) :=
  [("format", valid_format format_version),
   ("format_url", valid_format_urlJ),
   ("type", valid_typeJ),
   ("rows", valid_rows),
   ("columns", valid_columns),
   ("shape", valid_shapeJ),
   ("data", valid_data),
   ("matrix_type", valid_matrix_type),
   ("matrix_element_type", valid_matrix_element_type),
   ("generated_by", valid_generated_byJ),
   ("id", valid_nullable_idJ),
   ("date", valid_datetime)]

/-- One branch of the flat shape cross-check: Python
`'k' in table_json and len(table_json['k']) != table_json['shape'][i]`
(short-circuit; `len` and the subscript can raise). -/
def cross_branch (t : JDoc) (k : String) (i : Nat) : Option Bool :=
  match jget? t k with
  | Option.none => some false
  | some lv =>
    match pyLen lv with
    | Option.none => Option.none
    | some L =>
      match jget? t "shape" with
      | Option.none => Option.none
      | some sv =>
        match pyIndex sv i with
        | Option.none => Option.none
        | some si => some (pyNeLen L si)

/-- The `if 'shape' in table_json:` cross-check block of
`_validate_json`. -/
def cross_json (t : JDoc) (detailed : Bool) : Bool × List String → Option (Bool × List String)
  | (valid, lines) =>
    if hasKey t "shape" then
      let lines1 := if detailed then
          lines ++ ["Validating 'shape' versus number of rows and columns..."]
        else lines
      match cross_branch t "rows" 0 with
      | Option.none => Option.none
      | some rbad =>
        let valid2 := if rbad then false else valid
        let lines2 := if rbad then lines1 ++ ["Number of rows in 'rows' is not equal to 'shape'"] else lines1
        match cross_branch t "columns" 1 with
        | Option.none => Option.none
        | some cbad =>
          some ((if cbad then false else valid2),
                (if cbad then lines2 ++ ["Number of columns in 'columns' is not equal to 'shape'"] else lines2))
    else some (valid, lines)

/-- `TableValidator._validate_json`. -/
def validate_json (t : JDoc) (format_version : String) (detailed : Bool) :
    Option (Bool × List String) :=
  let lines0 : List String := if detailed then ["Validating BIOM table..."] else []
  match run_rules t (hasKey t) (fun k => "Missing field: '" ++ k ++ "'") detailed
      (required_keys_json format_version) true lines0 with
  | Option.none => Option.none
  | some vl => cross_json t detailed vl

/-- `self._valid_format_url` bound to a hierarchical document. -/
def valid_format_urlH (T : H5Table) : Option String := valid_format_url (.hdf5 T)

/-- `self._valid_type` bound to a hierarchical document. -/
def valid_typeH (T : H5Table) : Option String := valid_type (.hdf5 T)

/-- `self._valid_shape` bound to a hierarchical document. -/
def valid_shapeH (T : H5Table) : Option String := valid_shape (.hdf5 T)

/-- `self._valid_generated_by` bound to a hierarchical document. -/
def valid_generated_byH (T : H5Table) : Option String := valid_generated_by (.hdf5 T)

/-- `self._valid_nullable_id` bound to a hierarchical document. -/
def valid_nullable_idH (T : H5Table) : Option String := valid_nullable_id (.hdf5 T)

/-- `required_attrs` of `_validate_hdf5`, in source order. -/
def required_attrs : List (String × (H5Table → Option String)) :=
  [("format-url", valid_format_urlH),
   ("format-version", valid_hdf5_format_version),
   ("type", valid_typeH),
   ("shape", valid_shapeH),
   ("nnz", valid_nnz),
   ("generated-by", valid_generated_byH),
   ("id", valid_nullable_idH),
   ("creation-date", valid_creation_date)]

/-- `required_groups` of `_validate_hdf5`. -/
def required_groups : List String := ["observation", "sample"]

/-- `required_datasets` of `_validate_hdf5`. -/
def required_datasets : List String :=
  ["observation/ids", "observation/data", "observation/indices", "observation/indptr",
   "sample/ids", "sample/data", "sample/indices", "sample/indptr"]

/-- The presence loops over groups and datasets: absence fails the
verdict, but the report line is emitted only in narrative mode. -/
def check_items (T : H5Table) (detailed : Bool) (word : String) :
    List String → Bool × List String → Bool × List String
  | [], acc => acc
  | g :: rest, (valid, lines) =>
    if hasItem T g then check_items T detailed word rest (valid, lines)
    else check_items T detailed word rest
      (false, if detailed then lines ++ [word ++ g] else lines)

/-- The `if 'shape' in table.attrs:` cross-check block of
`_validate_hdf5`: unpack the shape, fetch both ids datasets (`None` when
absent), flag absences, then compare lengths — `len(None)` raises, so an
absent ids dataset aborts the whole run after its line was queued. -/
def cross_hdf5 (T : H5Table) (detailed : Bool) : Bool × List String → Option (Bool × List String)
  | (valid, lines) =>
    if hasAttr T "shape" then
      let lines1 := if detailed then
          lines ++ ["Validating 'shape' versus number of samples and observations..."]
        else lines
      match attrGet? T "shape" with
      | Option.none => Option.none
      | some shp =>
        match unpack2 shp with
        | Option.none => Option.none
        | some (n_obs, n_samp) =>
          let obs_ids := itemLen? T "observation/ids"
          let samp_ids := itemLen? T "sample/ids"
          let vl2 : Bool × List String :=
            if obs_ids.isNone then
              (false, lines1 ++ ["observation/ids does not exist, cannot validate shape"])
            else (valid, lines1)
          let vl3 : Bool × List String :=
            if samp_ids.isNone then
              (false, vl2.2 ++ ["sample/ids does not exist, cannot validate shape"])
            else vl2
          match obs_ids with
          | Option.none => Option.none
          | some lo =>
            let vl4 : Bool × List String :=
              if pyNeLen lo n_obs then
                (false, vl3.2 ++ ["Number of observation IDs is not equal to the described shape"])
              else vl3
            match samp_ids with
            | Option.none => Option.none
            | some ls =>
              if pyNeLen ls n_samp then
                some (false, vl4.2 ++ ["Number of sample IDs is not equal to the described shape"])
              else some vl4
    else some (valid, lines)

/-- `TableValidator._validate_hdf5`. -/
def validate_hdf5 (T : H5Table) (detailed : Bool) : Option (Bool × List String) :=
  let lines0 : List String := if detailed then ["Validating BIOM table..."] else []
  match run_rules T (hasAttr T) (fun k => "Missing attribute: '" ++ k ++ "'") detailed
      required_attrs true lines0 with
  | Option.none => Option.none
  | some vl =>
    let vl1 := check_items T detailed "Missing group: " required_groups vl
    let vl2 := check_items T detailed "Missing dataset: " required_datasets vl1
    cross_hdf5 T detailed vl2

/-! Concrete conformant documents, used by witnesses and
counterexamples.  The flat one is the end-to-end example of the spec. -/

/-- The conformant flat document from the spec's example. -/
def exDoc : JDoc :=
  [("format", .str "1.0.0"),
   ("format_url", .str "http://biom-format.org"),
   ("type", .str "OTU table"),
   ("rows", pl [po [("id", .str "r1"), ("metadata", .none)],
                po [("id", .str "r2"), ("metadata", .none)]]),
   ("columns", pl [po [("id", .str "c1"), ("metadata", .none)]]),
   ("shape", pl [.int 2, .int 1]),
   ("data", pl [pl [.int 0, .int 0, .int 5]]),
   ("matrix_type", .str "sparse"),
   ("matrix_element_type", .str "int"),
   ("generated_by", .str "test"),
   ("id", .none),
   ("date", .str "2011-12-19T19:00:00")]

/-- A conformant hierarchical document: every required attribute, group
and dataset present, ids dataset lengths matching the shape. -/
def exH5 : H5Table :=
  { attrs :=
      [("format-url", .str "http://biom-format.org"),
       ("format-version", pl [.int 2, .int 0]),
       ("type", .str "OTU table"),
       ("shape", pl [.int 2, .int 1]),
       ("nnz", .int 1),
       ("generated-by", .str "test"),
       ("id", .str "t1"),
       ("creation-date", .str "2011-12-19T19:00:00")],
    items :=
      [("observation", 4), ("sample", 4),
       ("observation/ids", 2), ("observation/data", 1),
       ("observation/indices", 1), ("observation/indptr", 3),
       ("sample/ids", 1), ("sample/data", 1),
       ("sample/indices", 1), ("sample/indptr", 2)] }

/-! Further concrete documents used by individual claims. -/

/-- Sparse document whose single entry has `x = 5` out of bounds *and* a
value of the wrong type (shape `[2, 2]`, element type `int`). -/
def sparseBadDoc : JDoc :=
  [("matrix_element_type", .str "int"), ("shape", pl [.int 2, .int 2]),
   ("data", pl [pl [.int 5, .int 0, .str "a"]])]

/-- Dense document with shape `[2, 2]` whose only row is too short, so
the row count (1, not 2) is also wrong. -/
def denseShortRowDoc : JDoc :=
  [("matrix_element_type", .str "int"), ("shape", pl [.int 2, .int 2]),
   ("data", pl [pl [.int 1]])]

/-- Rows list whose second record (index 1) has an empty `id`. -/
def emptyIdRowsDoc : JDoc :=
  [("type", .str "OTU table"),
   ("rows", pl [po [("id", .str "r1"), ("metadata", .none)],
                po [("id", .str ""), ("metadata", .none)]])]

/-- Document whose `shape` holds a negative integer. -/
def negShapeDoc : JDoc := [("shape", pl [.int (-1), .int 2])]

/-- Document whose `type` is an integer (`.lower()` raises). -/
def typeIntDoc : JDoc := [("type", .int 5)]

/-- Document whose `shape` is a triple (unpacking raises). -/
def shapeTripleDoc : JDoc := [("shape", pl [.int 1, .int 2, .int 3])]

/-- Dense document with a well-formed empty row matching `n_cols = 0`
(`reduce(and_, [])` raises). -/
def denseEmptyRowDoc : JDoc :=
  [("matrix_element_type", .str "int"), ("shape", pl [.int 1, .int 0]),
   ("data", pl [pl []])]

/-- Document whose `matrix_type` is the non-lowercase `"Sparse"`, with
valid sparse content. -/
def mixedCaseDoc : JDoc :=
  [("matrix_type", .str "Sparse"), ("matrix_element_type", .str "int"),
   ("shape", pl [.int 2, .int 1]), ("data", pl [pl [.int 0, .int 0, .int 5]])]

/-- Document whose `shape` is a pair of booleans. -/
def boolShapeDoc : JDoc := [("shape", pl [.bool true, .bool false])]

/-- Sparse document whose entry has boolean `True` as its row index
(in bounds for shape `[2, 2]` since `True == 1`). -/
def boolSparseDoc : JDoc :=
  [("matrix_element_type", .str "int"), ("shape", pl [.int 2, .int 2]),
   ("data", pl [pl [.bool true, .int 0, .int 3]])]

/-- Hierarchical table whose `nnz` attribute is boolean `True`. -/
def boolNnzTable : H5Table := { attrs := [("nnz", .bool true)], items := [] }

/-! Generic lemmas about the driver loops and the erase operations. -/

/-- A string of length zero is the empty string. -/
theorem string_len_zero {s : String} (h : s.length = 0) : s = "" := by
  cases s with
  | mk data =>
    simp only [String.length] at h
    rw [List.length_eq_zero] at h
    subst h
    decide

theorem empty_string_length : ("" : String).length = 0 := rfl

theorem run_rules_nil {α : Type} (d : α) (p : String → Bool) (m : String → String)
    (det : Bool) (v : Bool) (l : List String) :
    run_rules d p m det [] v l = some (v, l) := rfl

theorem run_rules_cons_missing {α : Type} {d : α} {p : String → Bool} {m : String → String}
    {det : Bool} {k : String} {f : α → Option String}
    {rs : List (String × (α → Option String))} {v : Bool} {l : List String}
    (h : p k = false) :
    run_rules d p m det ((k, f) :: rs) v l = run_rules d p m det rs false (l ++ [m k]) := by
  simp [run_rules, h]

theorem run_rules_cons_pass {α : Type} {d : α} {p : String → Bool} {m : String → String}
    {k : String} {f : α → Option String}
    {rs : List (String × (α → Option String))} {v : Bool} {l : List String}
    (h : p k = true) (hf : f d = some "") :
    run_rules d p m false ((k, f) :: rs) v l = run_rules d p m false rs v l := by
  simp [run_rules, h, hf, empty_string_length]

theorem run_rules_cons_fail {α : Type} {d : α} {p : String → Bool} {m : String → String}
    {k : String} {f : α → Option String}
    {rs : List (String × (α → Option String))} {v : Bool} {l : List String} {s : String}
    (h : p k = true) (hf : f d = some s) (hs : s.length > 0) :
    run_rules d p m false ((k, f) :: rs) v l = run_rules d p m false rs false (l ++ [s]) := by
  simp [run_rules, h, hf, hs]

theorem run_rules_cons_raise {α : Type} {d : α} {p : String → Bool} {m : String → String}
    {det : Bool} {k : String} {f : α → Option String}
    {rs : List (String × (α → Option String))} {v : Bool} {l : List String}
    (h : p k = true) (hf : f d = Option.none) :
    run_rules d p m det ((k, f) :: rs) v l = Option.none := by
  simp [run_rules, h, hf]

theorem run_rules_prefix {α : Type} (d : α) (p : String → Bool) (m : String → String) :
    ∀ (rs : List (String × (α → Option String))) (v : Bool) (l : List String) (r : Bool × List String),
      run_rules d p m false rs v l = some r → ∃ s, r.2 = l ++ s := by
  intro rs
  induction rs with
  | nil =>
    intro v l r h
    refine ⟨[], ?_⟩
    simp only [run_rules] at h
    cases h
    simp
  | cons hd tl ih =>
    obtain ⟨k, f⟩ := hd
    intro v l r h
    by_cases hp : p k
    · cases hf : f d with
      | none => rw [run_rules_cons_raise hp hf] at h; exact absurd h (by simp)
      | some msg =>
        by_cases hm : msg.length > 0
        · rw [run_rules_cons_fail hp hf hm] at h
          obtain ⟨s, hs⟩ := ih _ _ _ h
          exact ⟨[msg] ++ s, by simp [hs]⟩
        · have hm0 : msg = "" := string_len_zero (Nat.eq_zero_of_not_pos hm)
          subst hm0
          rw [run_rules_cons_pass hp hf] at h
          exact ih _ _ _ h
    · rw [run_rules_cons_missing (Bool.not_eq_true _ ▸ eq_false_of_ne_true hp)] at h
      obtain ⟨s, hs⟩ := ih _ _ _ h
      exact ⟨[m k] ++ s, by simp [hs]⟩

theorem run_rules_all_pass {α : Type} {d : α} {p : String → Bool} {m : String → String} :
    ∀ {rs : List (String × (α → Option String))},
      (∀ x ∈ rs, p x.1 = true ∧ x.2 d = some "") →
      ∀ (v : Bool) (l : List String), run_rules d p m false rs v l = some (v, l) := by
  intro rs
  induction rs with
  | nil => intro _ v l; rfl
  | cons hd tl ih =>
    intro hall v l
    obtain ⟨k, f⟩ := hd
    have hh := hall (k, f) (List.mem_cons_self _ _)
    rw [run_rules_cons_pass hh.1 hh.2]
    exact ih (fun x hx => hall x (List.mem_cons_of_mem _ hx)) v l

theorem run_rules_cons_inv {α : Type} {d : α} {p : String → Bool} {m : String → String}
    {k : String} {f : α → Option String}
    {rs : List (String × (α → Option String))} {v v' : Bool} {l : List String}
    (h : run_rules d p m false ((k, f) :: rs) v l = some (v', l)) :
    p k = true ∧ f d = some "" ∧ run_rules d p m false rs v l = some (v', l) := by
  by_cases hp : p k
  · cases hf : f d with
    | none => rw [run_rules_cons_raise hp hf] at h; exact absurd h (by simp)
    | some msg =>
      by_cases hm : msg.length > 0
      · rw [run_rules_cons_fail hp hf hm] at h
        obtain ⟨s, hs⟩ := run_rules_prefix d p m _ _ _ _ h
        exfalso
        have := congrArg List.length hs
        simp at this
      · have hm0 : msg = "" := string_len_zero (Nat.eq_zero_of_not_pos hm)
        subst hm0
        rw [run_rules_cons_pass hp hf] at h
        exact ⟨hp, rfl, h⟩
  · rw [run_rules_cons_missing (eq_false_of_ne_true hp)] at h
    obtain ⟨s, hs⟩ := run_rules_prefix d p m _ _ _ _ h
    exfalso
    have := congrArg List.length hs
    simp at this

theorem check_items_false (T : H5Table) (w : String) :
    ∀ (names : List String) (acc : Bool × List String),
      check_items T false w names acc = (acc.1 && names.all (hasItem T), acc.2) := by
  intro names
  induction names with
  | nil => intro acc; simp [check_items]
  | cons g rest ih =>
    intro acc
    obtain ⟨v, l⟩ := acc
    by_cases hg : hasItem T g
    · simp [check_items, hg, ih]
    · simp [check_items, hg, ih]


theorem jget?_erase_ne {t : JDoc} {k k' : String} (h : ¬ k' = k) :
    jget? (eraseKey t k) k' = jget? t k' := by
  induction t with
  | nil => rfl
  | cons hd tl ih =>
    obtain ⟨k0, v0⟩ := hd
    by_cases h0 : k0 = k
    · subst h0
      have hne : ¬ k0 = k' := fun hh => h hh.symm
      simp [eraseKey, jget?, hne, ih]
    · simp only [eraseKey, if_neg h0, jget?]
      by_cases h1 : k0 = k'
      · simp [h1]
      · simp [h1, ih]

theorem jget?_erase_self (t : JDoc) (k : String) :
    jget? (eraseKey t k) k = Option.none := by
  induction t with
  | nil => rfl
  | cons hd tl ih =>
    obtain ⟨k0, v0⟩ := hd
    by_cases h0 : k0 = k
    · simp [eraseKey, h0, ih]
    · simp [eraseKey, jget?, h0, ih]

theorem hasKey_erase_ne {t : JDoc} {k k' : String} (h : ¬ k' = k) :
    hasKey (eraseKey t k) k' = hasKey t k' := by
  simp [hasKey, jget?_erase_ne h]

theorem hasKey_erase_self (t : JDoc) (k : String) :
    hasKey (eraseKey t k) k = false := by
  simp [hasKey, jget?_erase_self]

theorem jgetD_erase_ne {t : JDoc} {k k' : String} (h : ¬ k' = k) :
    jgetD (eraseKey t k) k' = jgetD t k' := by
  simp [jgetD, jget?_erase_ne h]

theorem hasItem_erase_bad {its : List (String × Nat)} {bad : String → Bool} {q : String}
    (h : bad q = true) :
    (eraseItems bad its).any (fun r => r.1 = q) = false := by
  induction its with
  | nil => rfl
  | cons r tl ih =>
    by_cases hr : bad r.1
    · simp [eraseItems, hr, ih]
    · simp only [eraseItems, if_neg hr, List.any_cons, ih, Bool.or_false]
      by_cases he : r.1 = q
      · rw [he] at hr; exact absurd h hr
      · simp [he]

theorem hasItem_erase_good {its : List (String × Nat)} {bad : String → Bool} {q : String}
    (h : bad q = false) :
    (eraseItems bad its).any (fun r => r.1 = q) = its.any (fun r => r.1 = q) := by
  induction its with
  | nil => rfl
  | cons r tl ih =>
    by_cases hr : bad r.1
    · have he : ¬ r.1 = q := fun hh => by rw [hh, h] at hr; exact Bool.noConfusion hr
      simp [eraseItems, hr, ih, he]
    · simp [eraseItems, hr, ih]

theorem itemLen?_erase_bad {its : List (String × Nat)} {bad : String → Bool} {q : String}
    (h : bad q = true) :
    ((eraseItems bad its).find? (fun r => r.1 = q)).map Prod.snd = Option.none := by
  induction its with
  | nil => rfl
  | cons r tl ih =>
    by_cases hr : bad r.1
    · simp only [eraseItems, if_pos hr]; exact ih
    · have he : ¬ r.1 = q := fun hh => by rw [hh, h] at hr; exact hr rfl
      simp only [eraseItems, if_neg hr, List.find?]
      rw [show (decide (r.1 = q)) = false by simp [he]]
      exact ih

theorem itemLen?_erase_good {its : List (String × Nat)} {bad : String → Bool} {q : String}
    (h : bad q = false) :
    ((eraseItems bad its).find? (fun r => r.1 = q)).map Prod.snd
      = (its.find? (fun r => r.1 = q)).map Prod.snd := by
  induction its with
  | nil => rfl
  | cons r tl ih =>
    by_cases hr : bad r.1
    · have he : ¬ r.1 = q := fun hh => by rw [hh, h] at hr; exact Bool.noConfusion hr
      simp only [eraseItems, if_pos hr, List.find?]
      rw [show (decide (r.1 = q)) = false by simp [he]]
      exact ih
    · simp only [eraseItems, if_neg hr, List.find?]
      by_cases he : r.1 = q
      · simp [he]
      · rw [show (decide (r.1 = q)) = false by simp [he]]
        exact ih

/-! Erase corollaries on the hierarchical table, and the cross-check
block lemmas. -/

theorem attrGet?_eraseAttr_ne {T : H5Table} {a k : String} (h : ¬ k = a) :
    attrGet? (eraseAttr T a) k = attrGet? T k := by
  simp [attrGet?, eraseAttr, jget?_erase_ne h]

theorem attrGetD_eraseAttr_ne {T : H5Table} {a k : String} (h : ¬ k = a) :
    attrGetD (eraseAttr T a) k = attrGetD T k := by
  simp [attrGetD, eraseAttr, jgetD_erase_ne h]

theorem hasAttr_eraseAttr_ne {T : H5Table} {a k : String} (h : ¬ k = a) :
    hasAttr (eraseAttr T a) k = hasAttr T k := by
  simp [hasAttr, eraseAttr, hasKey_erase_ne h]

theorem hasAttr_eraseAttr_self (T : H5Table) (a : String) :
    hasAttr (eraseAttr T a) a = false := by
  simp [hasAttr, eraseAttr, hasKey_erase_self]

theorem hasItem_eraseAttr (T : H5Table) (a p : String) :
    hasItem (eraseAttr T a) p = hasItem T p := rfl

theorem itemLen?_eraseAttr (T : H5Table) (a p : String) :
    itemLen? (eraseAttr T a) p = itemLen? T p := rfl

theorem attrGet?_eraseItem (T : H5Table) (p k : String) :
    attrGet? (eraseItem T p) k = attrGet? T k := rfl

theorem hasAttr_eraseItem (T : H5Table) (p k : String) :
    hasAttr (eraseItem T p) k = hasAttr T k := rfl

theorem attrGet?_eraseGroup (T : H5Table) (g k : String) :
    attrGet? (eraseGroup T g) k = attrGet? T k := rfl

theorem hasAttr_eraseGroup (T : H5Table) (g k : String) :
    hasAttr (eraseGroup T g) k = hasAttr T k := rfl

theorem hasItem_eraseItem_self (T : H5Table) (p : String) :
    hasItem (eraseItem T p) p = false := by
  simp only [hasItem, eraseItem]
  exact hasItem_erase_bad (by simp)

theorem hasItem_eraseItem_ne {T : H5Table} {p q : String} (h : ¬ q = p) :
    hasItem (eraseItem T p) q = hasItem T q := by
  simp only [hasItem, eraseItem]
  exact hasItem_erase_good (by simp [h])

theorem itemLen?_eraseItem_self (T : H5Table) (p : String) :
    itemLen? (eraseItem T p) p = Option.none := by
  simp only [itemLen?, eraseItem]
  exact itemLen?_erase_bad (by simp)

theorem itemLen?_eraseItem_ne {T : H5Table} {p q : String} (h : ¬ q = p) :
    itemLen? (eraseItem T p) q = itemLen? T q := by
  simp only [itemLen?, eraseItem]
  exact itemLen?_erase_good (by simp [h])

theorem hasItem_eraseGroup_in {T : H5Table} {g q : String}
    (h : (q = g || strStartsWith (g ++ "/") q) = true) :
    hasItem (eraseGroup T g) q = false := by
  simp only [hasItem, eraseGroup]
  exact hasItem_erase_bad h

theorem hasItem_eraseGroup_out {T : H5Table} {g q : String}
    (h : (q = g || strStartsWith (g ++ "/") q) = false) :
    hasItem (eraseGroup T g) q = hasItem T q := by
  simp only [hasItem, eraseGroup]
  exact hasItem_erase_good h

theorem itemLen?_eraseGroup_in {T : H5Table} {g q : String}
    (h : (q = g || strStartsWith (g ++ "/") q) = true) :
    itemLen? (eraseGroup T g) q = Option.none := by
  simp only [itemLen?, eraseGroup]
  exact itemLen?_erase_bad h

theorem itemLen?_eraseGroup_out {T : H5Table} {g q : String}
    (h : (q = g || strStartsWith (g ++ "/") q) = false) :
    itemLen? (eraseGroup T g) q = itemLen? T q := by
  simp only [itemLen?, eraseGroup]
  exact itemLen?_erase_good h


theorem cross_json_no_shape {t : JDoc} {det : Bool} {vl : Bool × List String}
    (h : hasKey t "shape" = false) :
    cross_json t det vl = some vl := by
  obtain ⟨v, l⟩ := vl
  simp [cross_json, h]

theorem cross_json_clean {t : JDoc} {v : Bool} {l : List String}
    (hs : hasKey t "shape" = true)
    (hr : cross_branch t "rows" 0 = some false)
    (hc : cross_branch t "columns" 1 = some false) :
    cross_json t false (v, l) = some (v, l) := by
  simp [cross_json, hs, hr, hc]

theorem cross_json_prefix {t : JDoc} {v : Bool} {l : List String} {r : Bool × List String}
    (h : cross_json t false (v, l) = some r) : ∃ s, r.2 = l ++ s := by
  by_cases hs : hasKey t "shape"
  · rw [cross_json, if_pos hs] at h
    rcases hrb : cross_branch t "rows" 0 with _ | rb
    · rw [hrb] at h; exact absurd h (by simp)
    · rw [hrb] at h
      rcases hcb : cross_branch t "columns" 1 with _ | cb
      · rw [hcb] at h; exact absurd h (by simp)
      · rw [hcb] at h
        simp only [Option.some.injEq] at h
        cases rb <;> cases cb <;> subst h
        · exact ⟨[], by simp⟩
        · exact ⟨["Number of columns in 'columns' is not equal to 'shape'"], by simp⟩
        · exact ⟨["Number of rows in 'rows' is not equal to 'shape'"], by simp⟩
        · exact ⟨["Number of rows in 'rows' is not equal to 'shape'",
                  "Number of columns in 'columns' is not equal to 'shape'"], by simp⟩
  · rw [cross_json_no_shape (eq_false_of_ne_true hs)] at h
    cases h
    exact ⟨[], by simp⟩

theorem cross_json_inv {t : JDoc} {v v' : Bool} {l : List String}
    (hs : hasKey t "shape" = true)
    (h : cross_json t false (v, l) = some (v', l)) :
    cross_branch t "rows" 0 = some false ∧ cross_branch t "columns" 1 = some false ∧ v' = v := by
  rw [cross_json, if_pos hs] at h
  rcases hrb : cross_branch t "rows" 0 with _ | rb
  · rw [hrb] at h; exact absurd h (by simp)
  · rw [hrb] at h
    rcases hcb : cross_branch t "columns" 1 with _ | cb
    · rw [hcb] at h; exact absurd h (by simp)
    · rw [hcb] at h
      simp only [Option.some.injEq] at h
      cases rb <;> cases cb <;> simp at h
      exact ⟨rfl, rfl, h.symm⟩

theorem cross_hdf5_no_shape {T : H5Table} {det : Bool} {vl : Bool × List String}
    (h : hasAttr T "shape" = false) :
    cross_hdf5 T det vl = some vl := by
  obtain ⟨v, l⟩ := vl
  simp [cross_hdf5, h]

theorem cross_hdf5_clean {T : H5Table} {v : Bool} {l : List String}
    {shp : PyVal} {no ns : PyVal} {lo ls : Nat}
    (hs : hasAttr T "shape" = true)
    (hshp : attrGet? T "shape" = some shp)
    (hup : unpack2 shp = some (no, ns))
    (hobs : itemLen? T "observation/ids" = some lo)
    (hsamp : itemLen? T "sample/ids" = some ls)
    (hne1 : pyNeLen lo no = false)
    (hne2 : pyNeLen ls ns = false) :
    cross_hdf5 T false (v, l) = some (v, l) := by
  simp [cross_hdf5, hs, hshp, hup, hobs, hsamp, hne1, hne2]

theorem cross_hdf5_raise_no_obs {T : H5Table} {v : Bool} {l : List String}
    {shp no ns : PyVal}
    (hs : hasAttr T "shape" = true)
    (hshp : attrGet? T "shape" = some shp)
    (hup : unpack2 shp = some (no, ns))
    (hobs : itemLen? T "observation/ids" = Option.none) :
    cross_hdf5 T false (v, l) = Option.none := by
  simp [cross_hdf5, hs, hshp, hup, hobs]

theorem cross_hdf5_raise_no_samp {T : H5Table} {v : Bool} {l : List String}
    {shp no ns : PyVal} {lo : Nat}
    (hs : hasAttr T "shape" = true)
    (hshp : attrGet? T "shape" = some shp)
    (hup : unpack2 shp = some (no, ns))
    (hobs : itemLen? T "observation/ids" = some lo)
    (hsamp : itemLen? T "sample/ids" = Option.none) :
    cross_hdf5 T false (v, l) = Option.none := by
  simp [cross_hdf5, hs, hshp, hup, hobs, hsamp]

theorem cross_hdf5_eval {T : H5Table} {v : Bool} {l : List String}
    {shp : PyVal} {no ns : PyVal} {lo ls : Nat}
    (hs : hasAttr T "shape" = true)
    (hshp : attrGet? T "shape" = some shp)
    (hup : unpack2 shp = some (no, ns))
    (hobs : itemLen? T "observation/ids" = some lo)
    (hsamp : itemLen? T "sample/ids" = some ls) :
    cross_hdf5 T false (v, l) =
      some (if pyNeLen lo no || pyNeLen ls ns then false else v,
            (if pyNeLen lo no then l ++ ["Number of observation IDs is not equal to the described shape"] else l)
              ++ (if pyNeLen ls ns then ["Number of sample IDs is not equal to the described shape"] else [])) := by
  cases hne1 : pyNeLen lo no <;> cases hne2 : pyNeLen ls ns <;>
    simp [cross_hdf5, hs, hshp, hup, hobs, hsamp, hne1, hne2]

theorem cross_hdf5_prefix {T : H5Table} {v : Bool} {l : List String} {r : Bool × List String}
    (h : cross_hdf5 T false (v, l) = some r) : ∃ s, r.2 = l ++ s := by
  by_cases hs : hasAttr T "shape"
  · rcases hshp : attrGet? T "shape" with _ | shp
    · rw [show cross_hdf5 T false (v, l) = Option.none by simp [cross_hdf5, hs, hshp]] at h
      exact absurd h (by simp)
    · rcases hup : unpack2 shp with _ | ⟨no, ns⟩
      · rw [show cross_hdf5 T false (v, l) = Option.none by simp [cross_hdf5, hs, hshp, hup]] at h
        exact absurd h (by simp)
      · rcases hobs : itemLen? T "observation/ids" with _ | lo
        · rw [cross_hdf5_raise_no_obs hs hshp hup hobs] at h
          exact absurd h (by simp)
        · rcases hsamp : itemLen? T "sample/ids" with _ | ls
          · rw [cross_hdf5_raise_no_samp hs hshp hup hobs hsamp] at h
            exact absurd h (by simp)
          · rw [cross_hdf5_eval hs hshp hup hobs hsamp] at h
            simp only [Option.some.injEq] at h
            subst h
            cases pyNeLen lo no <;> cases pyNeLen ls ns
            · exact ⟨[], by simp⟩
            · exact ⟨["Number of sample IDs is not equal to the described shape"], by simp⟩
            · exact ⟨["Number of observation IDs is not equal to the described shape"], by simp⟩
            · exact ⟨["Number of observation IDs is not equal to the described shape",
                      "Number of sample IDs is not equal to the described shape"], by simp⟩
  · rw [cross_hdf5_no_shape (eq_false_of_ne_true hs)] at h
    cases h
    exact ⟨[], by simp⟩

theorem cross_hdf5_inv {T : H5Table} {v v' : Bool} {l : List String}
    (hs : hasAttr T "shape" = true)
    (h : cross_hdf5 T false (v, l) = some (v', l)) :
    ∃ shp no ns lo ls,
      attrGet? T "shape" = some shp ∧ unpack2 shp = some (no, ns) ∧
      itemLen? T "observation/ids" = some lo ∧ itemLen? T "sample/ids" = some ls ∧
      pyNeLen lo no = false ∧ pyNeLen ls ns = false ∧ v' = v := by
  rcases hshp : attrGet? T "shape" with _ | shp
  · rw [show cross_hdf5 T false (v, l) = Option.none by simp [cross_hdf5, hs, hshp]] at h
    exact absurd h (by simp)
  · rcases hup : unpack2 shp with _ | ⟨no, ns⟩
    · rw [show cross_hdf5 T false (v, l) = Option.none by simp [cross_hdf5, hs, hshp, hup]] at h
      exact absurd h (by simp)
    · rcases hobs : itemLen? T "observation/ids" with _ | lo
      · rw [cross_hdf5_raise_no_obs hs hshp hup hobs] at h
        exact absurd h (by simp)
      · rcases hsamp : itemLen? T "sample/ids" with _ | ls
        · rw [cross_hdf5_raise_no_samp hs hshp hup hobs hsamp] at h
          exact absurd h (by simp)
        · rw [cross_hdf5_eval hs hshp hup hobs hsamp] at h
          simp only [Option.some.injEq] at h
          cases hne1 : pyNeLen lo no <;> rw [hne1] at h <;>
            cases hne2 : pyNeLen ls ns <;> rw [hne2] at h <;> simp at h
          exact ⟨shp, no, ns, lo, ls, rfl, hup, rfl, rfl, hne1, hne2, h.symm⟩

/-! Frame lemmas: each rule reads only its own keys, so erasing another
key leaves it unchanged. -/

theorem valid_format_frame {t : JDoc} {k ver : String} (h : ¬ "format" = k) :
    valid_format ver (eraseKey t k) = valid_format ver t := by
  simp [valid_format, jget?_erase_ne h]

theorem valid_format_url_json_frame {t : JDoc} {k : String} (h : ¬ "format_url" = k) :
    valid_format_urlJ (eraseKey t k) = valid_format_urlJ t := by
  simp [valid_format_urlJ, valid_format_url, json_or_hdf5_get, json_or_hdf5_key, jgetD_erase_ne h]

theorem valid_type_json_frame {t : JDoc} {k : String} (h : ¬ "type" = k) :
    valid_typeJ (eraseKey t k) = valid_typeJ t := by
  simp [valid_typeJ, valid_type, json_or_hdf5_get, json_or_hdf5_key, jgetD_erase_ne h]

theorem valid_rows_frame {t : JDoc} {k : String} (h1 : ¬ "type" = k) (h2 : ¬ "rows" = k) :
    valid_rows (eraseKey t k) = valid_rows t := by
  simp [valid_rows, jget?_erase_ne h1, jget?_erase_ne h2]

theorem valid_columns_frame {t : JDoc} {k : String} (h1 : ¬ "type" = k) (h2 : ¬ "columns" = k) :
    valid_columns (eraseKey t k) = valid_columns t := by
  simp [valid_columns, jget?_erase_ne h1, jget?_erase_ne h2]

theorem valid_shape_json_frame {t : JDoc} {k : String} (h : ¬ "shape" = k) :
    valid_shapeJ (eraseKey t k) = valid_shapeJ t := by
  simp [valid_shapeJ, valid_shape, json_or_hdf5_get, jgetD_erase_ne h]

theorem valid_matrix_type_frame {t : JDoc} {k : String} (h : ¬ "matrix_type" = k) :
    valid_matrix_type (eraseKey t k) = valid_matrix_type t := by
  simp [valid_matrix_type, jget?_erase_ne h]

theorem valid_matrix_element_type_frame {t : JDoc} {k : String}
    (h : ¬ "matrix_element_type" = k) :
    valid_matrix_element_type (eraseKey t k) = valid_matrix_element_type t := by
  simp [valid_matrix_element_type, jget?_erase_ne h]

theorem valid_generated_by_json_frame {t : JDoc} {k : String} (h : ¬ "generated_by" = k) :
    valid_generated_byJ (eraseKey t k) = valid_generated_byJ t := by
  simp [valid_generated_byJ, valid_generated_by, json_or_hdf5_get, json_or_hdf5_key, jgetD_erase_ne h]

theorem valid_datetime_frame {t : JDoc} {k : String} (h : ¬ "date" = k) :
    valid_datetime (eraseKey t k) = valid_datetime t := by
  simp [valid_datetime, jget?_erase_ne h]

theorem valid_data_frame {t : JDoc} {k : String} (h1 : ¬ "matrix_type" = k)
    (h2 : ¬ "matrix_element_type" = k) (h3 : ¬ "shape" = k) (h4 : ¬ "data" = k) :
    valid_data (eraseKey t k) = valid_data t := by
  simp [valid_data, valid_sparse_data, valid_dense_data, dtypeOf,
        jget?_erase_ne h1, jget?_erase_ne h2, jget?_erase_ne h3, jget?_erase_ne h4]

theorem cross_branch_frame {t : JDoc} {k key : String} {i : Nat}
    (h1 : ¬ key = k) (h2 : ¬ "shape" = k) :
    cross_branch (eraseKey t k) key i = cross_branch t key i := by
  simp [cross_branch, jget?_erase_ne h1, jget?_erase_ne h2]

/-! Inversion and raise lemmas for individual rules. -/

theorem valid_matrix_type_inv {t : JDoc} (h : valid_matrix_type t = some "") :
    ∃ s, jget? t "matrix_type" = some (.str s) ∧ (s = "sparse" ∨ s = "dense") := by
  rcases hv : jget? t "matrix_type" with _ | v
  · rw [valid_matrix_type, hv] at h; exact absurd h (by simp)
  · rw [valid_matrix_type, hv] at h
    cases v with
    | str x =>
      refine ⟨x, rfl, ?_⟩
      by_cases hx : x ∈ MatrixTypes
      · simpa [MatrixTypes] using hx
      · simp [pyMemStrSet, hx] at h
    | none => simp [pyMemStrSet] at h
    | bool b => simp [pyMemStrSet] at h
    | int n => simp [pyMemStrSet] at h
    | float q => simp [pyMemStrSet] at h
    | list l => simp [pyMemStrSet] at h
    | obj o => simp [pyMemStrSet] at h

theorem valid_matrix_element_type_inv {t : JDoc} (h : valid_matrix_element_type t = some "") :
    ∃ s, jget? t "matrix_element_type" = some (.str s) ∧ s ∈ ElementTypeKeys := by
  rcases hv : jget? t "matrix_element_type" with _ | v
  · rw [valid_matrix_element_type, hv] at h; exact absurd h (by simp)
  · rw [valid_matrix_element_type, hv] at h
    cases v with
    | str x =>
      refine ⟨x, rfl, ?_⟩
      by_cases hx : x ∈ ElementTypeKeys
      · exact hx
      · simp [pyMemStrSet, hx] at h
    | none => simp [pyMemStrSet] at h
    | bool b => simp [pyMemStrSet] at h
    | int n => simp [pyMemStrSet] at h
    | float q => simp [pyMemStrSet] at h
    | list l => simp [pyMemStrSet] at h
    | obj o => simp [pyMemStrSet] at h

theorem dtypeOf_of_met {t : JDoc} {s : String}
    (hv : jget? t "matrix_element_type" = some (.str s)) (hs : s ∈ ElementTypeKeys) :
    dtypeOf t = some s := by
  simp [dtypeOf, hv, hs]

theorem valid_rows_raise_no_type {t : JDoc} (h : jget? t "type" = Option.none) :
    valid_rows t = Option.none := by
  simp [valid_rows, h]

theorem valid_data_raise_no_mt {t : JDoc} (h : jget? t "matrix_type" = Option.none) :
    valid_data t = Option.none := by
  simp [valid_data, h]

theorem valid_sparse_data_raise_no_met {t : JDoc}
    (h : jget? t "matrix_element_type" = Option.none) :
    valid_sparse_data t = Option.none := by
  simp [valid_sparse_data, dtypeOf, h]

theorem valid_dense_data_raise_no_met {t : JDoc}
    (h : jget? t "matrix_element_type" = Option.none) :
    valid_dense_data t = Option.none := by
  simp [valid_dense_data, dtypeOf, h]

theorem valid_sparse_data_raise_no_shape {t : JDoc} {dt : String}
    (h1 : dtypeOf t = some dt) (h2 : jget? t "shape" = Option.none) :
    valid_sparse_data t = Option.none := by
  simp [valid_sparse_data, h1, h2]

theorem valid_dense_data_raise_no_shape {t : JDoc} {dt : String}
    (h1 : dtypeOf t = some dt) (h2 : jget? t "shape" = Option.none) :
    valid_dense_data t = Option.none := by
  simp [valid_dense_data, h1, h2]

theorem valid_data_dispatch_sparse {t : JDoc} {s : String}
    (h1 : jget? t "matrix_type" = some (.str s)) (h2 : pyLower s = "sparse") :
    valid_data t = valid_sparse_data t := by
  simp [valid_data, h1, h2]

theorem valid_data_dispatch_dense {t : JDoc} {s : String}
    (h1 : jget? t "matrix_type" = some (.str s)) (h2 : pyLower s = "dense") :
    valid_data t = valid_dense_data t := by
  simp [valid_data, h1, h2]

/-! Frame lemmas for the hierarchical rules (each reads only its own
attribute; none reads the items). -/

theorem underscore_format_url : underscoreToHyphen "format_url" = "format-url" := by decide

theorem underscore_generated_by : underscoreToHyphen "generated_by" = "generated-by" := by decide

theorem underscore_type : underscoreToHyphen "type" = "type" := by decide

theorem valid_format_url_hdf5_frame {T : H5Table} {a : String} (h : ¬ "format-url" = a) :
    valid_format_urlH (eraseAttr T a) = valid_format_urlH T := by
  simp [valid_format_urlH, valid_format_url, json_or_hdf5_get, json_or_hdf5_key,
        underscore_format_url, attrGetD_eraseAttr_ne h]

theorem valid_hdf5_format_version_frame {T : H5Table} {a : String} (h : ¬ "format-version" = a) :
    valid_hdf5_format_version (eraseAttr T a) = valid_hdf5_format_version T := by
  simp [valid_hdf5_format_version, attrGet?_eraseAttr_ne h]

theorem valid_type_hdf5_frame {T : H5Table} {a : String} (h : ¬ "type" = a) :
    valid_typeH (eraseAttr T a) = valid_typeH T := by
  simp [valid_typeH, valid_type, json_or_hdf5_get, json_or_hdf5_key, underscore_type,
        attrGetD_eraseAttr_ne h]

theorem valid_shape_hdf5_frame {T : H5Table} {a : String} (h : ¬ "shape" = a) :
    valid_shapeH (eraseAttr T a) = valid_shapeH T := by
  simp [valid_shapeH, valid_shape, json_or_hdf5_get, attrGetD_eraseAttr_ne h]

theorem valid_nnz_frame {T : H5Table} {a : String} (h : ¬ "nnz" = a) :
    valid_nnz (eraseAttr T a) = valid_nnz T := by
  simp [valid_nnz, attrGet?_eraseAttr_ne h]

theorem valid_generated_by_hdf5_frame {T : H5Table} {a : String} (h : ¬ "generated-by" = a) :
    valid_generated_byH (eraseAttr T a) = valid_generated_byH T := by
  simp [valid_generated_byH, valid_generated_by, json_or_hdf5_get, json_or_hdf5_key,
        underscore_generated_by, attrGetD_eraseAttr_ne h]

theorem valid_creation_date_frame {T : H5Table} {a : String} (h : ¬ "creation-date" = a) :
    valid_creation_date (eraseAttr T a) = valid_creation_date T := by
  simp [valid_creation_date, attrGet?_eraseAttr_ne h]

/-! Inversion of a fully conformant run: every required key is present,
every rule passed, and the cross-checks found nothing. -/

theorem validate_json_inv {t : JDoc} {ver : String}
    (h : validate_json t ver false = some (true, [])) :
    (∀ x ∈ required_keys_json ver, hasKey t x.1 = true ∧ x.2 t = some "") ∧
    cross_branch t "rows" 0 = some false ∧ cross_branch t "columns" 1 = some false := by
  rcases hrun : run_rules t (hasKey t) (fun k => "Missing field: '" ++ k ++ "'") false
      (required_keys_json ver) true [] with _ | vl
  · rw [show validate_json t ver false = Option.none by
        simp [validate_json, hrun]] at h
    exact absurd h (by simp)
  · obtain ⟨pv, pl⟩ := vl
    have hcr : cross_json t false (pv, pl) = some (true, []) := by
      rw [← h]; simp [validate_json, hrun]
    obtain ⟨s, hs⟩ := cross_json_prefix hcr
    have hpl : pl = [] := by
      rcases List.append_eq_nil.mp hs.symm with ⟨h1, _⟩
      exact h1
    subst hpl
    simp only [required_keys_json] at hrun
    obtain ⟨hp1, hr1, hrun⟩ := run_rules_cons_inv hrun
    obtain ⟨hp2, hr2, hrun⟩ := run_rules_cons_inv hrun
    obtain ⟨hp3, hr3, hrun⟩ := run_rules_cons_inv hrun
    obtain ⟨hp4, hr4, hrun⟩ := run_rules_cons_inv hrun
    obtain ⟨hp5, hr5, hrun⟩ := run_rules_cons_inv hrun
    obtain ⟨hp6, hr6, hrun⟩ := run_rules_cons_inv hrun
    obtain ⟨hp7, hr7, hrun⟩ := run_rules_cons_inv hrun
    obtain ⟨hp8, hr8, hrun⟩ := run_rules_cons_inv hrun
    obtain ⟨hp9, hr9, hrun⟩ := run_rules_cons_inv hrun
    obtain ⟨hp10, hr10, hrun⟩ := run_rules_cons_inv hrun
    obtain ⟨hp11, hr11, hrun⟩ := run_rules_cons_inv hrun
    obtain ⟨hp12, hr12, hrun⟩ := run_rules_cons_inv hrun
    rw [run_rules_nil] at hrun
    have hpv : pv = true := (congrArg Prod.fst (Option.some.inj hrun)).symm
    subst hpv
    obtain ⟨hrb, hcb, _⟩ := cross_json_inv hp6 hcr
    refine ⟨?_, hrb, hcb⟩
    intro x hx
    simp only [required_keys_json, List.mem_cons, List.not_mem_nil, or_false] at hx
    rcases hx with rfl | rfl | rfl | rfl | rfl | rfl | rfl | rfl | rfl | rfl | rfl | rfl
    · exact ⟨hp1, hr1⟩
    · exact ⟨hp2, hr2⟩
    · exact ⟨hp3, hr3⟩
    · exact ⟨hp4, hr4⟩
    · exact ⟨hp5, hr5⟩
    · exact ⟨hp6, hr6⟩
    · exact ⟨hp7, hr7⟩
    · exact ⟨hp8, hr8⟩
    · exact ⟨hp9, hr9⟩
    · exact ⟨hp10, hr10⟩
    · exact ⟨hp11, hr11⟩
    · exact ⟨hp12, hr12⟩

theorem validate_hdf5_inv {T : H5Table}
    (h : validate_hdf5 T false = some (true, [])) :
    (∀ x ∈ required_attrs, hasAttr T x.1 = true ∧ x.2 T = some "") ∧
    (required_groups.all (hasItem T) = true) ∧
    (required_datasets.all (hasItem T) = true) ∧
    (∃ shp no ns lo ls,
      attrGet? T "shape" = some shp ∧ unpack2 shp = some (no, ns) ∧
      itemLen? T "observation/ids" = some lo ∧ itemLen? T "sample/ids" = some ls ∧
      pyNeLen lo no = false ∧ pyNeLen ls ns = false) := by
  rcases hrun : run_rules T (hasAttr T) (fun k => "Missing attribute: '" ++ k ++ "'") false
      required_attrs true [] with _ | vl
  · rw [show validate_hdf5 T false = Option.none by
        simp [validate_hdf5, hrun]] at h
    exact absurd h (by simp)
  · obtain ⟨pv, pl⟩ := vl
    have hcr : cross_hdf5 T false
        (pv && required_groups.all (hasItem T) && required_datasets.all (hasItem T), pl)
        = some (true, []) := by
      rw [← h]
      simp [validate_hdf5, hrun, check_items_false]
    obtain ⟨s, hs⟩ := cross_hdf5_prefix hcr
    have hpl : pl = [] := by
      rcases List.append_eq_nil.mp hs.symm with ⟨h1, _⟩
      exact h1
    subst hpl
    simp only [required_attrs] at hrun
    obtain ⟨hp1, hr1, hrun⟩ := run_rules_cons_inv hrun
    obtain ⟨hp2, hr2, hrun⟩ := run_rules_cons_inv hrun
    obtain ⟨hp3, hr3, hrun⟩ := run_rules_cons_inv hrun
    obtain ⟨hp4, hr4, hrun⟩ := run_rules_cons_inv hrun
    obtain ⟨hp5, hr5, hrun⟩ := run_rules_cons_inv hrun
    obtain ⟨hp6, hr6, hrun⟩ := run_rules_cons_inv hrun
    obtain ⟨hp7, hr7, hrun⟩ := run_rules_cons_inv hrun
    obtain ⟨hp8, hr8, hrun⟩ := run_rules_cons_inv hrun
    rw [run_rules_nil] at hrun
    have hpv : pv = true := (congrArg Prod.fst (Option.some.inj hrun)).symm
    subst hpv
    obtain ⟨shp, no, ns, lo, ls, hshp, hup, hobs, hsamp, hne1, hne2, hvv⟩ :=
      cross_hdf5_inv hp4 hcr
    have hga : required_groups.all (hasItem T) = true := by
      cases hg : required_groups.all (hasItem T)
      · rw [hg] at hvv; simp at hvv
      · rfl
    have hda : required_datasets.all (hasItem T) = true := by
      cases hd : required_datasets.all (hasItem T)
      · rw [hd] at hvv; simp at hvv
      · rfl
    refine ⟨?_, hga, hda, shp, no, ns, lo, ls, hshp, hup, hobs, hsamp, hne1, hne2⟩
    intro x hx
    simp only [required_attrs, List.mem_cons, List.not_mem_nil, or_false] at hx
    rcases hx with rfl | rfl | rfl | rfl | rfl | rfl | rfl | rfl
    · exact ⟨hp1, hr1⟩
    · exact ⟨hp2, hr2⟩
    · exact ⟨hp3, hr3⟩
    · exact ⟨hp4, hr4⟩
    · exact ⟨hp5, hr5⟩
    · exact ⟨hp6, hr6⟩
    · exact ⟨hp7, hr7⟩
    · exact ⟨hp8, hr8⟩

theorem cross_branch_missing {t : JDoc} {k : String} {i : Nat}
    (h : jget? t k = Option.none) : cross_branch t k i = some false := by
  simp [cross_branch, h]

theorem c1_flat_aux (t : JDoc) (ver : String)
    (h : validate_json t ver false = some (true, [])) :
    (∀ k ∈ (["format", "format_url", "rows", "columns", "data",
             "generated_by", "id", "date"] : List String),
       validate_json (eraseKey t k) ver false
         = some (false, ["Missing field: '" ++ k ++ "'"])) ∧
    (∀ k ∈ (["type", "shape", "matrix_type", "matrix_element_type"] : List String),
       validate_json (eraseKey t k) ver false = Option.none) := by
  obtain ⟨Hall, hrb, hcb⟩ := validate_json_inv h
  have H1 := Hall ("format", valid_format ver) (by simp [required_keys_json])
  have H2 := Hall ("format_url", valid_format_urlJ) (by simp [required_keys_json])
  have H3 := Hall ("type", valid_typeJ) (by simp [required_keys_json])
  have H4 := Hall ("rows", valid_rows) (by simp [required_keys_json])
  have H5 := Hall ("columns", valid_columns) (by simp [required_keys_json])
  have H6 := Hall ("shape", valid_shapeJ) (by simp [required_keys_json])
  have H7 := Hall ("data", valid_data) (by simp [required_keys_json])
  have H8 := Hall ("matrix_type", valid_matrix_type) (by simp [required_keys_json])
  have H9 := Hall ("matrix_element_type", valid_matrix_element_type) (by simp [required_keys_json])
  have H10 := Hall ("generated_by", valid_generated_byJ) (by simp [required_keys_json])
  have H11 := Hall ("id", valid_nullable_idJ) (by simp [required_keys_json])
  have H12 := Hall ("date", valid_datetime) (by simp [required_keys_json])
  constructor
  · intro k hk
    fin_cases hk
    ·
      have e1 : hasKey (eraseKey t "format") "format" = false := hasKey_erase_self t _
      have e2 : hasKey (eraseKey t "format") "format_url" = true := by
        rw [hasKey_erase_ne (by decide)]; exact H2.1
      have f2 : (valid_format_urlJ) (eraseKey t "format") = some "" := by
        rw [valid_format_url_json_frame (by decide)]; exact H2.2
      have e3 : hasKey (eraseKey t "format") "type" = true := by
        rw [hasKey_erase_ne (by decide)]; exact H3.1
      have f3 : (valid_typeJ) (eraseKey t "format") = some "" := by
        rw [valid_type_json_frame (by decide)]; exact H3.2
      have e4 : hasKey (eraseKey t "format") "rows" = true := by
        rw [hasKey_erase_ne (by decide)]; exact H4.1
      have f4 : (valid_rows) (eraseKey t "format") = some "" := by
        rw [valid_rows_frame (by decide) (by decide)]; exact H4.2
      have e5 : hasKey (eraseKey t "format") "columns" = true := by
        rw [hasKey_erase_ne (by decide)]; exact H5.1
      have f5 : (valid_columns) (eraseKey t "format") = some "" := by
        rw [valid_columns_frame (by decide) (by decide)]; exact H5.2
      have e6 : hasKey (eraseKey t "format") "shape" = true := by
        rw [hasKey_erase_ne (by decide)]; exact H6.1
      have f6 : (valid_shapeJ) (eraseKey t "format") = some "" := by
        rw [valid_shape_json_frame (by decide)]; exact H6.2
      have e7 : hasKey (eraseKey t "format") "data" = true := by
        rw [hasKey_erase_ne (by decide)]; exact H7.1
      have f7 : (valid_data) (eraseKey t "format") = some "" := by
        rw [valid_data_frame (by decide) (by decide) (by decide) (by decide)]; exact H7.2
      have e8 : hasKey (eraseKey t "format") "matrix_type" = true := by
        rw [hasKey_erase_ne (by decide)]; exact H8.1
      have f8 : (valid_matrix_type) (eraseKey t "format") = some "" := by
        rw [valid_matrix_type_frame (by decide)]; exact H8.2
      have e9 : hasKey (eraseKey t "format") "matrix_element_type" = true := by
        rw [hasKey_erase_ne (by decide)]; exact H9.1
      have f9 : (valid_matrix_element_type) (eraseKey t "format") = some "" := by
        rw [valid_matrix_element_type_frame (by decide)]; exact H9.2
      have e10 : hasKey (eraseKey t "format") "generated_by" = true := by
        rw [hasKey_erase_ne (by decide)]; exact H10.1
      have f10 : (valid_generated_byJ) (eraseKey t "format") = some "" := by
        rw [valid_generated_by_json_frame (by decide)]; exact H10.2
      have e11 : hasKey (eraseKey t "format") "id" = true := by
        rw [hasKey_erase_ne (by decide)]; exact H11.1
      have f11 : valid_nullable_idJ (eraseKey t "format") = some "" := rfl
      have e12 : hasKey (eraseKey t "format") "date" = true := by
        rw [hasKey_erase_ne (by decide)]; exact H12.1
      have f12 : (valid_datetime) (eraseKey t "format") = some "" := by
        rw [valid_datetime_frame (by decide)]; exact H12.2
      have hrun : run_rules (eraseKey t "format") (hasKey (eraseKey t "format"))
          (fun k => "Missing field: '" ++ k ++ "'") false (required_keys_json ver) true []
          = some (false, ["Missing field: 'format'"]) := by
        simp only [required_keys_json]
        rw [run_rules_cons_missing e1, run_rules_cons_pass e2 f2, run_rules_cons_pass e3 f3, run_rules_cons_pass e4 f4, run_rules_cons_pass e5 f5, run_rules_cons_pass e6 f6, run_rules_cons_pass e7 f7, run_rules_cons_pass e8 f8, run_rules_cons_pass e9 f9, run_rules_cons_pass e10 f10, run_rules_cons_pass e11 f11, run_rules_cons_pass e12 f12, run_rules_nil]
        rfl
      have hrb2 : cross_branch (eraseKey t "format") "rows" 0 = some false := by
        rw [cross_branch_frame (by decide) (by decide)]; exact hrb
      have hcb2 : cross_branch (eraseKey t "format") "columns" 1 = some false := by
        rw [cross_branch_frame (by decide) (by decide)]; exact hcb
      have hcj := cross_json_clean (v := false) (l := ["Missing field: 'format'"]) e6 hrb2 hcb2
      simp [validate_json, hrun, hcj]
    ·
      have e1 : hasKey (eraseKey t "format_url") "format" = true := by
        rw [hasKey_erase_ne (by decide)]; exact H1.1
      have f1 : (valid_format ver) (eraseKey t "format_url") = some "" := by
        rw [valid_format_frame (by decide)]; exact H1.2
      have e2 : hasKey (eraseKey t "format_url") "format_url" = false := hasKey_erase_self t _
      have e3 : hasKey (eraseKey t "format_url") "type" = true := by
        rw [hasKey_erase_ne (by decide)]; exact H3.1
      have f3 : (valid_typeJ) (eraseKey t "format_url") = some "" := by
        rw [valid_type_json_frame (by decide)]; exact H3.2
      have e4 : hasKey (eraseKey t "format_url") "rows" = true := by
        rw [hasKey_erase_ne (by decide)]; exact H4.1
      have f4 : (valid_rows) (eraseKey t "format_url") = some "" := by
        rw [valid_rows_frame (by decide) (by decide)]; exact H4.2
      have e5 : hasKey (eraseKey t "format_url") "columns" = true := by
        rw [hasKey_erase_ne (by decide)]; exact H5.1
      have f5 : (valid_columns) (eraseKey t "format_url") = some "" := by
        rw [valid_columns_frame (by decide) (by decide)]; exact H5.2
      have e6 : hasKey (eraseKey t "format_url") "shape" = true := by
        rw [hasKey_erase_ne (by decide)]; exact H6.1
      have f6 : (valid_shapeJ) (eraseKey t "format_url") = some "" := by
        rw [valid_shape_json_frame (by decide)]; exact H6.2
      have e7 : hasKey (eraseKey t "format_url") "data" = true := by
        rw [hasKey_erase_ne (by decide)]; exact H7.1
      have f7 : (valid_data) (eraseKey t "format_url") = some "" := by
        rw [valid_data_frame (by decide) (by decide) (by decide) (by decide)]; exact H7.2
      have e8 : hasKey (eraseKey t "format_url") "matrix_type" = true := by
        rw [hasKey_erase_ne (by decide)]; exact H8.1
      have f8 : (valid_matrix_type) (eraseKey t "format_url") = some "" := by
        rw [valid_matrix_type_frame (by decide)]; exact H8.2
      have e9 : hasKey (eraseKey t "format_url") "matrix_element_type" = true := by
        rw [hasKey_erase_ne (by decide)]; exact H9.1
      have f9 : (valid_matrix_element_type) (eraseKey t "format_url") = some "" := by
        rw [valid_matrix_element_type_frame (by decide)]; exact H9.2
      have e10 : hasKey (eraseKey t "format_url") "generated_by" = true := by
        rw [hasKey_erase_ne (by decide)]; exact H10.1
      have f10 : (valid_generated_byJ) (eraseKey t "format_url") = some "" := by
        rw [valid_generated_by_json_frame (by decide)]; exact H10.2
      have e11 : hasKey (eraseKey t "format_url") "id" = true := by
        rw [hasKey_erase_ne (by decide)]; exact H11.1
      have f11 : valid_nullable_idJ (eraseKey t "format_url") = some "" := rfl
      have e12 : hasKey (eraseKey t "format_url") "date" = true := by
        rw [hasKey_erase_ne (by decide)]; exact H12.1
      have f12 : (valid_datetime) (eraseKey t "format_url") = some "" := by
        rw [valid_datetime_frame (by decide)]; exact H12.2
      have hrun : run_rules (eraseKey t "format_url") (hasKey (eraseKey t "format_url"))
          (fun k => "Missing field: '" ++ k ++ "'") false (required_keys_json ver) true []
          = some (false, ["Missing field: 'format_url'"]) := by
        simp only [required_keys_json]
        rw [run_rules_cons_pass e1 f1, run_rules_cons_missing e2, run_rules_cons_pass e3 f3, run_rules_cons_pass e4 f4, run_rules_cons_pass e5 f5, run_rules_cons_pass e6 f6, run_rules_cons_pass e7 f7, run_rules_cons_pass e8 f8, run_rules_cons_pass e9 f9, run_rules_cons_pass e10 f10, run_rules_cons_pass e11 f11, run_rules_cons_pass e12 f12, run_rules_nil]
        rfl
      have hrb2 : cross_branch (eraseKey t "format_url") "rows" 0 = some false := by
        rw [cross_branch_frame (by decide) (by decide)]; exact hrb
      have hcb2 : cross_branch (eraseKey t "format_url") "columns" 1 = some false := by
        rw [cross_branch_frame (by decide) (by decide)]; exact hcb
      have hcj := cross_json_clean (v := false) (l := ["Missing field: 'format_url'"]) e6 hrb2 hcb2
      simp [validate_json, hrun, hcj]
    ·
      have e1 : hasKey (eraseKey t "rows") "format" = true := by
        rw [hasKey_erase_ne (by decide)]; exact H1.1
      have f1 : (valid_format ver) (eraseKey t "rows") = some "" := by
        rw [valid_format_frame (by decide)]; exact H1.2
      have e2 : hasKey (eraseKey t "rows") "format_url" = true := by
        rw [hasKey_erase_ne (by decide)]; exact H2.1
      have f2 : (valid_format_urlJ) (eraseKey t "rows") = some "" := by
        rw [valid_format_url_json_frame (by decide)]; exact H2.2
      have e3 : hasKey (eraseKey t "rows") "type" = true := by
        rw [hasKey_erase_ne (by decide)]; exact H3.1
      have f3 : (valid_typeJ) (eraseKey t "rows") = some "" := by
        rw [valid_type_json_frame (by decide)]; exact H3.2
      have e4 : hasKey (eraseKey t "rows") "rows" = false := hasKey_erase_self t _
      have e5 : hasKey (eraseKey t "rows") "columns" = true := by
        rw [hasKey_erase_ne (by decide)]; exact H5.1
      have f5 : (valid_columns) (eraseKey t "rows") = some "" := by
        rw [valid_columns_frame (by decide) (by decide)]; exact H5.2
      have e6 : hasKey (eraseKey t "rows") "shape" = true := by
        rw [hasKey_erase_ne (by decide)]; exact H6.1
      have f6 : (valid_shapeJ) (eraseKey t "rows") = some "" := by
        rw [valid_shape_json_frame (by decide)]; exact H6.2
      have e7 : hasKey (eraseKey t "rows") "data" = true := by
        rw [hasKey_erase_ne (by decide)]; exact H7.1
      have f7 : (valid_data) (eraseKey t "rows") = some "" := by
        rw [valid_data_frame (by decide) (by decide) (by decide) (by decide)]; exact H7.2
      have e8 : hasKey (eraseKey t "rows") "matrix_type" = true := by
        rw [hasKey_erase_ne (by decide)]; exact H8.1
      have f8 : (valid_matrix_type) (eraseKey t "rows") = some "" := by
        rw [valid_matrix_type_frame (by decide)]; exact H8.2
      have e9 : hasKey (eraseKey t "rows") "matrix_element_type" = true := by
        rw [hasKey_erase_ne (by decide)]; exact H9.1
      have f9 : (valid_matrix_element_type) (eraseKey t "rows") = some "" := by
        rw [valid_matrix_element_type_frame (by decide)]; exact H9.2
      have e10 : hasKey (eraseKey t "rows") "generated_by" = true := by
        rw [hasKey_erase_ne (by decide)]; exact H10.1
      have f10 : (valid_generated_byJ) (eraseKey t "rows") = some "" := by
        rw [valid_generated_by_json_frame (by decide)]; exact H10.2
      have e11 : hasKey (eraseKey t "rows") "id" = true := by
        rw [hasKey_erase_ne (by decide)]; exact H11.1
      have f11 : valid_nullable_idJ (eraseKey t "rows") = some "" := rfl
      have e12 : hasKey (eraseKey t "rows") "date" = true := by
        rw [hasKey_erase_ne (by decide)]; exact H12.1
      have f12 : (valid_datetime) (eraseKey t "rows") = some "" := by
        rw [valid_datetime_frame (by decide)]; exact H12.2
      have hrun : run_rules (eraseKey t "rows") (hasKey (eraseKey t "rows"))
          (fun k => "Missing field: '" ++ k ++ "'") false (required_keys_json ver) true []
          = some (false, ["Missing field: 'rows'"]) := by
        simp only [required_keys_json]
        rw [run_rules_cons_pass e1 f1, run_rules_cons_pass e2 f2, run_rules_cons_pass e3 f3, run_rules_cons_missing e4, run_rules_cons_pass e5 f5, run_rules_cons_pass e6 f6, run_rules_cons_pass e7 f7, run_rules_cons_pass e8 f8, run_rules_cons_pass e9 f9, run_rules_cons_pass e10 f10, run_rules_cons_pass e11 f11, run_rules_cons_pass e12 f12, run_rules_nil]
        rfl
      have hrb2 : cross_branch (eraseKey t "rows") "rows" 0 = some false :=
        cross_branch_missing (jget?_erase_self t _)
      have hcb2 : cross_branch (eraseKey t "rows") "columns" 1 = some false := by
        rw [cross_branch_frame (by decide) (by decide)]; exact hcb
      have hcj := cross_json_clean (v := false) (l := ["Missing field: 'rows'"]) e6 hrb2 hcb2
      simp [validate_json, hrun, hcj]
    ·
      have e1 : hasKey (eraseKey t "columns") "format" = true := by
        rw [hasKey_erase_ne (by decide)]; exact H1.1
      have f1 : (valid_format ver) (eraseKey t "columns") = some "" := by
        rw [valid_format_frame (by decide)]; exact H1.2
      have e2 : hasKey (eraseKey t "columns") "format_url" = true := by
        rw [hasKey_erase_ne (by decide)]; exact H2.1
      have f2 : (valid_format_urlJ) (eraseKey t "columns") = some "" := by
        rw [valid_format_url_json_frame (by decide)]; exact H2.2
      have e3 : hasKey (eraseKey t "columns") "type" = true := by
        rw [hasKey_erase_ne (by decide)]; exact H3.1
      have f3 : (valid_typeJ) (eraseKey t "columns") = some "" := by
        rw [valid_type_json_frame (by decide)]; exact H3.2
      have e4 : hasKey (eraseKey t "columns") "rows" = true := by
        rw [hasKey_erase_ne (by decide)]; exact H4.1
      have f4 : (valid_rows) (eraseKey t "columns") = some "" := by
        rw [valid_rows_frame (by decide) (by decide)]; exact H4.2
      have e5 : hasKey (eraseKey t "columns") "columns" = false := hasKey_erase_self t _
      have e6 : hasKey (eraseKey t "columns") "shape" = true := by
        rw [hasKey_erase_ne (by decide)]; exact H6.1
      have f6 : (valid_shapeJ) (eraseKey t "columns") = some "" := by
        rw [valid_shape_json_frame (by decide)]; exact H6.2
      have e7 : hasKey (eraseKey t "columns") "data" = true := by
        rw [hasKey_erase_ne (by decide)]; exact H7.1
      have f7 : (valid_data) (eraseKey t "columns") = some "" := by
        rw [valid_data_frame (by decide) (by decide) (by decide) (by decide)]; exact H7.2
      have e8 : hasKey (eraseKey t "columns") "matrix_type" = true := by
        rw [hasKey_erase_ne (by decide)]; exact H8.1
      have f8 : (valid_matrix_type) (eraseKey t "columns") = some "" := by
        rw [valid_matrix_type_frame (by decide)]; exact H8.2
      have e9 : hasKey (eraseKey t "columns") "matrix_element_type" = true := by
        rw [hasKey_erase_ne (by decide)]; exact H9.1
      have f9 : (valid_matrix_element_type) (eraseKey t "columns") = some "" := by
        rw [valid_matrix_element_type_frame (by decide)]; exact H9.2
      have e10 : hasKey (eraseKey t "columns") "generated_by" = true := by
        rw [hasKey_erase_ne (by decide)]; exact H10.1
      have f10 : (valid_generated_byJ) (eraseKey t "columns") = some "" := by
        rw [valid_generated_by_json_frame (by decide)]; exact H10.2
      have e11 : hasKey (eraseKey t "columns") "id" = true := by
        rw [hasKey_erase_ne (by decide)]; exact H11.1
      have f11 : valid_nullable_idJ (eraseKey t "columns") = some "" := rfl
      have e12 : hasKey (eraseKey t "columns") "date" = true := by
        rw [hasKey_erase_ne (by decide)]; exact H12.1
      have f12 : (valid_datetime) (eraseKey t "columns") = some "" := by
        rw [valid_datetime_frame (by decide)]; exact H12.2
      have hrun : run_rules (eraseKey t "columns") (hasKey (eraseKey t "columns"))
          (fun k => "Missing field: '" ++ k ++ "'") false (required_keys_json ver) true []
          = some (false, ["Missing field: 'columns'"]) := by
        simp only [required_keys_json]
        rw [run_rules_cons_pass e1 f1, run_rules_cons_pass e2 f2, run_rules_cons_pass e3 f3, run_rules_cons_pass e4 f4, run_rules_cons_missing e5, run_rules_cons_pass e6 f6, run_rules_cons_pass e7 f7, run_rules_cons_pass e8 f8, run_rules_cons_pass e9 f9, run_rules_cons_pass e10 f10, run_rules_cons_pass e11 f11, run_rules_cons_pass e12 f12, run_rules_nil]
        rfl
      have hrb2 : cross_branch (eraseKey t "columns") "rows" 0 = some false := by
        rw [cross_branch_frame (by decide) (by decide)]; exact hrb
      have hcb2 : cross_branch (eraseKey t "columns") "columns" 1 = some false :=
        cross_branch_missing (jget?_erase_self t _)
      have hcj := cross_json_clean (v := false) (l := ["Missing field: 'columns'"]) e6 hrb2 hcb2
      simp [validate_json, hrun, hcj]
    ·
      have e1 : hasKey (eraseKey t "data") "format" = true := by
        rw [hasKey_erase_ne (by decide)]; exact H1.1
      have f1 : (valid_format ver) (eraseKey t "data") = some "" := by
        rw [valid_format_frame (by decide)]; exact H1.2
      have e2 : hasKey (eraseKey t "data") "format_url" = true := by
        rw [hasKey_erase_ne (by decide)]; exact H2.1
      have f2 : (valid_format_urlJ) (eraseKey t "data") = some "" := by
        rw [valid_format_url_json_frame (by decide)]; exact H2.2
      have e3 : hasKey (eraseKey t "data") "type" = true := by
        rw [hasKey_erase_ne (by decide)]; exact H3.1
      have f3 : (valid_typeJ) (eraseKey t "data") = some "" := by
        rw [valid_type_json_frame (by decide)]; exact H3.2
      have e4 : hasKey (eraseKey t "data") "rows" = true := by
        rw [hasKey_erase_ne (by decide)]; exact H4.1
      have f4 : (valid_rows) (eraseKey t "data") = some "" := by
        rw [valid_rows_frame (by decide) (by decide)]; exact H4.2
      have e5 : hasKey (eraseKey t "data") "columns" = true := by
        rw [hasKey_erase_ne (by decide)]; exact H5.1
      have f5 : (valid_columns) (eraseKey t "data") = some "" := by
        rw [valid_columns_frame (by decide) (by decide)]; exact H5.2
      have e6 : hasKey (eraseKey t "data") "shape" = true := by
        rw [hasKey_erase_ne (by decide)]; exact H6.1
      have f6 : (valid_shapeJ) (eraseKey t "data") = some "" := by
        rw [valid_shape_json_frame (by decide)]; exact H6.2
      have e7 : hasKey (eraseKey t "data") "data" = false := hasKey_erase_self t _
      have e8 : hasKey (eraseKey t "data") "matrix_type" = true := by
        rw [hasKey_erase_ne (by decide)]; exact H8.1
      have f8 : (valid_matrix_type) (eraseKey t "data") = some "" := by
        rw [valid_matrix_type_frame (by decide)]; exact H8.2
      have e9 : hasKey (eraseKey t "data") "matrix_element_type" = true := by
        rw [hasKey_erase_ne (by decide)]; exact H9.1
      have f9 : (valid_matrix_element_type) (eraseKey t "data") = some "" := by
        rw [valid_matrix_element_type_frame (by decide)]; exact H9.2
      have e10 : hasKey (eraseKey t "data") "generated_by" = true := by
        rw [hasKey_erase_ne (by decide)]; exact H10.1
      have f10 : (valid_generated_byJ) (eraseKey t "data") = some "" := by
        rw [valid_generated_by_json_frame (by decide)]; exact H10.2
      have e11 : hasKey (eraseKey t "data") "id" = true := by
        rw [hasKey_erase_ne (by decide)]; exact H11.1
      have f11 : valid_nullable_idJ (eraseKey t "data") = some "" := rfl
      have e12 : hasKey (eraseKey t "data") "date" = true := by
        rw [hasKey_erase_ne (by decide)]; exact H12.1
      have f12 : (valid_datetime) (eraseKey t "data") = some "" := by
        rw [valid_datetime_frame (by decide)]; exact H12.2
      have hrun : run_rules (eraseKey t "data") (hasKey (eraseKey t "data"))
          (fun k => "Missing field: '" ++ k ++ "'") false (required_keys_json ver) true []
          = some (false, ["Missing field: 'data'"]) := by
        simp only [required_keys_json]
        rw [run_rules_cons_pass e1 f1, run_rules_cons_pass e2 f2, run_rules_cons_pass e3 f3, run_rules_cons_pass e4 f4, run_rules_cons_pass e5 f5, run_rules_cons_pass e6 f6, run_rules_cons_missing e7, run_rules_cons_pass e8 f8, run_rules_cons_pass e9 f9, run_rules_cons_pass e10 f10, run_rules_cons_pass e11 f11, run_rules_cons_pass e12 f12, run_rules_nil]
        rfl
      have hrb2 : cross_branch (eraseKey t "data") "rows" 0 = some false := by
        rw [cross_branch_frame (by decide) (by decide)]; exact hrb
      have hcb2 : cross_branch (eraseKey t "data") "columns" 1 = some false := by
        rw [cross_branch_frame (by decide) (by decide)]; exact hcb
      have hcj := cross_json_clean (v := false) (l := ["Missing field: 'data'"]) e6 hrb2 hcb2
      simp [validate_json, hrun, hcj]
    ·
      have e1 : hasKey (eraseKey t "generated_by") "format" = true := by
        rw [hasKey_erase_ne (by decide)]; exact H1.1
      have f1 : (valid_format ver) (eraseKey t "generated_by") = some "" := by
        rw [valid_format_frame (by decide)]; exact H1.2
      have e2 : hasKey (eraseKey t "generated_by") "format_url" = true := by
        rw [hasKey_erase_ne (by decide)]; exact H2.1
      have f2 : (valid_format_urlJ) (eraseKey t "generated_by") = some "" := by
        rw [valid_format_url_json_frame (by decide)]; exact H2.2
      have e3 : hasKey (eraseKey t "generated_by") "type" = true := by
        rw [hasKey_erase_ne (by decide)]; exact H3.1
      have f3 : (valid_typeJ) (eraseKey t "generated_by") = some "" := by
        rw [valid_type_json_frame (by decide)]; exact H3.2
      have e4 : hasKey (eraseKey t "generated_by") "rows" = true := by
        rw [hasKey_erase_ne (by decide)]; exact H4.1
      have f4 : (valid_rows) (eraseKey t "generated_by") = some "" := by
        rw [valid_rows_frame (by decide) (by decide)]; exact H4.2
      have e5 : hasKey (eraseKey t "generated_by") "columns" = true := by
        rw [hasKey_erase_ne (by decide)]; exact H5.1
      have f5 : (valid_columns) (eraseKey t "generated_by") = some "" := by
        rw [valid_columns_frame (by decide) (by decide)]; exact H5.2
      have e6 : hasKey (eraseKey t "generated_by") "shape" = true := by
        rw [hasKey_erase_ne (by decide)]; exact H6.1
      have f6 : (valid_shapeJ) (eraseKey t "generated_by") = some "" := by
        rw [valid_shape_json_frame (by decide)]; exact H6.2
      have e7 : hasKey (eraseKey t "generated_by") "data" = true := by
        rw [hasKey_erase_ne (by decide)]; exact H7.1
      have f7 : (valid_data) (eraseKey t "generated_by") = some "" := by
        rw [valid_data_frame (by decide) (by decide) (by decide) (by decide)]; exact H7.2
      have e8 : hasKey (eraseKey t "generated_by") "matrix_type" = true := by
        rw [hasKey_erase_ne (by decide)]; exact H8.1
      have f8 : (valid_matrix_type) (eraseKey t "generated_by") = some "" := by
        rw [valid_matrix_type_frame (by decide)]; exact H8.2
      have e9 : hasKey (eraseKey t "generated_by") "matrix_element_type" = true := by
        rw [hasKey_erase_ne (by decide)]; exact H9.1
      have f9 : (valid_matrix_element_type) (eraseKey t "generated_by") = some "" := by
        rw [valid_matrix_element_type_frame (by decide)]; exact H9.2
      have e10 : hasKey (eraseKey t "generated_by") "generated_by" = false := hasKey_erase_self t _
      have e11 : hasKey (eraseKey t "generated_by") "id" = true := by
        rw [hasKey_erase_ne (by decide)]; exact H11.1
      have f11 : valid_nullable_idJ (eraseKey t "generated_by") = some "" := rfl
      have e12 : hasKey (eraseKey t "generated_by") "date" = true := by
        rw [hasKey_erase_ne (by decide)]; exact H12.1
      have f12 : (valid_datetime) (eraseKey t "generated_by") = some "" := by
        rw [valid_datetime_frame (by decide)]; exact H12.2
      have hrun : run_rules (eraseKey t "generated_by") (hasKey (eraseKey t "generated_by"))
          (fun k => "Missing field: '" ++ k ++ "'") false (required_keys_json ver) true []
          = some (false, ["Missing field: 'generated_by'"]) := by
        simp only [required_keys_json]
        rw [run_rules_cons_pass e1 f1, run_rules_cons_pass e2 f2, run_rules_cons_pass e3 f3, run_rules_cons_pass e4 f4, run_rules_cons_pass e5 f5, run_rules_cons_pass e6 f6, run_rules_cons_pass e7 f7, run_rules_cons_pass e8 f8, run_rules_cons_pass e9 f9, run_rules_cons_missing e10, run_rules_cons_pass e11 f11, run_rules_cons_pass e12 f12, run_rules_nil]
        rfl
      have hrb2 : cross_branch (eraseKey t "generated_by") "rows" 0 = some false := by
        rw [cross_branch_frame (by decide) (by decide)]; exact hrb
      have hcb2 : cross_branch (eraseKey t "generated_by") "columns" 1 = some false := by
        rw [cross_branch_frame (by decide) (by decide)]; exact hcb
      have hcj := cross_json_clean (v := false) (l := ["Missing field: 'generated_by'"]) e6 hrb2 hcb2
      simp [validate_json, hrun, hcj]
    ·
      have e1 : hasKey (eraseKey t "id") "format" = true := by
        rw [hasKey_erase_ne (by decide)]; exact H1.1
      have f1 : (valid_format ver) (eraseKey t "id") = some "" := by
        rw [valid_format_frame (by decide)]; exact H1.2
      have e2 : hasKey (eraseKey t "id") "format_url" = true := by
        rw [hasKey_erase_ne (by decide)]; exact H2.1
      have f2 : (valid_format_urlJ) (eraseKey t "id") = some "" := by
        rw [valid_format_url_json_frame (by decide)]; exact H2.2
      have e3 : hasKey (eraseKey t "id") "type" = true := by
        rw [hasKey_erase_ne (by decide)]; exact H3.1
      have f3 : (valid_typeJ) (eraseKey t "id") = some "" := by
        rw [valid_type_json_frame (by decide)]; exact H3.2
      have e4 : hasKey (eraseKey t "id") "rows" = true := by
        rw [hasKey_erase_ne (by decide)]; exact H4.1
      have f4 : (valid_rows) (eraseKey t "id") = some "" := by
        rw [valid_rows_frame (by decide) (by decide)]; exact H4.2
      have e5 : hasKey (eraseKey t "id") "columns" = true := by
        rw [hasKey_erase_ne (by decide)]; exact H5.1
      have f5 : (valid_columns) (eraseKey t "id") = some "" := by
        rw [valid_columns_frame (by decide) (by decide)]; exact H5.2
      have e6 : hasKey (eraseKey t "id") "shape" = true := by
        rw [hasKey_erase_ne (by decide)]; exact H6.1
      have f6 : (valid_shapeJ) (eraseKey t "id") = some "" := by
        rw [valid_shape_json_frame (by decide)]; exact H6.2
      have e7 : hasKey (eraseKey t "id") "data" = true := by
        rw [hasKey_erase_ne (by decide)]; exact H7.1
      have f7 : (valid_data) (eraseKey t "id") = some "" := by
        rw [valid_data_frame (by decide) (by decide) (by decide) (by decide)]; exact H7.2
      have e8 : hasKey (eraseKey t "id") "matrix_type" = true := by
        rw [hasKey_erase_ne (by decide)]; exact H8.1
      have f8 : (valid_matrix_type) (eraseKey t "id") = some "" := by
        rw [valid_matrix_type_frame (by decide)]; exact H8.2
      have e9 : hasKey (eraseKey t "id") "matrix_element_type" = true := by
        rw [hasKey_erase_ne (by decide)]; exact H9.1
      have f9 : (valid_matrix_element_type) (eraseKey t "id") = some "" := by
        rw [valid_matrix_element_type_frame (by decide)]; exact H9.2
      have e10 : hasKey (eraseKey t "id") "generated_by" = true := by
        rw [hasKey_erase_ne (by decide)]; exact H10.1
      have f10 : (valid_generated_byJ) (eraseKey t "id") = some "" := by
        rw [valid_generated_by_json_frame (by decide)]; exact H10.2
      have e11 : hasKey (eraseKey t "id") "id" = false := hasKey_erase_self t _
      have e12 : hasKey (eraseKey t "id") "date" = true := by
        rw [hasKey_erase_ne (by decide)]; exact H12.1
      have f12 : (valid_datetime) (eraseKey t "id") = some "" := by
        rw [valid_datetime_frame (by decide)]; exact H12.2
      have hrun : run_rules (eraseKey t "id") (hasKey (eraseKey t "id"))
          (fun k => "Missing field: '" ++ k ++ "'") false (required_keys_json ver) true []
          = some (false, ["Missing field: 'id'"]) := by
        simp only [required_keys_json]
        rw [run_rules_cons_pass e1 f1, run_rules_cons_pass e2 f2, run_rules_cons_pass e3 f3, run_rules_cons_pass e4 f4, run_rules_cons_pass e5 f5, run_rules_cons_pass e6 f6, run_rules_cons_pass e7 f7, run_rules_cons_pass e8 f8, run_rules_cons_pass e9 f9, run_rules_cons_pass e10 f10, run_rules_cons_missing e11, run_rules_cons_pass e12 f12, run_rules_nil]
        rfl
      have hrb2 : cross_branch (eraseKey t "id") "rows" 0 = some false := by
        rw [cross_branch_frame (by decide) (by decide)]; exact hrb
      have hcb2 : cross_branch (eraseKey t "id") "columns" 1 = some false := by
        rw [cross_branch_frame (by decide) (by decide)]; exact hcb
      have hcj := cross_json_clean (v := false) (l := ["Missing field: 'id'"]) e6 hrb2 hcb2
      simp [validate_json, hrun, hcj]
    ·
      have e1 : hasKey (eraseKey t "date") "format" = true := by
        rw [hasKey_erase_ne (by decide)]; exact H1.1
      have f1 : (valid_format ver) (eraseKey t "date") = some "" := by
        rw [valid_format_frame (by decide)]; exact H1.2
      have e2 : hasKey (eraseKey t "date") "format_url" = true := by
        rw [hasKey_erase_ne (by decide)]; exact H2.1
      have f2 : (valid_format_urlJ) (eraseKey t "date") = some "" := by
        rw [valid_format_url_json_frame (by decide)]; exact H2.2
      have e3 : hasKey (eraseKey t "date") "type" = true := by
        rw [hasKey_erase_ne (by decide)]; exact H3.1
      have f3 : (valid_typeJ) (eraseKey t "date") = some "" := by
        rw [valid_type_json_frame (by decide)]; exact H3.2
      have e4 : hasKey (eraseKey t "date") "rows" = true := by
        rw [hasKey_erase_ne (by decide)]; exact H4.1
      have f4 : (valid_rows) (eraseKey t "date") = some "" := by
        rw [valid_rows_frame (by decide) (by decide)]; exact H4.2
      have e5 : hasKey (eraseKey t "date") "columns" = true := by
        rw [hasKey_erase_ne (by decide)]; exact H5.1
      have f5 : (valid_columns) (eraseKey t "date") = some "" := by
        rw [valid_columns_frame (by decide) (by decide)]; exact H5.2
      have e6 : hasKey (eraseKey t "date") "shape" = true := by
        rw [hasKey_erase_ne (by decide)]; exact H6.1
      have f6 : (valid_shapeJ) (eraseKey t "date") = some "" := by
        rw [valid_shape_json_frame (by decide)]; exact H6.2
      have e7 : hasKey (eraseKey t "date") "data" = true := by
        rw [hasKey_erase_ne (by decide)]; exact H7.1
      have f7 : (valid_data) (eraseKey t "date") = some "" := by
        rw [valid_data_frame (by decide) (by decide) (by decide) (by decide)]; exact H7.2
      have e8 : hasKey (eraseKey t "date") "matrix_type" = true := by
        rw [hasKey_erase_ne (by decide)]; exact H8.1
      have f8 : (valid_matrix_type) (eraseKey t "date") = some "" := by
        rw [valid_matrix_type_frame (by decide)]; exact H8.2
      have e9 : hasKey (eraseKey t "date") "matrix_element_type" = true := by
        rw [hasKey_erase_ne (by decide)]; exact H9.1
      have f9 : (valid_matrix_element_type) (eraseKey t "date") = some "" := by
        rw [valid_matrix_element_type_frame (by decide)]; exact H9.2
      have e10 : hasKey (eraseKey t "date") "generated_by" = true := by
        rw [hasKey_erase_ne (by decide)]; exact H10.1
      have f10 : (valid_generated_byJ) (eraseKey t "date") = some "" := by
        rw [valid_generated_by_json_frame (by decide)]; exact H10.2
      have e11 : hasKey (eraseKey t "date") "id" = true := by
        rw [hasKey_erase_ne (by decide)]; exact H11.1
      have f11 : valid_nullable_idJ (eraseKey t "date") = some "" := rfl
      have e12 : hasKey (eraseKey t "date") "date" = false := hasKey_erase_self t _
      have hrun : run_rules (eraseKey t "date") (hasKey (eraseKey t "date"))
          (fun k => "Missing field: '" ++ k ++ "'") false (required_keys_json ver) true []
          = some (false, ["Missing field: 'date'"]) := by
        simp only [required_keys_json]
        rw [run_rules_cons_pass e1 f1, run_rules_cons_pass e2 f2, run_rules_cons_pass e3 f3, run_rules_cons_pass e4 f4, run_rules_cons_pass e5 f5, run_rules_cons_pass e6 f6, run_rules_cons_pass e7 f7, run_rules_cons_pass e8 f8, run_rules_cons_pass e9 f9, run_rules_cons_pass e10 f10, run_rules_cons_pass e11 f11, run_rules_cons_missing e12, run_rules_nil]
        rfl
      have hrb2 : cross_branch (eraseKey t "date") "rows" 0 = some false := by
        rw [cross_branch_frame (by decide) (by decide)]; exact hrb
      have hcb2 : cross_branch (eraseKey t "date") "columns" 1 = some false := by
        rw [cross_branch_frame (by decide) (by decide)]; exact hcb
      have hcj := cross_json_clean (v := false) (l := ["Missing field: 'date'"]) e6 hrb2 hcb2
      simp [validate_json, hrun, hcj]
  · intro k hk
    fin_cases hk
    ·
      have e1 : hasKey (eraseKey t "type") "format" = true := by
        rw [hasKey_erase_ne (by decide)]; exact H1.1
      have f1 : (valid_format ver) (eraseKey t "type") = some "" := by
        rw [valid_format_frame (by decide)]; exact H1.2
      have e2 : hasKey (eraseKey t "type") "format_url" = true := by
        rw [hasKey_erase_ne (by decide)]; exact H2.1
      have f2 : (valid_format_urlJ) (eraseKey t "type") = some "" := by
        rw [valid_format_url_json_frame (by decide)]; exact H2.2
      have e3 : hasKey (eraseKey t "type") "type" = false := hasKey_erase_self t _
      have e4 : hasKey (eraseKey t "type") "rows" = true := by
        rw [hasKey_erase_ne (by decide)]; exact H4.1
      have f4 : valid_rows (eraseKey t "type") = Option.none :=
        valid_rows_raise_no_type (jget?_erase_self t _)
      have hrun : run_rules (eraseKey t "type") (hasKey (eraseKey t "type"))
          (fun k => "Missing field: '" ++ k ++ "'") false (required_keys_json ver) true []
          = Option.none := by
        simp only [required_keys_json]
        rw [run_rules_cons_pass e1 f1, run_rules_cons_pass e2 f2, run_rules_cons_missing e3]
        exact run_rules_cons_raise e4 f4
      simp [validate_json, hrun]
    ·
      have e1 : hasKey (eraseKey t "shape") "format" = true := by
        rw [hasKey_erase_ne (by decide)]; exact H1.1
      have f1 : (valid_format ver) (eraseKey t "shape") = some "" := by
        rw [valid_format_frame (by decide)]; exact H1.2
      have e2 : hasKey (eraseKey t "shape") "format_url" = true := by
        rw [hasKey_erase_ne (by decide)]; exact H2.1
      have f2 : (valid_format_urlJ) (eraseKey t "shape") = some "" := by
        rw [valid_format_url_json_frame (by decide)]; exact H2.2
      have e3 : hasKey (eraseKey t "shape") "type" = true := by
        rw [hasKey_erase_ne (by decide)]; exact H3.1
      have f3 : (valid_typeJ) (eraseKey t "shape") = some "" := by
        rw [valid_type_json_frame (by decide)]; exact H3.2
      have e4 : hasKey (eraseKey t "shape") "rows" = true := by
        rw [hasKey_erase_ne (by decide)]; exact H4.1
      have f4 : (valid_rows) (eraseKey t "shape") = some "" := by
        rw [valid_rows_frame (by decide) (by decide)]; exact H4.2
      have e5 : hasKey (eraseKey t "shape") "columns" = true := by
        rw [hasKey_erase_ne (by decide)]; exact H5.1
      have f5 : (valid_columns) (eraseKey t "shape") = some "" := by
        rw [valid_columns_frame (by decide) (by decide)]; exact H5.2
      have e6 : hasKey (eraseKey t "shape") "shape" = false := hasKey_erase_self t _
      have e7 : hasKey (eraseKey t "shape") "data" = true := by
        rw [hasKey_erase_ne (by decide)]; exact H7.1
      obtain ⟨mts, hmt, hsd⟩ := valid_matrix_type_inv H8.2
      obtain ⟨ets, hmet, hesk⟩ := valid_matrix_element_type_inv H9.2
      have hmt2 : jget? (eraseKey t "shape") "matrix_type" = some (.str mts) := by
        rw [jget?_erase_ne (by decide)]; exact hmt
      have hmet2 : jget? (eraseKey t "shape") "matrix_element_type" = some (.str ets) := by
        rw [jget?_erase_ne (by decide)]; exact hmet
      have hdt : dtypeOf (eraseKey t "shape") = some ets := dtypeOf_of_met hmet2 hesk
      have hsh0 : jget? (eraseKey t "shape") "shape" = Option.none := jget?_erase_self t _
      have f7 : valid_data (eraseKey t "shape") = Option.none := by
        rcases hsd with rfl | rfl
        · rw [valid_data_dispatch_sparse hmt2 (by decide)]
          exact valid_sparse_data_raise_no_shape hdt hsh0
        · rw [valid_data_dispatch_dense hmt2 (by decide)]
          exact valid_dense_data_raise_no_shape hdt hsh0
      have hrun : run_rules (eraseKey t "shape") (hasKey (eraseKey t "shape"))
          (fun k => "Missing field: '" ++ k ++ "'") false (required_keys_json ver) true []
          = Option.none := by
        simp only [required_keys_json]
        rw [run_rules_cons_pass e1 f1, run_rules_cons_pass e2 f2, run_rules_cons_pass e3 f3, run_rules_cons_pass e4 f4, run_rules_cons_pass e5 f5, run_rules_cons_missing e6]
        exact run_rules_cons_raise e7 f7
      simp [validate_json, hrun]
    ·
      have e1 : hasKey (eraseKey t "matrix_type") "format" = true := by
        rw [hasKey_erase_ne (by decide)]; exact H1.1
      have f1 : (valid_format ver) (eraseKey t "matrix_type") = some "" := by
        rw [valid_format_frame (by decide)]; exact H1.2
      have e2 : hasKey (eraseKey t "matrix_type") "format_url" = true := by
        rw [hasKey_erase_ne (by decide)]; exact H2.1
      have f2 : (valid_format_urlJ) (eraseKey t "matrix_type") = some "" := by
        rw [valid_format_url_json_frame (by decide)]; exact H2.2
      have e3 : hasKey (eraseKey t "matrix_type") "type" = true := by
        rw [hasKey_erase_ne (by decide)]; exact H3.1
      have f3 : (valid_typeJ) (eraseKey t "matrix_type") = some "" := by
        rw [valid_type_json_frame (by decide)]; exact H3.2
      have e4 : hasKey (eraseKey t "matrix_type") "rows" = true := by
        rw [hasKey_erase_ne (by decide)]; exact H4.1
      have f4 : (valid_rows) (eraseKey t "matrix_type") = some "" := by
        rw [valid_rows_frame (by decide) (by decide)]; exact H4.2
      have e5 : hasKey (eraseKey t "matrix_type") "columns" = true := by
        rw [hasKey_erase_ne (by decide)]; exact H5.1
      have f5 : (valid_columns) (eraseKey t "matrix_type") = some "" := by
        rw [valid_columns_frame (by decide) (by decide)]; exact H5.2
      have e6 : hasKey (eraseKey t "matrix_type") "shape" = true := by
        rw [hasKey_erase_ne (by decide)]; exact H6.1
      have f6 : (valid_shapeJ) (eraseKey t "matrix_type") = some "" := by
        rw [valid_shape_json_frame (by decide)]; exact H6.2
      have e7 : hasKey (eraseKey t "matrix_type") "data" = true := by
        rw [hasKey_erase_ne (by decide)]; exact H7.1
      obtain ⟨mts, hmt, hsd⟩ := valid_matrix_type_inv H8.2
      obtain ⟨ets, hmet, hesk⟩ := valid_matrix_element_type_inv H9.2
      have f7 : valid_data (eraseKey t "matrix_type") = Option.none :=
        valid_data_raise_no_mt (jget?_erase_self t _)
      have hrun : run_rules (eraseKey t "matrix_type") (hasKey (eraseKey t "matrix_type"))
          (fun k => "Missing field: '" ++ k ++ "'") false (required_keys_json ver) true []
          = Option.none := by
        simp only [required_keys_json]
        rw [run_rules_cons_pass e1 f1, run_rules_cons_pass e2 f2, run_rules_cons_pass e3 f3, run_rules_cons_pass e4 f4, run_rules_cons_pass e5 f5, run_rules_cons_pass e6 f6]
        exact run_rules_cons_raise e7 f7
      simp [validate_json, hrun]
    ·
      have e1 : hasKey (eraseKey t "matrix_element_type") "format" = true := by
        rw [hasKey_erase_ne (by decide)]; exact H1.1
      have f1 : (valid_format ver) (eraseKey t "matrix_element_type") = some "" := by
        rw [valid_format_frame (by decide)]; exact H1.2
      have e2 : hasKey (eraseKey t "matrix_element_type") "format_url" = true := by
        rw [hasKey_erase_ne (by decide)]; exact H2.1
      have f2 : (valid_format_urlJ) (eraseKey t "matrix_element_type") = some "" := by
        rw [valid_format_url_json_frame (by decide)]; exact H2.2
      have e3 : hasKey (eraseKey t "matrix_element_type") "type" = true := by
        rw [hasKey_erase_ne (by decide)]; exact H3.1
      have f3 : (valid_typeJ) (eraseKey t "matrix_element_type") = some "" := by
        rw [valid_type_json_frame (by decide)]; exact H3.2
      have e4 : hasKey (eraseKey t "matrix_element_type") "rows" = true := by
        rw [hasKey_erase_ne (by decide)]; exact H4.1
      have f4 : (valid_rows) (eraseKey t "matrix_element_type") = some "" := by
        rw [valid_rows_frame (by decide) (by decide)]; exact H4.2
      have e5 : hasKey (eraseKey t "matrix_element_type") "columns" = true := by
        rw [hasKey_erase_ne (by decide)]; exact H5.1
      have f5 : (valid_columns) (eraseKey t "matrix_element_type") = some "" := by
        rw [valid_columns_frame (by decide) (by decide)]; exact H5.2
      have e6 : hasKey (eraseKey t "matrix_element_type") "shape" = true := by
        rw [hasKey_erase_ne (by decide)]; exact H6.1
      have f6 : (valid_shapeJ) (eraseKey t "matrix_element_type") = some "" := by
        rw [valid_shape_json_frame (by decide)]; exact H6.2
      have e7 : hasKey (eraseKey t "matrix_element_type") "data" = true := by
        rw [hasKey_erase_ne (by decide)]; exact H7.1
      obtain ⟨mts, hmt, hsd⟩ := valid_matrix_type_inv H8.2
      obtain ⟨ets, hmet, hesk⟩ := valid_matrix_element_type_inv H9.2
      have hmt2 : jget? (eraseKey t "matrix_element_type") "matrix_type" = some (.str mts) := by
        rw [jget?_erase_ne (by decide)]; exact hmt
      have hmet0 : jget? (eraseKey t "matrix_element_type") "matrix_element_type" = Option.none :=
        jget?_erase_self t _
      have f7 : valid_data (eraseKey t "matrix_element_type") = Option.none := by
        rcases hsd with rfl | rfl
        · rw [valid_data_dispatch_sparse hmt2 (by decide)]
          exact valid_sparse_data_raise_no_met hmet0
        · rw [valid_data_dispatch_dense hmt2 (by decide)]
          exact valid_dense_data_raise_no_met hmet0
      have hrun : run_rules (eraseKey t "matrix_element_type") (hasKey (eraseKey t "matrix_element_type"))
          (fun k => "Missing field: '" ++ k ++ "'") false (required_keys_json ver) true []
          = Option.none := by
        simp only [required_keys_json]
        rw [run_rules_cons_pass e1 f1, run_rules_cons_pass e2 f2, run_rules_cons_pass e3 f3, run_rules_cons_pass e4 f4, run_rules_cons_pass e5 f5, run_rules_cons_pass e6 f6]
        exact run_rules_cons_raise e7 f7
      simp [validate_json, hrun]

theorem c1_hdf5_aux (T : H5Table)
    (h : validate_hdf5 T false = some (true, [])) :
    (∀ a ∈ (["format-url", "format-version", "type", "shape", "nnz",
             "generated-by", "id", "creation-date"] : List String),
       validate_hdf5 (eraseAttr T a) false
         = some (false, ["Missing attribute: '" ++ a ++ "'"])) ∧
    (∀ p ∈ (["observation/data", "observation/indices", "observation/indptr",
             "sample/data", "sample/indices", "sample/indptr"] : List String),
       validate_hdf5 (eraseItem T p) false = some (false, [])) ∧
    (∀ p ∈ (["observation/ids", "sample/ids"] : List String),
       validate_hdf5 (eraseItem T p) false = Option.none) ∧
    (∀ g ∈ (["observation", "sample"] : List String),
       validate_hdf5 (eraseGroup T g) false = Option.none) := by
  obtain ⟨Hall, hga, hda, shp, no, ns, lo, ls, hshp, hup, hobs, hsamp, hne1, hne2⟩ :=
    validate_hdf5_inv h
  have H1 := Hall ("format-url", valid_format_urlH) (by simp [required_attrs])
  have H2 := Hall ("format-version", valid_hdf5_format_version) (by simp [required_attrs])
  have H3 := Hall ("type", valid_typeH) (by simp [required_attrs])
  have H4 := Hall ("shape", valid_shapeH) (by simp [required_attrs])
  have H5 := Hall ("nnz", valid_nnz) (by simp [required_attrs])
  have H6 := Hall ("generated-by", valid_generated_byH) (by simp [required_attrs])
  have H7 := Hall ("id", valid_nullable_idH) (by simp [required_attrs])
  have H8 := Hall ("creation-date", valid_creation_date) (by simp [required_attrs])
  have hgi := List.all_eq_true.mp hga
  have hdi := List.all_eq_true.mp hda
  refine ⟨?_, ?_, ?_, ?_⟩
  · intro a ha
    fin_cases ha
    ·
      have e1 : hasAttr (eraseAttr T "format-url") "format-url" = false := hasAttr_eraseAttr_self T _
      have e2 : hasAttr (eraseAttr T "format-url") "format-version" = true := by
        rw [hasAttr_eraseAttr_ne (by decide)]; exact H2.1
      have f2 : (valid_hdf5_format_version) (eraseAttr T "format-url") = some "" := by
        rw [valid_hdf5_format_version_frame (by decide)]; exact H2.2
      have e3 : hasAttr (eraseAttr T "format-url") "type" = true := by
        rw [hasAttr_eraseAttr_ne (by decide)]; exact H3.1
      have f3 : (valid_typeH) (eraseAttr T "format-url") = some "" := by
        rw [valid_type_hdf5_frame (by decide)]; exact H3.2
      have e4 : hasAttr (eraseAttr T "format-url") "shape" = true := by
        rw [hasAttr_eraseAttr_ne (by decide)]; exact H4.1
      have f4 : (valid_shapeH) (eraseAttr T "format-url") = some "" := by
        rw [valid_shape_hdf5_frame (by decide)]; exact H4.2
      have e5 : hasAttr (eraseAttr T "format-url") "nnz" = true := by
        rw [hasAttr_eraseAttr_ne (by decide)]; exact H5.1
      have f5 : (valid_nnz) (eraseAttr T "format-url") = some "" := by
        rw [valid_nnz_frame (by decide)]; exact H5.2
      have e6 : hasAttr (eraseAttr T "format-url") "generated-by" = true := by
        rw [hasAttr_eraseAttr_ne (by decide)]; exact H6.1
      have f6 : (valid_generated_byH) (eraseAttr T "format-url") = some "" := by
        rw [valid_generated_by_hdf5_frame (by decide)]; exact H6.2
      have e7 : hasAttr (eraseAttr T "format-url") "id" = true := by
        rw [hasAttr_eraseAttr_ne (by decide)]; exact H7.1
      have f7 : valid_nullable_idH (eraseAttr T "format-url") = some "" := rfl
      have e8 : hasAttr (eraseAttr T "format-url") "creation-date" = true := by
        rw [hasAttr_eraseAttr_ne (by decide)]; exact H8.1
      have f8 : (valid_creation_date) (eraseAttr T "format-url") = some "" := by
        rw [valid_creation_date_frame (by decide)]; exact H8.2
      have hrun : run_rules (eraseAttr T "format-url") (hasAttr (eraseAttr T "format-url"))
          (fun k => "Missing attribute: '" ++ k ++ "'") false required_attrs true []
          = some (false, ["Missing attribute: 'format-url'"]) := by
        simp only [required_attrs]
        rw [run_rules_cons_missing e1, run_rules_cons_pass e2 f2, run_rules_cons_pass e3 f3, run_rules_cons_pass e4 f4, run_rules_cons_pass e5 f5, run_rules_cons_pass e6 f6, run_rules_cons_pass e7 f7, run_rules_cons_pass e8 f8, run_rules_nil]
        rfl
      have hg2 : required_groups.all (hasItem (eraseAttr T "format-url")) = true := hga
      have hd2 : required_datasets.all (hasItem (eraseAttr T "format-url")) = true := hda
      have hshp2 : attrGet? (eraseAttr T "format-url") "shape" = some shp := by
        rw [attrGet?_eraseAttr_ne (by decide)]; exact hshp
      have hcr : ∀ (v : Bool) (l : List String),
          cross_hdf5 (eraseAttr T "format-url") false (v, l) = some (v, l) :=
        fun v l => cross_hdf5_clean e4 hshp2 hup hobs hsamp hne1 hne2
      simp [validate_hdf5, hrun, check_items_false, hg2, hd2, hcr]
    ·
      have e1 : hasAttr (eraseAttr T "format-version") "format-url" = true := by
        rw [hasAttr_eraseAttr_ne (by decide)]; exact H1.1
      have f1 : (valid_format_urlH) (eraseAttr T "format-version") = some "" := by
        rw [valid_format_url_hdf5_frame (by decide)]; exact H1.2
      have e2 : hasAttr (eraseAttr T "format-version") "format-version" = false := hasAttr_eraseAttr_self T _
      have e3 : hasAttr (eraseAttr T "format-version") "type" = true := by
        rw [hasAttr_eraseAttr_ne (by decide)]; exact H3.1
      have f3 : (valid_typeH) (eraseAttr T "format-version") = some "" := by
        rw [valid_type_hdf5_frame (by decide)]; exact H3.2
      have e4 : hasAttr (eraseAttr T "format-version") "shape" = true := by
        rw [hasAttr_eraseAttr_ne (by decide)]; exact H4.1
      have f4 : (valid_shapeH) (eraseAttr T "format-version") = some "" := by
        rw [valid_shape_hdf5_frame (by decide)]; exact H4.2
      have e5 : hasAttr (eraseAttr T "format-version") "nnz" = true := by
        rw [hasAttr_eraseAttr_ne (by decide)]; exact H5.1
      have f5 : (valid_nnz) (eraseAttr T "format-version") = some "" := by
        rw [valid_nnz_frame (by decide)]; exact H5.2
      have e6 : hasAttr (eraseAttr T "format-version") "generated-by" = true := by
        rw [hasAttr_eraseAttr_ne (by decide)]; exact H6.1
      have f6 : (valid_generated_byH) (eraseAttr T "format-version") = some "" := by
        rw [valid_generated_by_hdf5_frame (by decide)]; exact H6.2
      have e7 : hasAttr (eraseAttr T "format-version") "id" = true := by
        rw [hasAttr_eraseAttr_ne (by decide)]; exact H7.1
      have f7 : valid_nullable_idH (eraseAttr T "format-version") = some "" := rfl
      have e8 : hasAttr (eraseAttr T "format-version") "creation-date" = true := by
        rw [hasAttr_eraseAttr_ne (by decide)]; exact H8.1
      have f8 : (valid_creation_date) (eraseAttr T "format-version") = some "" := by
        rw [valid_creation_date_frame (by decide)]; exact H8.2
      have hrun : run_rules (eraseAttr T "format-version") (hasAttr (eraseAttr T "format-version"))
          (fun k => "Missing attribute: '" ++ k ++ "'") false required_attrs true []
          = some (false, ["Missing attribute: 'format-version'"]) := by
        simp only [required_attrs]
        rw [run_rules_cons_pass e1 f1, run_rules_cons_missing e2, run_rules_cons_pass e3 f3, run_rules_cons_pass e4 f4, run_rules_cons_pass e5 f5, run_rules_cons_pass e6 f6, run_rules_cons_pass e7 f7, run_rules_cons_pass e8 f8, run_rules_nil]
        rfl
      have hg2 : required_groups.all (hasItem (eraseAttr T "format-version")) = true := hga
      have hd2 : required_datasets.all (hasItem (eraseAttr T "format-version")) = true := hda
      have hshp2 : attrGet? (eraseAttr T "format-version") "shape" = some shp := by
        rw [attrGet?_eraseAttr_ne (by decide)]; exact hshp
      have hcr : ∀ (v : Bool) (l : List String),
          cross_hdf5 (eraseAttr T "format-version") false (v, l) = some (v, l) :=
        fun v l => cross_hdf5_clean e4 hshp2 hup hobs hsamp hne1 hne2
      simp [validate_hdf5, hrun, check_items_false, hg2, hd2, hcr]
    ·
      have e1 : hasAttr (eraseAttr T "type") "format-url" = true := by
        rw [hasAttr_eraseAttr_ne (by decide)]; exact H1.1
      have f1 : (valid_format_urlH) (eraseAttr T "type") = some "" := by
        rw [valid_format_url_hdf5_frame (by decide)]; exact H1.2
      have e2 : hasAttr (eraseAttr T "type") "format-version" = true := by
        rw [hasAttr_eraseAttr_ne (by decide)]; exact H2.1
      have f2 : (valid_hdf5_format_version) (eraseAttr T "type") = some "" := by
        rw [valid_hdf5_format_version_frame (by decide)]; exact H2.2
      have e3 : hasAttr (eraseAttr T "type") "type" = false := hasAttr_eraseAttr_self T _
      have e4 : hasAttr (eraseAttr T "type") "shape" = true := by
        rw [hasAttr_eraseAttr_ne (by decide)]; exact H4.1
      have f4 : (valid_shapeH) (eraseAttr T "type") = some "" := by
        rw [valid_shape_hdf5_frame (by decide)]; exact H4.2
      have e5 : hasAttr (eraseAttr T "type") "nnz" = true := by
        rw [hasAttr_eraseAttr_ne (by decide)]; exact H5.1
      have f5 : (valid_nnz) (eraseAttr T "type") = some "" := by
        rw [valid_nnz_frame (by decide)]; exact H5.2
      have e6 : hasAttr (eraseAttr T "type") "generated-by" = true := by
        rw [hasAttr_eraseAttr_ne (by decide)]; exact H6.1
      have f6 : (valid_generated_byH) (eraseAttr T "type") = some "" := by
        rw [valid_generated_by_hdf5_frame (by decide)]; exact H6.2
      have e7 : hasAttr (eraseAttr T "type") "id" = true := by
        rw [hasAttr_eraseAttr_ne (by decide)]; exact H7.1
      have f7 : valid_nullable_idH (eraseAttr T "type") = some "" := rfl
      have e8 : hasAttr (eraseAttr T "type") "creation-date" = true := by
        rw [hasAttr_eraseAttr_ne (by decide)]; exact H8.1
      have f8 : (valid_creation_date) (eraseAttr T "type") = some "" := by
        rw [valid_creation_date_frame (by decide)]; exact H8.2
      have hrun : run_rules (eraseAttr T "type") (hasAttr (eraseAttr T "type"))
          (fun k => "Missing attribute: '" ++ k ++ "'") false required_attrs true []
          = some (false, ["Missing attribute: 'type'"]) := by
        simp only [required_attrs]
        rw [run_rules_cons_pass e1 f1, run_rules_cons_pass e2 f2, run_rules_cons_missing e3, run_rules_cons_pass e4 f4, run_rules_cons_pass e5 f5, run_rules_cons_pass e6 f6, run_rules_cons_pass e7 f7, run_rules_cons_pass e8 f8, run_rules_nil]
        rfl
      have hg2 : required_groups.all (hasItem (eraseAttr T "type")) = true := hga
      have hd2 : required_datasets.all (hasItem (eraseAttr T "type")) = true := hda
      have hshp2 : attrGet? (eraseAttr T "type") "shape" = some shp := by
        rw [attrGet?_eraseAttr_ne (by decide)]; exact hshp
      have hcr : ∀ (v : Bool) (l : List String),
          cross_hdf5 (eraseAttr T "type") false (v, l) = some (v, l) :=
        fun v l => cross_hdf5_clean e4 hshp2 hup hobs hsamp hne1 hne2
      simp [validate_hdf5, hrun, check_items_false, hg2, hd2, hcr]
    ·
      have e1 : hasAttr (eraseAttr T "shape") "format-url" = true := by
        rw [hasAttr_eraseAttr_ne (by decide)]; exact H1.1
      have f1 : (valid_format_urlH) (eraseAttr T "shape") = some "" := by
        rw [valid_format_url_hdf5_frame (by decide)]; exact H1.2
      have e2 : hasAttr (eraseAttr T "shape") "format-version" = true := by
        rw [hasAttr_eraseAttr_ne (by decide)]; exact H2.1
      have f2 : (valid_hdf5_format_version) (eraseAttr T "shape") = some "" := by
        rw [valid_hdf5_format_version_frame (by decide)]; exact H2.2
      have e3 : hasAttr (eraseAttr T "shape") "type" = true := by
        rw [hasAttr_eraseAttr_ne (by decide)]; exact H3.1
      have f3 : (valid_typeH) (eraseAttr T "shape") = some "" := by
        rw [valid_type_hdf5_frame (by decide)]; exact H3.2
      have e4 : hasAttr (eraseAttr T "shape") "shape" = false := hasAttr_eraseAttr_self T _
      have e5 : hasAttr (eraseAttr T "shape") "nnz" = true := by
        rw [hasAttr_eraseAttr_ne (by decide)]; exact H5.1
      have f5 : (valid_nnz) (eraseAttr T "shape") = some "" := by
        rw [valid_nnz_frame (by decide)]; exact H5.2
      have e6 : hasAttr (eraseAttr T "shape") "generated-by" = true := by
        rw [hasAttr_eraseAttr_ne (by decide)]; exact H6.1
      have f6 : (valid_generated_byH) (eraseAttr T "shape") = some "" := by
        rw [valid_generated_by_hdf5_frame (by decide)]; exact H6.2
      have e7 : hasAttr (eraseAttr T "shape") "id" = true := by
        rw [hasAttr_eraseAttr_ne (by decide)]; exact H7.1
      have f7 : valid_nullable_idH (eraseAttr T "shape") = some "" := rfl
      have e8 : hasAttr (eraseAttr T "shape") "creation-date" = true := by
        rw [hasAttr_eraseAttr_ne (by decide)]; exact H8.1
      have f8 : (valid_creation_date) (eraseAttr T "shape") = some "" := by
        rw [valid_creation_date_frame (by decide)]; exact H8.2
      have hrun : run_rules (eraseAttr T "shape") (hasAttr (eraseAttr T "shape"))
          (fun k => "Missing attribute: '" ++ k ++ "'") false required_attrs true []
          = some (false, ["Missing attribute: 'shape'"]) := by
        simp only [required_attrs]
        rw [run_rules_cons_pass e1 f1, run_rules_cons_pass e2 f2, run_rules_cons_pass e3 f3, run_rules_cons_missing e4, run_rules_cons_pass e5 f5, run_rules_cons_pass e6 f6, run_rules_cons_pass e7 f7, run_rules_cons_pass e8 f8, run_rules_nil]
        rfl
      have hg2 : required_groups.all (hasItem (eraseAttr T "shape")) = true := hga
      have hd2 : required_datasets.all (hasItem (eraseAttr T "shape")) = true := hda
      have hcr : ∀ (v : Bool) (l : List String),
          cross_hdf5 (eraseAttr T "shape") false (v, l) = some (v, l) :=
        fun v l => cross_hdf5_no_shape (hasAttr_eraseAttr_self T _)
      simp [validate_hdf5, hrun, check_items_false, hg2, hd2, hcr]
    ·
      have e1 : hasAttr (eraseAttr T "nnz") "format-url" = true := by
        rw [hasAttr_eraseAttr_ne (by decide)]; exact H1.1
      have f1 : (valid_format_urlH) (eraseAttr T "nnz") = some "" := by
        rw [valid_format_url_hdf5_frame (by decide)]; exact H1.2
      have e2 : hasAttr (eraseAttr T "nnz") "format-version" = true := by
        rw [hasAttr_eraseAttr_ne (by decide)]; exact H2.1
      have f2 : (valid_hdf5_format_version) (eraseAttr T "nnz") = some "" := by
        rw [valid_hdf5_format_version_frame (by decide)]; exact H2.2
      have e3 : hasAttr (eraseAttr T "nnz") "type" = true := by
        rw [hasAttr_eraseAttr_ne (by decide)]; exact H3.1
      have f3 : (valid_typeH) (eraseAttr T "nnz") = some "" := by
        rw [valid_type_hdf5_frame (by decide)]; exact H3.2
      have e4 : hasAttr (eraseAttr T "nnz") "shape" = true := by
        rw [hasAttr_eraseAttr_ne (by decide)]; exact H4.1
      have f4 : (valid_shapeH) (eraseAttr T "nnz") = some "" := by
        rw [valid_shape_hdf5_frame (by decide)]; exact H4.2
      have e5 : hasAttr (eraseAttr T "nnz") "nnz" = false := hasAttr_eraseAttr_self T _
      have e6 : hasAttr (eraseAttr T "nnz") "generated-by" = true := by
        rw [hasAttr_eraseAttr_ne (by decide)]; exact H6.1
      have f6 : (valid_generated_byH) (eraseAttr T "nnz") = some "" := by
        rw [valid_generated_by_hdf5_frame (by decide)]; exact H6.2
      have e7 : hasAttr (eraseAttr T "nnz") "id" = true := by
        rw [hasAttr_eraseAttr_ne (by decide)]; exact H7.1
      have f7 : valid_nullable_idH (eraseAttr T "nnz") = some "" := rfl
      have e8 : hasAttr (eraseAttr T "nnz") "creation-date" = true := by
        rw [hasAttr_eraseAttr_ne (by decide)]; exact H8.1
      have f8 : (valid_creation_date) (eraseAttr T "nnz") = some "" := by
        rw [valid_creation_date_frame (by decide)]; exact H8.2
      have hrun : run_rules (eraseAttr T "nnz") (hasAttr (eraseAttr T "nnz"))
          (fun k => "Missing attribute: '" ++ k ++ "'") false required_attrs true []
          = some (false, ["Missing attribute: 'nnz'"]) := by
        simp only [required_attrs]
        rw [run_rules_cons_pass e1 f1, run_rules_cons_pass e2 f2, run_rules_cons_pass e3 f3, run_rules_cons_pass e4 f4, run_rules_cons_missing e5, run_rules_cons_pass e6 f6, run_rules_cons_pass e7 f7, run_rules_cons_pass e8 f8, run_rules_nil]
        rfl
      have hg2 : required_groups.all (hasItem (eraseAttr T "nnz")) = true := hga
      have hd2 : required_datasets.all (hasItem (eraseAttr T "nnz")) = true := hda
      have hshp2 : attrGet? (eraseAttr T "nnz") "shape" = some shp := by
        rw [attrGet?_eraseAttr_ne (by decide)]; exact hshp
      have hcr : ∀ (v : Bool) (l : List String),
          cross_hdf5 (eraseAttr T "nnz") false (v, l) = some (v, l) :=
        fun v l => cross_hdf5_clean e4 hshp2 hup hobs hsamp hne1 hne2
      simp [validate_hdf5, hrun, check_items_false, hg2, hd2, hcr]
    ·
      have e1 : hasAttr (eraseAttr T "generated-by") "format-url" = true := by
        rw [hasAttr_eraseAttr_ne (by decide)]; exact H1.1
      have f1 : (valid_format_urlH) (eraseAttr T "generated-by") = some "" := by
        rw [valid_format_url_hdf5_frame (by decide)]; exact H1.2
      have e2 : hasAttr (eraseAttr T "generated-by") "format-version" = true := by
        rw [hasAttr_eraseAttr_ne (by decide)]; exact H2.1
      have f2 : (valid_hdf5_format_version) (eraseAttr T "generated-by") = some "" := by
        rw [valid_hdf5_format_version_frame (by decide)]; exact H2.2
      have e3 : hasAttr (eraseAttr T "generated-by") "type" = true := by
        rw [hasAttr_eraseAttr_ne (by decide)]; exact H3.1
      have f3 : (valid_typeH) (eraseAttr T "generated-by") = some "" := by
        rw [valid_type_hdf5_frame (by decide)]; exact H3.2
      have e4 : hasAttr (eraseAttr T "generated-by") "shape" = true := by
        rw [hasAttr_eraseAttr_ne (by decide)]; exact H4.1
      have f4 : (valid_shapeH) (eraseAttr T "generated-by") = some "" := by
        rw [valid_shape_hdf5_frame (by decide)]; exact H4.2
      have e5 : hasAttr (eraseAttr T "generated-by") "nnz" = true := by
        rw [hasAttr_eraseAttr_ne (by decide)]; exact H5.1
      have f5 : (valid_nnz) (eraseAttr T "generated-by") = some "" := by
        rw [valid_nnz_frame (by decide)]; exact H5.2
      have e6 : hasAttr (eraseAttr T "generated-by") "generated-by" = false := hasAttr_eraseAttr_self T _
      have e7 : hasAttr (eraseAttr T "generated-by") "id" = true := by
        rw [hasAttr_eraseAttr_ne (by decide)]; exact H7.1
      have f7 : valid_nullable_idH (eraseAttr T "generated-by") = some "" := rfl
      have e8 : hasAttr (eraseAttr T "generated-by") "creation-date" = true := by
        rw [hasAttr_eraseAttr_ne (by decide)]; exact H8.1
      have f8 : (valid_creation_date) (eraseAttr T "generated-by") = some "" := by
        rw [valid_creation_date_frame (by decide)]; exact H8.2
      have hrun : run_rules (eraseAttr T "generated-by") (hasAttr (eraseAttr T "generated-by"))
          (fun k => "Missing attribute: '" ++ k ++ "'") false required_attrs true []
          = some (false, ["Missing attribute: 'generated-by'"]) := by
        simp only [required_attrs]
        rw [run_rules_cons_pass e1 f1, run_rules_cons_pass e2 f2, run_rules_cons_pass e3 f3, run_rules_cons_pass e4 f4, run_rules_cons_pass e5 f5, run_rules_cons_missing e6, run_rules_cons_pass e7 f7, run_rules_cons_pass e8 f8, run_rules_nil]
        rfl
      have hg2 : required_groups.all (hasItem (eraseAttr T "generated-by")) = true := hga
      have hd2 : required_datasets.all (hasItem (eraseAttr T "generated-by")) = true := hda
      have hshp2 : attrGet? (eraseAttr T "generated-by") "shape" = some shp := by
        rw [attrGet?_eraseAttr_ne (by decide)]; exact hshp
      have hcr : ∀ (v : Bool) (l : List String),
          cross_hdf5 (eraseAttr T "generated-by") false (v, l) = some (v, l) :=
        fun v l => cross_hdf5_clean e4 hshp2 hup hobs hsamp hne1 hne2
      simp [validate_hdf5, hrun, check_items_false, hg2, hd2, hcr]
    ·
      have e1 : hasAttr (eraseAttr T "id") "format-url" = true := by
        rw [hasAttr_eraseAttr_ne (by decide)]; exact H1.1
      have f1 : (valid_format_urlH) (eraseAttr T "id") = some "" := by
        rw [valid_format_url_hdf5_frame (by decide)]; exact H1.2
      have e2 : hasAttr (eraseAttr T "id") "format-version" = true := by
        rw [hasAttr_eraseAttr_ne (by decide)]; exact H2.1
      have f2 : (valid_hdf5_format_version) (eraseAttr T "id") = some "" := by
        rw [valid_hdf5_format_version_frame (by decide)]; exact H2.2
      have e3 : hasAttr (eraseAttr T "id") "type" = true := by
        rw [hasAttr_eraseAttr_ne (by decide)]; exact H3.1
      have f3 : (valid_typeH) (eraseAttr T "id") = some "" := by
        rw [valid_type_hdf5_frame (by decide)]; exact H3.2
      have e4 : hasAttr (eraseAttr T "id") "shape" = true := by
        rw [hasAttr_eraseAttr_ne (by decide)]; exact H4.1
      have f4 : (valid_shapeH) (eraseAttr T "id") = some "" := by
        rw [valid_shape_hdf5_frame (by decide)]; exact H4.2
      have e5 : hasAttr (eraseAttr T "id") "nnz" = true := by
        rw [hasAttr_eraseAttr_ne (by decide)]; exact H5.1
      have f5 : (valid_nnz) (eraseAttr T "id") = some "" := by
        rw [valid_nnz_frame (by decide)]; exact H5.2
      have e6 : hasAttr (eraseAttr T "id") "generated-by" = true := by
        rw [hasAttr_eraseAttr_ne (by decide)]; exact H6.1
      have f6 : (valid_generated_byH) (eraseAttr T "id") = some "" := by
        rw [valid_generated_by_hdf5_frame (by decide)]; exact H6.2
      have e7 : hasAttr (eraseAttr T "id") "id" = false := hasAttr_eraseAttr_self T _
      have e8 : hasAttr (eraseAttr T "id") "creation-date" = true := by
        rw [hasAttr_eraseAttr_ne (by decide)]; exact H8.1
      have f8 : (valid_creation_date) (eraseAttr T "id") = some "" := by
        rw [valid_creation_date_frame (by decide)]; exact H8.2
      have hrun : run_rules (eraseAttr T "id") (hasAttr (eraseAttr T "id"))
          (fun k => "Missing attribute: '" ++ k ++ "'") false required_attrs true []
          = some (false, ["Missing attribute: 'id'"]) := by
        simp only [required_attrs]
        rw [run_rules_cons_pass e1 f1, run_rules_cons_pass e2 f2, run_rules_cons_pass e3 f3, run_rules_cons_pass e4 f4, run_rules_cons_pass e5 f5, run_rules_cons_pass e6 f6, run_rules_cons_missing e7, run_rules_cons_pass e8 f8, run_rules_nil]
        rfl
      have hg2 : required_groups.all (hasItem (eraseAttr T "id")) = true := hga
      have hd2 : required_datasets.all (hasItem (eraseAttr T "id")) = true := hda
      have hshp2 : attrGet? (eraseAttr T "id") "shape" = some shp := by
        rw [attrGet?_eraseAttr_ne (by decide)]; exact hshp
      have hcr : ∀ (v : Bool) (l : List String),
          cross_hdf5 (eraseAttr T "id") false (v, l) = some (v, l) :=
        fun v l => cross_hdf5_clean e4 hshp2 hup hobs hsamp hne1 hne2
      simp [validate_hdf5, hrun, check_items_false, hg2, hd2, hcr]
    ·
      have e1 : hasAttr (eraseAttr T "creation-date") "format-url" = true := by
        rw [hasAttr_eraseAttr_ne (by decide)]; exact H1.1
      have f1 : (valid_format_urlH) (eraseAttr T "creation-date") = some "" := by
        rw [valid_format_url_hdf5_frame (by decide)]; exact H1.2
      have e2 : hasAttr (eraseAttr T "creation-date") "format-version" = true := by
        rw [hasAttr_eraseAttr_ne (by decide)]; exact H2.1
      have f2 : (valid_hdf5_format_version) (eraseAttr T "creation-date") = some "" := by
        rw [valid_hdf5_format_version_frame (by decide)]; exact H2.2
      have e3 : hasAttr (eraseAttr T "creation-date") "type" = true := by
        rw [hasAttr_eraseAttr_ne (by decide)]; exact H3.1
      have f3 : (valid_typeH) (eraseAttr T "creation-date") = some "" := by
        rw [valid_type_hdf5_frame (by decide)]; exact H3.2
      have e4 : hasAttr (eraseAttr T "creation-date") "shape" = true := by
        rw [hasAttr_eraseAttr_ne (by decide)]; exact H4.1
      have f4 : (valid_shapeH) (eraseAttr T "creation-date") = some "" := by
        rw [valid_shape_hdf5_frame (by decide)]; exact H4.2
      have e5 : hasAttr (eraseAttr T "creation-date") "nnz" = true := by
        rw [hasAttr_eraseAttr_ne (by decide)]; exact H5.1
      have f5 : (valid_nnz) (eraseAttr T "creation-date") = some "" := by
        rw [valid_nnz_frame (by decide)]; exact H5.2
      have e6 : hasAttr (eraseAttr T "creation-date") "generated-by" = true := by
        rw [hasAttr_eraseAttr_ne (by decide)]; exact H6.1
      have f6 : (valid_generated_byH) (eraseAttr T "creation-date") = some "" := by
        rw [valid_generated_by_hdf5_frame (by decide)]; exact H6.2
      have e7 : hasAttr (eraseAttr T "creation-date") "id" = true := by
        rw [hasAttr_eraseAttr_ne (by decide)]; exact H7.1
      have f7 : valid_nullable_idH (eraseAttr T "creation-date") = some "" := rfl
      have e8 : hasAttr (eraseAttr T "creation-date") "creation-date" = false := hasAttr_eraseAttr_self T _
      have hrun : run_rules (eraseAttr T "creation-date") (hasAttr (eraseAttr T "creation-date"))
          (fun k => "Missing attribute: '" ++ k ++ "'") false required_attrs true []
          = some (false, ["Missing attribute: 'creation-date'"]) := by
        simp only [required_attrs]
        rw [run_rules_cons_pass e1 f1, run_rules_cons_pass e2 f2, run_rules_cons_pass e3 f3, run_rules_cons_pass e4 f4, run_rules_cons_pass e5 f5, run_rules_cons_pass e6 f6, run_rules_cons_pass e7 f7, run_rules_cons_missing e8, run_rules_nil]
        rfl
      have hg2 : required_groups.all (hasItem (eraseAttr T "creation-date")) = true := hga
      have hd2 : required_datasets.all (hasItem (eraseAttr T "creation-date")) = true := hda
      have hshp2 : attrGet? (eraseAttr T "creation-date") "shape" = some shp := by
        rw [attrGet?_eraseAttr_ne (by decide)]; exact hshp
      have hcr : ∀ (v : Bool) (l : List String),
          cross_hdf5 (eraseAttr T "creation-date") false (v, l) = some (v, l) :=
        fun v l => cross_hdf5_clean e4 hshp2 hup hobs hsamp hne1 hne2
      simp [validate_hdf5, hrun, check_items_false, hg2, hd2, hcr]
  · intro p hp
    fin_cases hp
    ·
      have hrun : run_rules (eraseItem T "observation/data") (hasAttr (eraseItem T "observation/data"))
          (fun k => "Missing attribute: '" ++ k ++ "'") false required_attrs true []
          = some (true, []) := by
        apply run_rules_all_pass ?_
        intro x hx
        simp only [required_attrs, List.mem_cons, List.not_mem_nil, or_false] at hx
        rcases hx with rfl|rfl|rfl|rfl|rfl|rfl|rfl|rfl
        · exact ⟨H1.1, H1.2⟩
        · exact ⟨H2.1, H2.2⟩
        · exact ⟨H3.1, H3.2⟩
        · exact ⟨H4.1, H4.2⟩
        · exact ⟨H5.1, H5.2⟩
        · exact ⟨H6.1, H6.2⟩
        · exact ⟨H7.1, H7.2⟩
        · exact ⟨H8.1, H8.2⟩
      have o1 : hasItem (eraseItem T "observation/data") "observation" = true := by
        rw [hasItem_eraseItem_ne (by decide)]; exact hgi _ (by decide)
      have o2 : hasItem (eraseItem T "observation/data") "sample" = true := by
        rw [hasItem_eraseItem_ne (by decide)]; exact hgi _ (by decide)
      have hg2 : required_groups.all (hasItem (eraseItem T "observation/data")) = true := by
        simp [required_groups, o1, o2]
      have z : hasItem (eraseItem T "observation/data") "observation/data" = false := hasItem_eraseItem_self T _
      have hd2 : required_datasets.all (hasItem (eraseItem T "observation/data")) = false := by
        simp [required_datasets, z]
      have hobs2 : itemLen? (eraseItem T "observation/data") "observation/ids" = some lo := by
        rw [itemLen?_eraseItem_ne (by decide)]; exact hobs
      have hsamp2 : itemLen? (eraseItem T "observation/data") "sample/ids" = some ls := by
        rw [itemLen?_eraseItem_ne (by decide)]; exact hsamp
      have hcr : ∀ (v : Bool) (l : List String),
          cross_hdf5 (eraseItem T "observation/data") false (v, l) = some (v, l) :=
        fun v l => cross_hdf5_clean H4.1 hshp hup hobs2 hsamp2 hne1 hne2
      simp [validate_hdf5, hrun, check_items_false, hg2, hd2, hcr]
    ·
      have hrun : run_rules (eraseItem T "observation/indices") (hasAttr (eraseItem T "observation/indices"))
          (fun k => "Missing attribute: '" ++ k ++ "'") false required_attrs true []
          = some (true, []) := by
        apply run_rules_all_pass ?_
        intro x hx
        simp only [required_attrs, List.mem_cons, List.not_mem_nil, or_false] at hx
        rcases hx with rfl|rfl|rfl|rfl|rfl|rfl|rfl|rfl
        · exact ⟨H1.1, H1.2⟩
        · exact ⟨H2.1, H2.2⟩
        · exact ⟨H3.1, H3.2⟩
        · exact ⟨H4.1, H4.2⟩
        · exact ⟨H5.1, H5.2⟩
        · exact ⟨H6.1, H6.2⟩
        · exact ⟨H7.1, H7.2⟩
        · exact ⟨H8.1, H8.2⟩
      have o1 : hasItem (eraseItem T "observation/indices") "observation" = true := by
        rw [hasItem_eraseItem_ne (by decide)]; exact hgi _ (by decide)
      have o2 : hasItem (eraseItem T "observation/indices") "sample" = true := by
        rw [hasItem_eraseItem_ne (by decide)]; exact hgi _ (by decide)
      have hg2 : required_groups.all (hasItem (eraseItem T "observation/indices")) = true := by
        simp [required_groups, o1, o2]
      have z : hasItem (eraseItem T "observation/indices") "observation/indices" = false := hasItem_eraseItem_self T _
      have hd2 : required_datasets.all (hasItem (eraseItem T "observation/indices")) = false := by
        simp [required_datasets, z]
      have hobs2 : itemLen? (eraseItem T "observation/indices") "observation/ids" = some lo := by
        rw [itemLen?_eraseItem_ne (by decide)]; exact hobs
      have hsamp2 : itemLen? (eraseItem T "observation/indices") "sample/ids" = some ls := by
        rw [itemLen?_eraseItem_ne (by decide)]; exact hsamp
      have hcr : ∀ (v : Bool) (l : List String),
          cross_hdf5 (eraseItem T "observation/indices") false (v, l) = some (v, l) :=
        fun v l => cross_hdf5_clean H4.1 hshp hup hobs2 hsamp2 hne1 hne2
      simp [validate_hdf5, hrun, check_items_false, hg2, hd2, hcr]
    ·
      have hrun : run_rules (eraseItem T "observation/indptr") (hasAttr (eraseItem T "observation/indptr"))
          (fun k => "Missing attribute: '" ++ k ++ "'") false required_attrs true []
          = some (true, []) := by
        apply run_rules_all_pass ?_
        intro x hx
        simp only [required_attrs, List.mem_cons, List.not_mem_nil, or_false] at hx
        rcases hx with rfl|rfl|rfl|rfl|rfl|rfl|rfl|rfl
        · exact ⟨H1.1, H1.2⟩
        · exact ⟨H2.1, H2.2⟩
        · exact ⟨H3.1, H3.2⟩
        · exact ⟨H4.1, H4.2⟩
        · exact ⟨H5.1, H5.2⟩
        · exact ⟨H6.1, H6.2⟩
        · exact ⟨H7.1, H7.2⟩
        · exact ⟨H8.1, H8.2⟩
      have o1 : hasItem (eraseItem T "observation/indptr") "observation" = true := by
        rw [hasItem_eraseItem_ne (by decide)]; exact hgi _ (by decide)
      have o2 : hasItem (eraseItem T "observation/indptr") "sample" = true := by
        rw [hasItem_eraseItem_ne (by decide)]; exact hgi _ (by decide)
      have hg2 : required_groups.all (hasItem (eraseItem T "observation/indptr")) = true := by
        simp [required_groups, o1, o2]
      have z : hasItem (eraseItem T "observation/indptr") "observation/indptr" = false := hasItem_eraseItem_self T _
      have hd2 : required_datasets.all (hasItem (eraseItem T "observation/indptr")) = false := by
        simp [required_datasets, z]
      have hobs2 : itemLen? (eraseItem T "observation/indptr") "observation/ids" = some lo := by
        rw [itemLen?_eraseItem_ne (by decide)]; exact hobs
      have hsamp2 : itemLen? (eraseItem T "observation/indptr") "sample/ids" = some ls := by
        rw [itemLen?_eraseItem_ne (by decide)]; exact hsamp
      have hcr : ∀ (v : Bool) (l : List String),
          cross_hdf5 (eraseItem T "observation/indptr") false (v, l) = some (v, l) :=
        fun v l => cross_hdf5_clean H4.1 hshp hup hobs2 hsamp2 hne1 hne2
      simp [validate_hdf5, hrun, check_items_false, hg2, hd2, hcr]
    ·
      have hrun : run_rules (eraseItem T "sample/data") (hasAttr (eraseItem T "sample/data"))
          (fun k => "Missing attribute: '" ++ k ++ "'") false required_attrs true []
          = some (true, []) := by
        apply run_rules_all_pass ?_
        intro x hx
        simp only [required_attrs, List.mem_cons, List.not_mem_nil, or_false] at hx
        rcases hx with rfl|rfl|rfl|rfl|rfl|rfl|rfl|rfl
        · exact ⟨H1.1, H1.2⟩
        · exact ⟨H2.1, H2.2⟩
        · exact ⟨H3.1, H3.2⟩
        · exact ⟨H4.1, H4.2⟩
        · exact ⟨H5.1, H5.2⟩
        · exact ⟨H6.1, H6.2⟩
        · exact ⟨H7.1, H7.2⟩
        · exact ⟨H8.1, H8.2⟩
      have o1 : hasItem (eraseItem T "sample/data") "observation" = true := by
        rw [hasItem_eraseItem_ne (by decide)]; exact hgi _ (by decide)
      have o2 : hasItem (eraseItem T "sample/data") "sample" = true := by
        rw [hasItem_eraseItem_ne (by decide)]; exact hgi _ (by decide)
      have hg2 : required_groups.all (hasItem (eraseItem T "sample/data")) = true := by
        simp [required_groups, o1, o2]
      have z : hasItem (eraseItem T "sample/data") "sample/data" = false := hasItem_eraseItem_self T _
      have hd2 : required_datasets.all (hasItem (eraseItem T "sample/data")) = false := by
        simp [required_datasets, z]
      have hobs2 : itemLen? (eraseItem T "sample/data") "observation/ids" = some lo := by
        rw [itemLen?_eraseItem_ne (by decide)]; exact hobs
      have hsamp2 : itemLen? (eraseItem T "sample/data") "sample/ids" = some ls := by
        rw [itemLen?_eraseItem_ne (by decide)]; exact hsamp
      have hcr : ∀ (v : Bool) (l : List String),
          cross_hdf5 (eraseItem T "sample/data") false (v, l) = some (v, l) :=
        fun v l => cross_hdf5_clean H4.1 hshp hup hobs2 hsamp2 hne1 hne2
      simp [validate_hdf5, hrun, check_items_false, hg2, hd2, hcr]
    ·
      have hrun : run_rules (eraseItem T "sample/indices") (hasAttr (eraseItem T "sample/indices"))
          (fun k => "Missing attribute: '" ++ k ++ "'") false required_attrs true []
          = some (true, []) := by
        apply run_rules_all_pass ?_
        intro x hx
        simp only [required_attrs, List.mem_cons, List.not_mem_nil, or_false] at hx
        rcases hx with rfl|rfl|rfl|rfl|rfl|rfl|rfl|rfl
        · exact ⟨H1.1, H1.2⟩
        · exact ⟨H2.1, H2.2⟩
        · exact ⟨H3.1, H3.2⟩
        · exact ⟨H4.1, H4.2⟩
        · exact ⟨H5.1, H5.2⟩
        · exact ⟨H6.1, H6.2⟩
        · exact ⟨H7.1, H7.2⟩
        · exact ⟨H8.1, H8.2⟩
      have o1 : hasItem (eraseItem T "sample/indices") "observation" = true := by
        rw [hasItem_eraseItem_ne (by decide)]; exact hgi _ (by decide)
      have o2 : hasItem (eraseItem T "sample/indices") "sample" = true := by
        rw [hasItem_eraseItem_ne (by decide)]; exact hgi _ (by decide)
      have hg2 : required_groups.all (hasItem (eraseItem T "sample/indices")) = true := by
        simp [required_groups, o1, o2]
      have z : hasItem (eraseItem T "sample/indices") "sample/indices" = false := hasItem_eraseItem_self T _
      have hd2 : required_datasets.all (hasItem (eraseItem T "sample/indices")) = false := by
        simp [required_datasets, z]
      have hobs2 : itemLen? (eraseItem T "sample/indices") "observation/ids" = some lo := by
        rw [itemLen?_eraseItem_ne (by decide)]; exact hobs
      have hsamp2 : itemLen? (eraseItem T "sample/indices") "sample/ids" = some ls := by
        rw [itemLen?_eraseItem_ne (by decide)]; exact hsamp
      have hcr : ∀ (v : Bool) (l : List String),
          cross_hdf5 (eraseItem T "sample/indices") false (v, l) = some (v, l) :=
        fun v l => cross_hdf5_clean H4.1 hshp hup hobs2 hsamp2 hne1 hne2
      simp [validate_hdf5, hrun, check_items_false, hg2, hd2, hcr]
    ·
      have hrun : run_rules (eraseItem T "sample/indptr") (hasAttr (eraseItem T "sample/indptr"))
          (fun k => "Missing attribute: '" ++ k ++ "'") false required_attrs true []
          = some (true, []) := by
        apply run_rules_all_pass ?_
        intro x hx
        simp only [required_attrs, List.mem_cons, List.not_mem_nil, or_false] at hx
        rcases hx with rfl|rfl|rfl|rfl|rfl|rfl|rfl|rfl
        · exact ⟨H1.1, H1.2⟩
        · exact ⟨H2.1, H2.2⟩
        · exact ⟨H3.1, H3.2⟩
        · exact ⟨H4.1, H4.2⟩
        · exact ⟨H5.1, H5.2⟩
        · exact ⟨H6.1, H6.2⟩
        · exact ⟨H7.1, H7.2⟩
        · exact ⟨H8.1, H8.2⟩
      have o1 : hasItem (eraseItem T "sample/indptr") "observation" = true := by
        rw [hasItem_eraseItem_ne (by decide)]; exact hgi _ (by decide)
      have o2 : hasItem (eraseItem T "sample/indptr") "sample" = true := by
        rw [hasItem_eraseItem_ne (by decide)]; exact hgi _ (by decide)
      have hg2 : required_groups.all (hasItem (eraseItem T "sample/indptr")) = true := by
        simp [required_groups, o1, o2]
      have z : hasItem (eraseItem T "sample/indptr") "sample/indptr" = false := hasItem_eraseItem_self T _
      have hd2 : required_datasets.all (hasItem (eraseItem T "sample/indptr")) = false := by
        simp [required_datasets, z]
      have hobs2 : itemLen? (eraseItem T "sample/indptr") "observation/ids" = some lo := by
        rw [itemLen?_eraseItem_ne (by decide)]; exact hobs
      have hsamp2 : itemLen? (eraseItem T "sample/indptr") "sample/ids" = some ls := by
        rw [itemLen?_eraseItem_ne (by decide)]; exact hsamp
      have hcr : ∀ (v : Bool) (l : List String),
          cross_hdf5 (eraseItem T "sample/indptr") false (v, l) = some (v, l) :=
        fun v l => cross_hdf5_clean H4.1 hshp hup hobs2 hsamp2 hne1 hne2
      simp [validate_hdf5, hrun, check_items_false, hg2, hd2, hcr]
  · intro p hp
    fin_cases hp
    ·
      have hrun : run_rules (eraseItem T "observation/ids") (hasAttr (eraseItem T "observation/ids"))
          (fun k => "Missing attribute: '" ++ k ++ "'") false required_attrs true []
          = some (true, []) := by
        apply run_rules_all_pass ?_
        intro x hx
        simp only [required_attrs, List.mem_cons, List.not_mem_nil, or_false] at hx
        rcases hx with rfl|rfl|rfl|rfl|rfl|rfl|rfl|rfl
        · exact ⟨H1.1, H1.2⟩
        · exact ⟨H2.1, H2.2⟩
        · exact ⟨H3.1, H3.2⟩
        · exact ⟨H4.1, H4.2⟩
        · exact ⟨H5.1, H5.2⟩
        · exact ⟨H6.1, H6.2⟩
        · exact ⟨H7.1, H7.2⟩
        · exact ⟨H8.1, H8.2⟩
      have o1 : hasItem (eraseItem T "observation/ids") "observation" = true := by
        rw [hasItem_eraseItem_ne (by decide)]; exact hgi _ (by decide)
      have o2 : hasItem (eraseItem T "observation/ids") "sample" = true := by
        rw [hasItem_eraseItem_ne (by decide)]; exact hgi _ (by decide)
      have hg2 : required_groups.all (hasItem (eraseItem T "observation/ids")) = true := by
        simp [required_groups, o1, o2]
      have z : hasItem (eraseItem T "observation/ids") "observation/ids" = false := hasItem_eraseItem_self T _
      have hd2 : required_datasets.all (hasItem (eraseItem T "observation/ids")) = false := by
        simp [required_datasets, z]
      have hobs2 : itemLen? (eraseItem T "observation/ids") "observation/ids" = Option.none :=
        itemLen?_eraseItem_self T _
      have hcr : ∀ (v : Bool) (l : List String),
          cross_hdf5 (eraseItem T "observation/ids") false (v, l) = Option.none :=
        fun v l => cross_hdf5_raise_no_obs H4.1 hshp hup hobs2
      simp [validate_hdf5, hrun, check_items_false, hg2, hd2, hcr]
    ·
      have hrun : run_rules (eraseItem T "sample/ids") (hasAttr (eraseItem T "sample/ids"))
          (fun k => "Missing attribute: '" ++ k ++ "'") false required_attrs true []
          = some (true, []) := by
        apply run_rules_all_pass ?_
        intro x hx
        simp only [required_attrs, List.mem_cons, List.not_mem_nil, or_false] at hx
        rcases hx with rfl|rfl|rfl|rfl|rfl|rfl|rfl|rfl
        · exact ⟨H1.1, H1.2⟩
        · exact ⟨H2.1, H2.2⟩
        · exact ⟨H3.1, H3.2⟩
        · exact ⟨H4.1, H4.2⟩
        · exact ⟨H5.1, H5.2⟩
        · exact ⟨H6.1, H6.2⟩
        · exact ⟨H7.1, H7.2⟩
        · exact ⟨H8.1, H8.2⟩
      have o1 : hasItem (eraseItem T "sample/ids") "observation" = true := by
        rw [hasItem_eraseItem_ne (by decide)]; exact hgi _ (by decide)
      have o2 : hasItem (eraseItem T "sample/ids") "sample" = true := by
        rw [hasItem_eraseItem_ne (by decide)]; exact hgi _ (by decide)
      have hg2 : required_groups.all (hasItem (eraseItem T "sample/ids")) = true := by
        simp [required_groups, o1, o2]
      have z : hasItem (eraseItem T "sample/ids") "sample/ids" = false := hasItem_eraseItem_self T _
      have hd2 : required_datasets.all (hasItem (eraseItem T "sample/ids")) = false := by
        simp [required_datasets, z]
      have hobs2 : itemLen? (eraseItem T "sample/ids") "observation/ids" = some lo := by
        rw [itemLen?_eraseItem_ne (by decide)]; exact hobs
      have hsamp2 : itemLen? (eraseItem T "sample/ids") "sample/ids" = Option.none :=
        itemLen?_eraseItem_self T _
      have hcr : ∀ (v : Bool) (l : List String),
          cross_hdf5 (eraseItem T "sample/ids") false (v, l) = Option.none :=
        fun v l => cross_hdf5_raise_no_samp H4.1 hshp hup hobs2 hsamp2
      simp [validate_hdf5, hrun, check_items_false, hg2, hd2, hcr]
  · intro g hg
    fin_cases hg
    ·
      have hrun : run_rules (eraseGroup T "observation") (hasAttr (eraseGroup T "observation"))
          (fun k => "Missing attribute: '" ++ k ++ "'") false required_attrs true []
          = some (true, []) := by
        apply run_rules_all_pass ?_
        intro x hx
        simp only [required_attrs, List.mem_cons, List.not_mem_nil, or_false] at hx
        rcases hx with rfl|rfl|rfl|rfl|rfl|rfl|rfl|rfl
        · exact ⟨H1.1, H1.2⟩
        · exact ⟨H2.1, H2.2⟩
        · exact ⟨H3.1, H3.2⟩
        · exact ⟨H4.1, H4.2⟩
        · exact ⟨H5.1, H5.2⟩
        · exact ⟨H6.1, H6.2⟩
        · exact ⟨H7.1, H7.2⟩
        · exact ⟨H8.1, H8.2⟩
      have hobs2 : itemLen? (eraseGroup T "observation") "observation/ids" = Option.none :=
        itemLen?_eraseGroup_in (by decide)
      have hcr : ∀ (v : Bool) (l : List String),
          cross_hdf5 (eraseGroup T "observation") false (v, l) = Option.none :=
        fun v l => cross_hdf5_raise_no_obs H4.1 hshp hup hobs2
      simp [validate_hdf5, hrun, check_items_false, hcr]
    ·
      have hrun : run_rules (eraseGroup T "sample") (hasAttr (eraseGroup T "sample"))
          (fun k => "Missing attribute: '" ++ k ++ "'") false required_attrs true []
          = some (true, []) := by
        apply run_rules_all_pass ?_
        intro x hx
        simp only [required_attrs, List.mem_cons, List.not_mem_nil, or_false] at hx
        rcases hx with rfl|rfl|rfl|rfl|rfl|rfl|rfl|rfl
        · exact ⟨H1.1, H1.2⟩
        · exact ⟨H2.1, H2.2⟩
        · exact ⟨H3.1, H3.2⟩
        · exact ⟨H4.1, H4.2⟩
        · exact ⟨H5.1, H5.2⟩
        · exact ⟨H6.1, H6.2⟩
        · exact ⟨H7.1, H7.2⟩
        · exact ⟨H8.1, H8.2⟩
      have hobs2 : itemLen? (eraseGroup T "sample") "observation/ids" = some lo := by
        rw [itemLen?_eraseGroup_out (by decide)]; exact hobs
      have hsamp2 : itemLen? (eraseGroup T "sample") "sample/ids" = Option.none :=
        itemLen?_eraseGroup_in (by decide)
      have hcr : ∀ (v : Bool) (l : List String),
          cross_hdf5 (eraseGroup T "sample") false (v, l) = Option.none :=
        fun v l => cross_hdf5_raise_no_samp H4.1 hshp hup hobs2 hsamp2
      simp [validate_hdf5, hrun, check_items_false, hcr]

/-- C1 (amended): for any fully conformant flat document, removing one of
the eight fields `format`, `format_url`, `rows`, `columns`, `data`,
`generated_by`, `id`, `date` yields verdict `false` with exactly one line
naming that field as missing; removing one of `type`, `shape`,
`matrix_type` or `matrix_element_type` instead makes another rule raise,
so no report is returned at all.  For any fully conformant hierarchical
document, removing one required attribute yields verdict `false` with
exactly one missing-attribute line; removing a non-ids dataset flips the
verdict but (narrative off) appends no line; removing an ids dataset or a
group makes the shape cross-check raise.  The original claim (always
exactly one line) is refuted by `missing_type_field_crashes`. -/
theorem missing_single_required_field_behavior :
    (∀ (t : JDoc) (ver : String), validate_json t ver false = some (true, []) →
      (∀ k ∈ (["format", "format_url", "rows", "columns", "data",
               "generated_by", "id", "date"] : List String),
         validate_json (eraseKey t k) ver false
           = some (false, ["Missing field: '" ++ k ++ "'"])) ∧
      (∀ k ∈ (["type", "shape", "matrix_type", "matrix_element_type"] : List String),
         validate_json (eraseKey t k) ver false = Option.none)) ∧
    (∀ T : H5Table, validate_hdf5 T false = some (true, []) →
      (∀ a ∈ (["format-url", "format-version", "type", "shape", "nnz",
               "generated-by", "id", "creation-date"] : List String),
         validate_hdf5 (eraseAttr T a) false
           = some (false, ["Missing attribute: '" ++ a ++ "'"])) ∧
      (∀ p ∈ (["observation/data", "observation/indices", "observation/indptr",
               "sample/data", "sample/indices", "sample/indptr"] : List String),
         validate_hdf5 (eraseItem T p) false = some (false, [])) ∧
      (∀ p ∈ (["observation/ids", "sample/ids"] : List String),
         validate_hdf5 (eraseItem T p) false = Option.none) ∧
      (∀ g ∈ (["observation", "sample"] : List String),
         validate_hdf5 (eraseGroup T g) false = Option.none)) :=
  ⟨fun t ver h => c1_flat_aux t ver h, fun T h => c1_hdf5_aux T h⟩

/-- C1 witness: the amended theorem applied to the spec's conformant
example documents, for one representative key of each behaviour class. -/
theorem missing_single_required_field_behavior_witness :
    validate_json (eraseKey exDoc "format") "1.0.0" false
      = some (false, ["Missing field: 'format'"]) ∧
    validate_json (eraseKey exDoc "shape") "1.0.0" false = Option.none ∧
    validate_hdf5 (eraseAttr exH5 "nnz") false
      = some (false, ["Missing attribute: 'nnz'"]) ∧
    validate_hdf5 (eraseItem exH5 "observation/data") false = some (false, []) ∧
    validate_hdf5 (eraseItem exH5 "sample/ids") false = Option.none ∧
    validate_hdf5 (eraseGroup exH5 "observation") false = Option.none :=
  ⟨(missing_single_required_field_behavior.1 exDoc "1.0.0" (by decide)).1 "format" (by decide),
   (missing_single_required_field_behavior.1 exDoc "1.0.0" (by decide)).2 "shape" (by decide),
   (missing_single_required_field_behavior.2 exH5 (by decide)).1 "nnz" (by decide),
   (missing_single_required_field_behavior.2 exH5 (by decide)).2.1 "observation/data" (by decide),
   (missing_single_required_field_behavior.2 exH5 (by decide)).2.2.1 "sample/ids" (by decide),
   (missing_single_required_field_behavior.2 exH5 (by decide)).2.2.2 "observation" (by decide)⟩

/-- C1 counterexample: the spec's conformant flat example with exactly
its required `type` field removed (every other field conformant) makes
validation raise — `_valid_rows` dereferences the absent
`table_json['type']` — so no report with a missing-field line is
produced, refuting "verdict false and exactly one line naming that
field". -/
theorem missing_type_field_crashes :
    validate_json (eraseKey exDoc "type") "1.0.0" false = Option.none := by decide

/-! Narrative-mode invariance: the detailed_report flag only inserts
progress lines and never changes the verdict or the raise behaviour. -/

theorem run_rules_cons_present {α : Type} {d : α} {p : String → Bool} {m : String → String}
    {det : Bool} {k : String} {f : α → Option String}
    {rs : List (String × (α → Option String))} {v : Bool} {l : List String} {msg : String}
    (hp : p k = true) (hf : f d = some msg) :
    run_rules d p m det ((k, f) :: rs) v l =
      if msg.length > 0 then
        run_rules d p m det rs false
          ((if det then l ++ ["Validating '" ++ k ++ "'..."] else l) ++ [msg])
      else
        run_rules d p m det rs v (if det then l ++ ["Validating '" ++ k ++ "'..."] else l) := by
  simp [run_rules, hp, hf]

theorem run_rules_fst {α : Type} (d : α) (p : String → Bool) (m : String → String) :
    ∀ (rs : List (String × (α → Option String))) (d1 d2 : Bool) (v : Bool) (l1 l2 : List String),
      (run_rules d p m d1 rs v l1).map Prod.fst = (run_rules d p m d2 rs v l2).map Prod.fst := by
  intro rs
  induction rs with
  | nil => intro d1 d2 v l1 l2; rfl
  | cons hd tl ih =>
    intro d1 d2 v l1 l2
    obtain ⟨k, f⟩ := hd
    by_cases hp : p k
    · cases hf : f d with
      | none =>
        rw [run_rules_cons_raise hp hf, run_rules_cons_raise hp hf]
      | some msg =>
        rw [run_rules_cons_present hp hf, run_rules_cons_present hp hf]
        by_cases hm : msg.length > 0
        · rw [if_pos hm, if_pos hm]
          exact ih d1 d2 false _ _
        · rw [if_neg hm, if_neg hm]
          exact ih d1 d2 v _ _
    · rw [run_rules_cons_missing (eq_false_of_ne_true hp),
          run_rules_cons_missing (eq_false_of_ne_true hp)]
      exact ih d1 d2 false _ _

theorem check_items_fst (T : H5Table) (w : String) :
    ∀ (names : List String) (d1 d2 : Bool) (v : Bool) (l1 l2 : List String),
      (check_items T d1 w names (v, l1)).1 = (check_items T d2 w names (v, l2)).1 := by
  intro names
  induction names with
  | nil => intro d1 d2 v l1 l2; rfl
  | cons g rest ih =>
    intro d1 d2 v l1 l2
    by_cases hg : hasItem T g
    · simp only [check_items, hg, if_pos]
      exact ih d1 d2 v _ _
    · simp only [check_items, hg, if_neg, if_false]
      exact ih d1 d2 false _ _

theorem cross_json_fst (t : JDoc) (d1 d2 : Bool) (v : Bool) (l1 l2 : List String) :
    (cross_json t d1 (v, l1)).map Prod.fst = (cross_json t d2 (v, l2)).map Prod.fst := by
  by_cases hs : hasKey t "shape"
  · rcases hrb : cross_branch t "rows" 0 with _ | rb
    · simp [cross_json, hs, hrb]
    · rcases hcb : cross_branch t "columns" 1 with _ | cb
      · simp [cross_json, hs, hrb, hcb]
      · cases rb <;> cases cb <;> simp [cross_json, hs, hrb, hcb]
  · rw [cross_json_no_shape (eq_false_of_ne_true hs),
        cross_json_no_shape (eq_false_of_ne_true hs)]
    rfl

theorem cross_hdf5_fst (T : H5Table) (d1 d2 : Bool) (v : Bool) (l1 l2 : List String) :
    (cross_hdf5 T d1 (v, l1)).map Prod.fst = (cross_hdf5 T d2 (v, l2)).map Prod.fst := by
  by_cases hs : hasAttr T "shape"
  · rcases hshp : attrGet? T "shape" with _ | shp
    · simp [cross_hdf5, hs, hshp]
    · rcases hup : unpack2 shp with _ | ⟨no, ns⟩
      · simp [cross_hdf5, hs, hshp, hup]
      · rcases hobs : itemLen? T "observation/ids" with _ | lo
        · simp [cross_hdf5, hs, hshp, hup, hobs]
        · rcases hsamp : itemLen? T "sample/ids" with _ | ls
          · simp [cross_hdf5, hs, hshp, hup, hobs, hsamp]
          · cases hn1 : pyNeLen lo no <;> cases hn2 : pyNeLen ls ns <;>
              simp [cross_hdf5, hs, hshp, hup, hobs, hsamp, hn1, hn2]
  · rw [cross_hdf5_no_shape (eq_false_of_ne_true hs),
        cross_hdf5_no_shape (eq_false_of_ne_true hs)]
    rfl

theorem check_items_fst' (T : H5Table) (w : String) (d1 d2 : Bool)
    (a b : Bool × List String) (h : a.1 = b.1) (names : List String) :
    (check_items T d1 w names a).1 = (check_items T d2 w names b).1 := by
  obtain ⟨v1, l1⟩ := a
  obtain ⟨v2, l2⟩ := b
  simp only [] at h
  subst h
  exact check_items_fst T w names d1 d2 v1 l1 l2

theorem cross_hdf5_fst' (T : H5Table) (d1 d2 : Bool)
    (a b : Bool × List String) (h : a.1 = b.1) :
    (cross_hdf5 T d1 a).map Prod.fst = (cross_hdf5 T d2 b).map Prod.fst := by
  obtain ⟨v1, l1⟩ := a
  obtain ⟨v2, l2⟩ := b
  simp only [] at h
  subst h
  exact cross_hdf5_fst T d1 d2 v1 l1 l2

/-- C7: the overall verdict (and the raise behaviour) of both drivers is
identical with narrative (detailed_report) mode enabled and disabled: the
extra progress lines never affect it. -/
theorem detailed_report_verdict_invariant :
    (∀ (t : JDoc) (ver : String),
       (validate_json t ver true).map Prod.fst = (validate_json t ver false).map Prod.fst) ∧
    (∀ T : H5Table,
       (validate_hdf5 T true).map Prod.fst = (validate_hdf5 T false).map Prod.fst) := by
  constructor
  · intro t ver
    have hr := run_rules_fst t (hasKey t) (fun k => "Missing field: '" ++ k ++ "'")
      (required_keys_json ver) true false true ["Validating BIOM table..."] []
    rcases h1 : run_rules t (hasKey t) (fun k => "Missing field: '" ++ k ++ "'") true
        (required_keys_json ver) true ["Validating BIOM table..."] with _ | ⟨v1, m1⟩ <;>
      rcases h2 : run_rules t (hasKey t) (fun k => "Missing field: '" ++ k ++ "'") false
        (required_keys_json ver) true [] with _ | ⟨v2, m2⟩ <;>
      rw [h1, h2] at hr <;> simp at hr
    · have e1 : validate_json t ver true = Option.none := by
        show (match run_rules t (hasKey t) (fun k => "Missing field: '" ++ k ++ "'") true
            (required_keys_json ver) true ["Validating BIOM table..."] with
          | Option.none => Option.none
          | some vl => cross_json t true vl) = Option.none
        rw [h1]
      have e2 : validate_json t ver false = Option.none := by
        show (match run_rules t (hasKey t) (fun k => "Missing field: '" ++ k ++ "'") false
            (required_keys_json ver) true [] with
          | Option.none => Option.none
          | some vl => cross_json t false vl) = Option.none
        rw [h2]
      rw [e1, e2]
    · subst hr
      have e1 : validate_json t ver true = cross_json t true (v1, m1) := by
        show (match run_rules t (hasKey t) (fun k => "Missing field: '" ++ k ++ "'") true
            (required_keys_json ver) true ["Validating BIOM table..."] with
          | Option.none => Option.none
          | some vl => cross_json t true vl) = cross_json t true (v1, m1)
        rw [h1]
      have e2 : validate_json t ver false = cross_json t false (v1, m2) := by
        show (match run_rules t (hasKey t) (fun k => "Missing field: '" ++ k ++ "'") false
            (required_keys_json ver) true [] with
          | Option.none => Option.none
          | some vl => cross_json t false vl) = cross_json t false (v1, m2)
        rw [h2]
      rw [e1, e2]
      exact cross_json_fst t true false v1 m1 m2
  · intro T
    have hr := run_rules_fst T (hasAttr T) (fun k => "Missing attribute: '" ++ k ++ "'")
      required_attrs true false true ["Validating BIOM table..."] []
    rcases h1 : run_rules T (hasAttr T) (fun k => "Missing attribute: '" ++ k ++ "'") true
        required_attrs true ["Validating BIOM table..."] with _ | ⟨v1, m1⟩ <;>
      rcases h2 : run_rules T (hasAttr T) (fun k => "Missing attribute: '" ++ k ++ "'") false
        required_attrs true [] with _ | ⟨v2, m2⟩ <;>
      rw [h1, h2] at hr <;> simp at hr
    · have e1 : validate_hdf5 T true = Option.none := by
        show (match run_rules T (hasAttr T) (fun k => "Missing attribute: '" ++ k ++ "'") true
            required_attrs true ["Validating BIOM table..."] with
          | Option.none => Option.none
          | some vl => cross_hdf5 T true
              (check_items T true "Missing dataset: " required_datasets
                (check_items T true "Missing group: " required_groups vl))) = Option.none
        rw [h1]
      have e2 : validate_hdf5 T false = Option.none := by
        show (match run_rules T (hasAttr T) (fun k => "Missing attribute: '" ++ k ++ "'") false
            required_attrs true [] with
          | Option.none => Option.none
          | some vl => cross_hdf5 T false
              (check_items T false "Missing dataset: " required_datasets
                (check_items T false "Missing group: " required_groups vl))) = Option.none
        rw [h2]
      rw [e1, e2]
    · subst hr
      have e1 : validate_hdf5 T true
          = cross_hdf5 T true
              (check_items T true "Missing dataset: " required_datasets
                (check_items T true "Missing group: " required_groups (v1, m1))) := by
        show (match run_rules T (hasAttr T) (fun k => "Missing attribute: '" ++ k ++ "'") true
            required_attrs true ["Validating BIOM table..."] with
          | Option.none => Option.none
          | some vl => cross_hdf5 T true
              (check_items T true "Missing dataset: " required_datasets
                (check_items T true "Missing group: " required_groups vl))) = _
        rw [h1]
      have e2 : validate_hdf5 T false
          = cross_hdf5 T false
              (check_items T false "Missing dataset: " required_datasets
                (check_items T false "Missing group: " required_groups (v1, m2))) := by
        show (match run_rules T (hasAttr T) (fun k => "Missing attribute: '" ++ k ++ "'") false
            required_attrs true [] with
          | Option.none => Option.none
          | some vl => cross_hdf5 T false
              (check_items T false "Missing dataset: " required_datasets
                (check_items T false "Missing group: " required_groups vl))) = _
        rw [h2]
      rw [e1, e2]
      exact cross_hdf5_fst' T true false _ _
        (check_items_fst' T "Missing dataset: " true false _ _
          (check_items_fst' T "Missing group: " true false (v1, m1) (v1, m2) rfl required_groups)
          required_datasets)

/-- C6: the date/creation-date rule accepts a string iff one of the four
strptime patterns `%Y-%m-%d`, `%Y-%m-%dT%H:%M`, `%Y-%m-%dT%H:%M:%S`,
`%Y-%m-%dT%H:%M:%S.%f` matches it (tried in that order, first success
breaking the loop), and the spec's six examples behave as claimed. -/
theorem date_rule_four_patterns :
    check_date (.str "2011-12-19") = "" ∧
    check_date (.str "2011-12-19T19:00") = "" ∧
    check_date (.str "2011-12-19T19:00:00") = "" ∧
    check_date (.str "2011-12-19T19:00:00.123456") = "" ∧
    check_date (.str "19 Dec 2011") = "Timestamp does not appear to be ISO 8601" ∧
    check_date (.str "2011/12/19") = "Timestamp does not appear to be ISO 8601" ∧
    ∀ s : String, (check_date (.str s) = "" ↔
      (strptimeD s = true ∨ strptimeDHM s = true ∨ strptimeDHMS s = true ∨
       strptimeDHMSf s = true)) := by
  refine ⟨by decide, by decide, by decide, by decide, by decide, by decide, ?_⟩
  intro s
  rw [show check_date (.str s)
      = (if valid_times.any (fun f => f s) then "" else "Timestamp does not appear to be ISO 8601")
      from rfl]
  by_cases hb : valid_times.any (fun f => f s) = true
  · rw [if_pos hb]
    simp only [valid_times, List.any_cons, List.any_nil, Bool.or_false, Bool.or_eq_true] at hb
    exact iff_of_true rfl hb
  · rw [if_neg hb]
    refine iff_of_false (by decide) ?_
    intro hd
    exact hb (by simpa only [valid_times, List.any_cons, List.any_nil, Bool.or_false,
      Bool.or_eq_true] using hd)

/-- C2 (code bug): rules do raise for well-formed-but-invalid content,
contradicting the spec's "rules never raise / the run always completes":
a non-string `type` makes `_valid_type` raise `AttributeError` on
`.lower()`; a `shape` that is not a pair makes `_valid_shape` raise on
unpacking; an empty dense row (matching `n_cols = 0`) makes
`reduce(and_, [])` raise `TypeError`; and a hierarchical table whose
`observation/ids` dataset is absent makes the shape cross-check raise
`TypeError` on `len(None)` right after queueing its report line, so the
whole run aborts with no report. -/
theorem rules_raise_on_malformed_content :
    valid_typeJ typeIntDoc = Option.none ∧
    valid_shapeJ shapeTripleDoc = Option.none ∧
    valid_dense_data denseEmptyRowDoc = Option.none ∧
    validate_hdf5 (eraseItem exH5 "observation/ids") false = Option.none :=
  ⟨by decide, by decide, by decide, by decide⟩

theorem toList_ofList (l : List PyVal) : PyList.toList (PyList.ofList l) = l := by
  induction l with
  | nil => rfl
  | cons x xs ih => simp [PyList.ofList, PyList.toList, ih]

theorem unpack2_pair (a b : PyVal) : unpack2 (pl [a, b]) = some (a, b) := rfl

theorem unpack2_list_ne2 {l : List PyVal} (h : ¬ l.length = 2) :
    unpack2 (.list (PyList.ofList l)) = Option.none := by
  rcases l with _ | ⟨a, _ | ⟨b, _ | ⟨c, l⟩⟩⟩
  · rfl
  · rfl
  · exact absurd rfl h
  · simp [unpack2, pyIter, toList_ofList]

/-- C5 (amended): the shape rule checks only that both components of the
pair are integer-typed (`_is_int`, so booleans also pass): a length-2
sequence passes iff both components are integer-typed, with no sign
check — a negative integer passes, refuting the original claim (see
`shape_rule_accepts_negative`) — and a non-pair value makes the rule
raise instead of producing a defect. -/
theorem shape_rule_integer_typed_only (t : JDoc) :
    (∀ a b : PyVal, jgetD t "shape" = pl [a, b] →
       valid_shapeJ t = some (if is_int a && is_int b then ""
         else "'shape' values do not appear to be integers")) ∧
    (∀ n : Int, jgetD t "shape" = .int n → valid_shapeJ t = Option.none) ∧
    (∀ l : List PyVal, jgetD t "shape" = .list (PyList.ofList l) → ¬ l.length = 2 →
       valid_shapeJ t = Option.none) := by
  refine ⟨?_, ?_, ?_⟩
  · intro a b h
    rw [valid_shapeJ, valid_shape, json_or_hdf5_get, h, unpack2_pair]
    cases hab : is_int a && is_int b <;> simp [hab]
  · intro n h
    rw [valid_shapeJ, valid_shape, json_or_hdf5_get, h]
    rfl
  · intro l h hl
    rw [valid_shapeJ, valid_shape, json_or_hdf5_get, h, unpack2_list_ne2 hl]

/-- C5 witness: the amended theorem applied to the document with shape
`[-1, 2]` (both integer-typed, one negative: passes) and to the document
with a length-3 shape (raises). -/
theorem shape_rule_integer_typed_only_witness :
    valid_shapeJ negShapeDoc = some "" ∧ valid_shapeJ shapeTripleDoc = Option.none :=
  ⟨(shape_rule_integer_typed_only negShapeDoc).1 (.int (-1)) (.int 2) rfl,
   (shape_rule_integer_typed_only shapeTripleDoc).2.2 [.int 1, .int 2, .int 3] rfl (by decide)⟩

/-- C5 counterexample: a shape containing the negative integer `-1`
passes the shape rule (empty status message), whereas the claim says it
must produce a defect. -/
theorem shape_rule_accepts_negative :
    valid_shapeJ negShapeDoc = some "" ∧ ((-1 : Int) < 0) := ⟨by decide, by decide⟩

theorem unpack3_triple (a b c : PyVal) : unpack3 (pl [a, b, c]) = some (a, b, c) := rfl

theorem sparse_loop_cons_ok {dtype : String} {nr nc : PyNum} {e : PyVal} {l : List PyVal} {i : Nat}
    (h : sparse_entry_ok dtype nr nc e = true) :
    sparse_loop dtype nr nc (e :: l) i = sparse_loop dtype nr nc l (i + 1) := by
  rcases hu : unpack3 e with _ | ⟨x, y, v⟩
  · simp [sparse_entry_ok, hu] at h
  · simp only [sparse_entry_ok, hu, Bool.and_eq_true, decide_eq_true_eq] at h
    obtain ⟨⟨⟨⟨h1, h2⟩, h3⟩, h4⟩, h5⟩ := h
    simp only [sparse_loop, hu, h1, h2, h3]
    rw [if_neg (by simp [h1, h2]), if_neg (by simp [h3]),
        if_neg (by simpa using h4), if_neg (by simpa using h5)]

theorem sparse_loop_append (dtype : String) (nr nc : PyNum) :
    ∀ (pre l : List PyVal) (i : Nat),
      (∀ e' ∈ pre, sparse_entry_ok dtype nr nc e' = true) →
      sparse_loop dtype nr nc (pre ++ l) i = sparse_loop dtype nr nc l (i + pre.length) := by
  intro pre
  induction pre with
  | nil => intro l i _; simp
  | cons e pre' ih =>
    intro l i hall
    rw [List.cons_append, sparse_loop_cons_ok (hall e (List.mem_cons_self _ _)),
        ih l (i + 1) (fun e' he' => hall e' (List.mem_cons_of_mem _ he'))]
    congr 1
    simp [List.length_cons]
    omega

theorem valid_sparse_data_eval (t : JDoc) (met : String) (r c : Int) (ds : List PyVal)
    (hmet : jget? t "matrix_element_type" = some (.str met)) (hmk : met ∈ ElementTypeKeys)
    (hshape : jget? t "shape" = some (pl [.int r, .int c]))
    (hdata : jget? t "data" = some (.list (PyList.ofList ds))) :
    valid_sparse_data t = sparse_loop met (r - 1, 1) (c - 1, 1) ds 0 := by
  simp [valid_sparse_data, dtypeOf_of_met hmet hmk, hshape, hdata, unpack2_pair,
        pySub1, pyNum?, numSub1, pyIter, toList_ofList]

/-- C3 (amended): inside sparse validation the per-entry checks run in
source order — entry arity, index integer-typedness, value type, x
bounds, y bounds — and the first failing check's defect is reported for
the first violating entry (everything after it, `rest`, is ignored:
fail-fast).  In particular a bounds violation is reported as a bounds
defect only when the value also matches the element type; when the value
mismatches, the value defect wins (see
`sparse_bounds_defect_masked` refuting the original claim). -/
theorem sparse_first_violation_check_order (t : JDoc) (met : String) (r c : Int)
    (pre rest : List PyVal) (e x y v : PyVal)
    (hmet : jget? t "matrix_element_type" = some (.str met)) (hmk : met ∈ ElementTypeKeys)
    (hshape : jget? t "shape" = some (pl [.int r, .int c]))
    (hdata : jget? t "data" = some (.list (PyList.ofList (pre ++ e :: rest))))
    (hpre : ∀ e' ∈ pre, sparse_entry_ok met (r - 1, 1) (c - 1, 1) e' = true)
    (he : e = pl [x, y, v]) (hx : is_int x = true) (hy : is_int y = true) :
    (isinstanceDtype met v = false →
       valid_sparse_data t
         = some ("Bad value at idx " ++ toString pre.length ++ ": " ++ pyRepr e)) ∧
    (isinstanceDtype met v = true →
       (numLt (pyNumD x) (0, 1) || numLt (r - 1, 1) (pyNumD x)) = true →
       valid_sparse_data t
         = some ("x out of bounds at idx " ++ toString pre.length ++ ": " ++ pyRepr e)) ∧
    (isinstanceDtype met v = true →
       (numLt (pyNumD x) (0, 1) || numLt (r - 1, 1) (pyNumD x)) = false →
       (numLt (pyNumD y) (0, 1) || numLt (c - 1, 1) (pyNumD y)) = true →
       valid_sparse_data t
         = some ("y out of bounds at idx " ++ toString pre.length ++ ": " ++ pyRepr e)) := by
  have hev := valid_sparse_data_eval t met r c (pre ++ e :: rest) hmet hmk hshape hdata
  rw [sparse_loop_append met (r - 1, 1) (c - 1, 1) pre (e :: rest) 0 hpre] at hev
  subst he
  refine ⟨?_, ?_, ?_⟩
  · intro hv
    rw [hev]
    simp [sparse_loop, unpack3_triple, hx, hy, hv]
  · intro hv hxb
    rw [hev]
    simp [sparse_loop, unpack3_triple, hx, hy, hv, hxb]
  · intro hv hxb hyb
    rw [hev]
    simp [sparse_loop, unpack3_triple, hx, hy, hv, hxb, hyb]

/-- C3 witness: the amended theorem applied to the sparse document whose
single entry `(5, 0, u'a')` has both an out-of-bounds x and a wrongly
typed value: the value defect is the one reported. -/
theorem sparse_first_violation_check_order_witness :
    valid_sparse_data sparseBadDoc = some "Bad value at idx 0: [5, 0, u'a']" := by
  have h := (sparse_first_violation_check_order sparseBadDoc "int" 2 2 [] []
    (pl [.int 5, .int 0, .str "a"]) (.int 5) (.int 0) (.str "a")
    rfl (by decide) rfl rfl (by simp) rfl rfl rfl).1 rfl
  simpa using h

/-- C3 counterexample: for the entry `(5, 0, u'a')` with shape `[2, 2]`
and element type `int`, x = 5 is out of bounds, yet the defect produced
is the value-type defect, not a bounds defect — refuting "an entry with
x or y outside the bounds always produces a bounds defect". -/
theorem sparse_bounds_defect_masked :
    valid_sparse_data sparseBadDoc = some "Bad value at idx 0: [5, 0, u'a']" ∧
    numLt ((2 : Int) - 1, 1) (pyNumD (.int 5)) = true ∧
    ¬ ("Bad value at idx 0: [5, 0, u'a']" = "x out of bounds at idx 0: [5, 0, u'a']") :=
  ⟨by decide, by decide, by decide⟩

theorem dense_loop_cons_ok {dtype : String} {nc : PyVal} {row : PyVal} {l : List PyVal}
    (h : dense_row_ok dtype nc row = true) :
    dense_loop dtype nc (row :: l) = dense_loop dtype nc l := by
  rcases hu : pyIter row with _ | elems
  · simp [dense_row_ok, hu] at h
  · simp only [dense_row_ok, hu, Bool.and_eq_true, decide_eq_true_eq] at h
    obtain ⟨⟨h1, h2⟩, h3⟩ := h
    simp only [dense_loop, hu]
    rw [if_neg (by simpa using h1), if_neg (by simpa using h2), if_neg (by simp [h3])]

theorem dense_loop_append (dtype : String) (nc : PyVal) :
    ∀ (pre l : List PyVal),
      (∀ row ∈ pre, dense_row_ok dtype nc row = true) →
      dense_loop dtype nc (pre ++ l) = dense_loop dtype nc l := by
  intro pre
  induction pre with
  | nil => intro l _; simp
  | cons row pre' ih =>
    intro l hall
    rw [List.cons_append, dense_loop_cons_ok (hall row (List.mem_cons_self _ _)),
        ih l (fun r hr => hall r (List.mem_cons_of_mem _ hr))]

theorem dense_loop_all_ok {dtype : String} {nc : PyVal} {rows : List PyVal}
    (h : ∀ row ∈ rows, dense_row_ok dtype nc row = true) :
    dense_loop dtype nc rows = some Option.none := by
  have := dense_loop_append dtype nc rows [] h
  simpa [dense_loop] using this

theorem valid_dense_data_eval (t : JDoc) (met : String) (r c : Int) (rows : List PyVal)
    (hmet : jget? t "matrix_element_type" = some (.str met)) (hmk : met ∈ ElementTypeKeys)
    (hshape : jget? t "shape" = some (pl [.int r, .int c]))
    (hdata : jget? t "data" = some (.list (PyList.ofList rows))) :
    valid_dense_data t =
      (match dense_loop met (.int c) rows with
       | Option.none => Option.none
       | some (some m) => some m
       | some Option.none =>
         if pyNeLen rows.length (.int r) then some "Incorrect number of rows in matrix"
         else some "") := by
  simp [valid_dense_data, dtypeOf_of_met hmet hmk, hshape, hdata, unpack2_pair,
        pyIter, toList_ofList]

/-- C4 (amended): in dense validation every row must have exactly
`n_cols` entries, each matching the element-type predicate, and the first
violating row's content is reported with the function returning
immediately — so the separate row-count defect is reported only when
every row passed its per-row checks (refuted original claim: see
`dense_row_count_not_reported_after_row_defect`). -/
theorem dense_row_count_only_after_rows_pass (t : JDoc) (met : String) (r c : Int)
    (rows : List PyVal)
    (hmet : jget? t "matrix_element_type" = some (.str met)) (hmk : met ∈ ElementTypeKeys)
    (hshape : jget? t "shape" = some (pl [.int r, .int c]))
    (hdata : jget? t "data" = some (.list (PyList.ofList rows))) :
    ((∀ row ∈ rows, dense_row_ok met (.int c) row = true) →
       valid_dense_data t = some (if pyNeLen rows.length (.int r)
         then "Incorrect number of rows in matrix" else "")) ∧
    (∀ (pre rest : List PyVal) (bad : PyVal) (elems : List PyVal),
       rows = pre ++ bad :: rest →
       (∀ row ∈ pre, dense_row_ok met (.int c) row = true) →
       pyIter bad = some elems →
       (pyNeLen elems.length (.int c) = true →
          valid_dense_data t = some ("Incorrect number of cols: " ++ pyRepr bad)) ∧
       (pyNeLen elems.length (.int c) = false → ¬ elems.isEmpty = true →
          elems.all (isinstanceDtype met) = false →
          valid_dense_data t = some ("Bad datatype in row: " ++ pyRepr bad))) := by
  have hev := valid_dense_data_eval t met r c rows hmet hmk hshape hdata
  constructor
  · intro hall
    rw [hev, dense_loop_all_ok hall]
    cases hc : pyNeLen rows.length (.int r) <;> simp [hc]
  · intro pre rest bad elems hsplit hpre hbad
    subst hsplit
    rw [dense_loop_append met (.int c) pre (bad :: rest) hpre] at hev
    constructor
    · intro hlen
      rw [hev]
      simp [dense_loop, hbad, hlen]
    · intro hlen hne hall
      rw [hev]
      simp only [dense_loop, hbad]
      rw [if_neg (by simp [hlen]), if_neg (by simpa using hne), if_pos (by simp [hall])]

/-- C4 witness: the amended theorem applied to the dense document with
shape `[2, 2]` and the single short row `[1]`. -/
theorem dense_row_count_only_after_rows_pass_witness :
    valid_dense_data denseShortRowDoc = some "Incorrect number of cols: [1]" := by
  have h := ((dense_row_count_only_after_rows_pass denseShortRowDoc "int" 2 2
      [pl [.int 1]] rfl (by decide) rfl rfl).2 [] [] (pl [.int 1]) [.int 1]
      rfl (by simp) rfl).1 (by decide)
  simpa using h

/-- C4 counterexample: with shape `[2, 2]` and data `[[1]]` the single
row fails the column-count check and its defect is the whole result; the
row count (1 ≠ 2) is also wrong, yet no "Incorrect number of rows in
matrix" defect is reported — refuting "row-count mismatch is reported as
a separate defect at the end regardless of the per-row outcome". -/
theorem dense_row_count_not_reported_after_row_defect :
    valid_dense_data denseShortRowDoc = some "Incorrect number of cols: [1]" ∧
    pyNeLen 1 (.int 2) = true ∧
    ¬ ("Incorrect number of cols: [1]" = "Incorrect number of rows in matrix") :=
  ⟨by decide, by decide, by decide⟩

theorem string_length_append (a b : String) : (a ++ b).length = a.length + b.length := by
  cases a with
  | mk d1 =>
    cases b with
    | mk d2 =>
      simp only [String.length, HAppend.hAppend, String.append]
      exact List.length_append d1 d2

theorem length_append_pos_left (a b : String) (h : 0 < a.length) : 0 < (a ++ b).length := by
  rw [string_length_append]; omega

theorem records_loop_cons_ok {kind : String} {row : PyVal} {l : List PyVal} {i : Nat}
    (h : record_ok row = true) :
    records_loop kind (row :: l) i = records_loop kind l (i + 1) := by
  simp only [record_ok, Bool.and_eq_true, decide_eq_true_eq] at h
  obtain ⟨⟨⟨h1, h2⟩, h3⟩, h4⟩ := h
  simp [records_loop, h1, h2, h3, h4, empty_string_length]

theorem records_loop_append (kind : String) :
    ∀ (pre l : List PyVal) (i : Nat),
      (∀ r ∈ pre, record_ok r = true) →
      records_loop kind (pre ++ l) i = records_loop kind l (i + pre.length) := by
  intro pre
  induction pre with
  | nil => intro l i _; simp
  | cons row pre' ih =>
    intro l i hall
    rw [List.cons_append, records_loop_cons_ok (hall row (List.mem_cons_self _ _)),
        ih l (i + 1) (fun r hr => hall r (List.mem_cons_of_mem _ hr))]
    congr 1
    simp
    omega

theorem valid_rows_eval (t : JDoc) (ty : String) (rs : List PyVal)
    (hty : jget? t "type" = some (.str ty))
    (hrows : jget? t "rows" = some (.list (PyList.ofList rs))) :
    valid_rows t = records_loop "ROW" rs 0 := by
  simp [valid_rows, hty, hrows, pyIter, toList_ofList]

/-- C8 (amended): in the rows rule, a record missing `id` or `metadata`
aborts the loop with a message naming the record's index and the missing
field; a present-but-invalid field aborts with the per-field message,
which interpolates the record's content but not its index (empty `id`:
`'id' in <record> appears empty`; bad metadata: `metadata is neither
null or an object`).  The original "the message identifies the entry's
index" is refuted for the empty-id case by
`empty_id_message_lacks_index`. -/
theorem rows_first_violation_messages (t : JDoc) (ty : String)
    (pre rest : List PyVal) (bad : PyVal)
    (hty : jget? t "type" = some (.str ty))
    (hrows : jget? t "rows" = some (.list (PyList.ofList (pre ++ bad :: rest))))
    (hpre : ∀ r ∈ pre, record_ok r = true) :
    (pyContains bad "id" = some false →
       valid_rows t = some ("ROW IDX " ++ toString pre.length ++ " MISSING 'id' FIELD")) ∧
    (∀ idv : PyVal, pyContains bad "id" = some true →
       pySubscrS bad "id" = some idv → pyTruthy idv = false →
       valid_rows t = some ("'id' in " ++ pyStrOf bad ++ " appears empty")) ∧
    (pyContains bad "id" = some true → valid_id bad = some "" →
       pyContains bad "metadata" = some false →
       valid_rows t = some ("ROW IDX " ++ toString pre.length ++ " MISSING 'metadata' FIELD")) := by
  have hev := valid_rows_eval t ty (pre ++ bad :: rest) hty hrows
  rw [records_loop_append "ROW" pre (bad :: rest) 0 hpre] at hev
  refine ⟨?_, ?_, ?_⟩
  · intro hcont
    rw [hev]
    simp [records_loop, hcont]
  · intro idv hcont hsub htr
    have hid : valid_id bad = some ("'id' in " ++ pyStrOf bad ++ " appears empty") := by
      simp [valid_id, hsub, htr]
    rw [hev]
    simp only [records_loop, hcont, hid]
    rw [if_pos]
    exact length_append_pos_left _ _ (length_append_pos_left _ _ (by decide))
  · intro hcont hid hmeta
    rw [hev]
    simp [records_loop, hcont, hid, empty_string_length, hmeta]

/-- C8 witness: the amended theorem applied to the rows list whose
second record (index 1) has an empty `id`. -/
theorem rows_first_violation_messages_witness :
    valid_rows emptyIdRowsDoc
      = some ("'id' in " ++ pyStrOf (po [("id", .str ""), ("metadata", .none)])
              ++ " appears empty") :=
  (rows_first_violation_messages emptyIdRowsDoc "OTU table"
    [po [("id", .str "r1"), ("metadata", .none)]] []
    (po [("id", .str ""), ("metadata", .none)])
    rfl rfl (by decide)).2.1 (.str "") (by decide) rfl rfl

/-- C8 counterexample: the empty-id defect for the record at index 1 is
`'id' in ⋯ appears empty`, a message containing no character `1` at all,
so it does not identify the violating entry's index — refuting "an entry
with an empty 'id' produces a defect message that identifies that
entry's index". -/
theorem empty_id_message_lacks_index :
    valid_rows emptyIdRowsDoc
      = some "'id' in \x7bu'id': u'', u'metadata': None\x7d appears empty" ∧
    ("'id' in \x7bu'id': u'', u'metadata': None\x7d appears empty").toList.contains '1' = false :=
  ⟨by decide, by decide⟩

/-- C9: for a flat document whose `matrix_type` is any string outside the
case-sensitive set `{sparse, dense}`, the matrix_type rule reports
"Unknown 'matrix_type'"; yet whenever the value lower-cases to `sparse`
(resp. `dense`) the data rule still dispatches to the sparse (resp.
dense) content validation, because `_valid_data` lowercases before
comparing — the same document gets both the defect and data-content
validation. -/
theorem matrix_type_case_mismatch_dispatch (t : JDoc) (s : String)
    (hmt : jget? t "matrix_type" = some (.str s)) (hnot : ¬ s ∈ MatrixTypes) :
    valid_matrix_type t = some "Unknown 'matrix_type'" ∧
    (pyLower s = "sparse" → valid_data t = valid_sparse_data t) ∧
    (pyLower s = "dense" → valid_data t = valid_dense_data t) := by
  refine ⟨?_, fun h => valid_data_dispatch_sparse hmt h,
          fun h => valid_data_dispatch_dense hmt h⟩
  simp [valid_matrix_type, hmt, pyMemStrSet, hnot]

/-- C9 witness: with `matrix_type = "Sparse"` the rule reports the
defect while the data rule dispatches to (and runs) sparse validation,
which passes on the document's conformant sparse content. -/
theorem matrix_type_case_mismatch_dispatch_witness :
    valid_matrix_type mixedCaseDoc = some "Unknown 'matrix_type'" ∧
    valid_data mixedCaseDoc = valid_sparse_data mixedCaseDoc ∧
    valid_sparse_data mixedCaseDoc = some "" :=
  ⟨(matrix_type_case_mismatch_dispatch mixedCaseDoc "Sparse" rfl (by decide)).1,
   (matrix_type_case_mismatch_dispatch mixedCaseDoc "Sparse" rfl (by decide)).2.1 (by decide),
   by decide⟩

/-- C10: booleans satisfy every integer-typed check: `_is_int` accepts
them (Python 2 `bool` subclasses `int`), so a shape that is a pair of
booleans passes the shape rule, a sparse entry with boolean `True` as
its row index passes the index type check (and here also the bounds
checks, since `True == 1`), and a boolean `nnz` attribute passes the nnz
rule. -/
theorem bool_passes_integer_checks :
    (∀ b : Bool, is_int (.bool b) = true) ∧
    (∀ (t : JDoc) (b1 b2 : Bool), jgetD t "shape" = pl [.bool b1, .bool b2] →
       valid_shapeJ t = some "") ∧
    valid_sparse_data boolSparseDoc = some "" ∧
    (∀ (T : H5Table) (b : Bool), attrGet? T "nnz" = some (.bool b) →
       valid_nnz T = some "") := by
  refine ⟨fun b => rfl, ?_, by decide, ?_⟩
  · intro t b1 b2 h
    rw [valid_shapeJ, valid_shape, json_or_hdf5_get, h, unpack2_pair]
    simp [is_int]
  · intro T b h
    cases b <;> simp [valid_nnz, h, is_int, numLt, pyNumD, pyNum?]

/-- C10 witness: the theorem applied to the boolean-shape document and
the boolean-nnz table. -/
theorem bool_passes_integer_checks_witness :
    valid_shapeJ boolShapeDoc = some "" ∧ valid_nnz boolNnzTable = some "" :=
  ⟨bool_passes_integer_checks.2.1 boolShapeDoc true false rfl,
   bool_passes_integer_checks.2.2.2 boolNnzTable true rfl⟩
